import Mathlib

/-!
# limonEngine `GLHelper`: GPU object registry, state cache, uniform buffers,
render target pipeline, draw dispatch and frustum planes

A shallow embedding of `src/GLHelper.cpp`.

* Handles (`GLuint`) are natural numbers; no arithmetic is done on them.  Byte
  sizes and offsets (`size_t`, `GLsizeiptr`) are natural numbers as well.
* The OpenGL driver is external to the repository.  Its relevant state is the
  record `Driver`; the name a `glGen*` call hands back is chosen by the driver
  and is therefore an explicit argument of the operation that performs the call.
* `checkErrors` only queries the driver error flag and logs, so it is left out.
* Every operation takes the `GLHelper` object and returns the updated object
  (together with the C++ return value where there is one).
* The data store of a uniform buffer is a list of bytes; values uploaded to it
  are given by the bytes they occupy in memory.
* `float` values (frustum planes, camera) belong to a number type `α` that comes
  with its own operators `+`, `-`, `*`, `/`.  No law is assumed of the
  operators, so what is defined and proved for every `α` holds for binary32
  with its rounding, infinities and NaN.  The glm functions `inversesqrt`,
  `inverse`, `perspective` and `ortho` are parameters; `dot`, `normalize` and
  the matrix products are written out with the operators of `α`.
-/

set_option autoImplicit false

namespace Limon

/-! ## Driver state -/

/-- The face selected by `glCullFace`: `GL_FRONT` or `GL_BACK`. -/
inductive CullFace where
  | FRONT
  | BACK
deriving DecidableEq, Repr

/-- The arguments of one `glBindBufferRange` call: buffer name, byte offset, byte size. -/
structure BufferRange where
  buffer : Nat
  offset : Nat
  size : Nat
deriving DecidableEq, Repr

/-- The attachment point of a framebuffer: `GL_DEPTH_ATTACHMENT` or
`GL_COLOR_ATTACHMENT0 + n`. -/
inductive AttachmentPoint where
  | DEPTH
  | COLOR (n : Nat)
deriving DecidableEq, Repr

/-- The part of the OpenGL context that the operations below read or change.
`buffers`, `vertexArrays`, `textures` and `programs` hold the names for which
`glIsBuffer`, `glIsVertexArray`, `glIsTexture` and `glIsProgram` answer true;
`texture2D` and `textureCubeMap` hold, per texture unit, the texture bound to
the `GL_TEXTURE_2D` and `GL_TEXTURE_CUBE_MAP` target; `vertexArrayBinding` and
`elementArrayBinding` are the names passed to the last `glBindVertexArray` and
`glBindBuffer(GL_ELEMENT_ARRAY_BUFFER, ..)` call; the three counters spy on
`glUseProgram`, the draw calls and the `glUniform*` writes.  `texture2DArray`
and `textureCubeMapArray` are the per-unit bindings of the two array targets;
`viewport`, `framebufferBinding` and `cullFace` hold the arguments of the last
`glViewport`, `glBindFramebuffer` and `glCullFace` call (initially the default
framebuffer and `GL_BACK`); `depthLayers` lists the `glFramebufferTextureLayer`
depth attachments as (framebuffer, texture, level, layer), latest first;
`uniformBufferRanges` lists the `glBindBufferRange` calls on `GL_UNIFORM_BUFFER`
as (binding point, range), latest first.  `framebuffers` and `renderbuffers`
hold the names that are framebuffer and renderbuffer objects,
`renderbufferBinding` the name passed to the last `glBindRenderbuffer` call;
`textureImages` lists the images given to textures by `glTexImage2D` and
`glTexImage3D` as (texture, width, height), `renderbufferStorage` the calls of
`glRenderbufferStorage` as (renderbuffer, width, height), `framebufferTextures`
and `framebufferRenderbuffers` the texture and renderbuffer attachments other
than those of `depthLayers` as (framebuffer, attachment point, name), each
latest first. -/
structure Driver where
  buffers : List Nat := []
  vertexArrays : List Nat := []
  textures : List Nat := []
  programs : List Nat := []
  currentProgram : Nat := 0
  useProgramCalls : Nat := 0
  activeTexture : Nat := 0
  texture2D : List Nat := []
  textureCubeMap : List Nat := []
  vertexArrayBinding : Nat := 0
  elementArrayBinding : Nat := 0
  drawCalls : Nat := 0
  uniformWrites : Nat := 0
  texture2DArray : List Nat := []
  textureCubeMapArray : List Nat := []
  viewport : Nat × Nat × Nat × Nat := (0, 0, 0, 0)
  framebufferBinding : Nat := 0
  cullFace : CullFace := CullFace.BACK
  depthLayers : List (Nat × Nat × Nat × Nat) := []
  uniformBufferRanges : List (Nat × BufferRange) := []
  framebuffers : List Nat := []
  renderbuffers : List Nat := []
  renderbufferBinding : Nat := 0
  textureImages : List (Nat × Nat × Nat) := []
  renderbufferStorage : List (Nat × Nat × Nat) := []
  framebufferTextures : List (Nat × AttachmentPoint × Nat) := []
  framebufferRenderbuffers : List (Nat × AttachmentPoint × Nat) := []
deriving DecidableEq, Repr

/-- A name becomes an object of its kind when it is first bound; binding 0
unbinds and creates nothing. -/
def createOnBind (objects : List Nat) (name : Nat) : List Nat :=
  if name = 0 ∨ name ∈ objects then objects else objects ++ [name]

/-- The call `glBindBuffer(target, name)`, as far as object existence goes. -/
def glBindBuffer (d : Driver) (name : Nat) : Driver :=
  { d with buffers := createOnBind d.buffers name }

/-- The call `glBindBuffer(GL_ELEMENT_ARRAY_BUFFER, name)`. -/
def glBindElementArrayBuffer (d : Driver) (name : Nat) : Driver :=
  { d with buffers := createOnBind d.buffers name, elementArrayBinding := name }

/-- The call `glBindVertexArray(name)`. -/
def glBindVertexArray (d : Driver) (name : Nat) : Driver :=
  { d with vertexArrays := createOnBind d.vertexArrays name, vertexArrayBinding := name }

/-- The query `glIsBuffer(name)`. -/
def glIsBuffer (d : Driver) (name : Nat) : Bool :=
  decide (name ∈ d.buffers)

/-- The query `glIsVertexArray(name)`. -/
def glIsVertexArray (d : Driver) (name : Nat) : Bool :=
  decide (name ∈ d.vertexArrays)

/-- The query `glIsProgram(name)`. -/
def glIsProgram (d : Driver) (name : Nat) : Bool :=
  decide (name ∈ d.programs)

/-- The call `glDeleteBuffers(number, &name)`; every call site passes `number = 1`. -/
def glDeleteBuffers (d : Driver) (number name : Nat) : Driver :=
  if number = 0 then d else { d with buffers := d.buffers.filter (fun b => b ≠ name) }

/-- The call `glDeleteVertexArrays(number, &name)`. -/
def glDeleteVertexArrays (d : Driver) (number name : Nat) : Driver :=
  if number = 0 then d else { d with vertexArrays := d.vertexArrays.filter (fun b => b ≠ name) }

/-! ## The state cache -/

/-- Modelled from the spec: the class `OpenglState` is declared in `GLHelper.h`,
which is not among the sources.  Following section 4.2 and the glossary it is
the in-process record of the last-bound program and of the last-bound texture
for every texture unit. -/
structure OpenglState where
  activeProgram : Nat := 0
  textures : List Nat := []
deriving DecidableEq, Repr

/-! ## The `GLHelper` object -/

/-- The values of the external options object that `GLHelper` reads through
its getters (`getScreenWidth`, `getShadowMapDirectionalWidth`, ..). -/
structure Options where
  screenWidth : Nat := 0
  screenHeight : Nat := 0
  shadowMapDirectionalWidth : Nat := 0
  shadowMapDirectionalHeight : Nat := 0
  shadowMapPointWidth : Nat := 0
  shadowMapPointHeight : Nat := 0
deriving DecidableEq, Repr

/-- The fields of `GLHelper` used by the operations below. -/
structure GLHelper where
  bufferObjects : List Nat := []
  vertexArrays : List Nat := []
  state : OpenglState := {}
  renderTriangleCount : Nat := 0
  uniformSetCount : Nat := 0
  gl : Driver := {}
  options : Options := {}
  screenWidth : Nat := 0
  screenHeight : Nat := 0
  maxTextureImageUnits : Int := 0
  depthOnlyFrameBufferDirectional : Nat := 0
  depthMapDirectional : Nat := 0
  depthOnlyFrameBufferPoint : Nat := 0
  depthCubemapPoint : Nat := 0
  depthOnlyFrameBuffer : Nat := 0
  depthMap : Nat := 0
  coloringFrameBuffer : Nat := 0
  normalMap : Nat := 0
  diffuseAndSpecularLightedMap : Nat := 0
  ambientMap : Nat := 0
  ssaoGenerationFrameBuffer : Nat := 0
  ssaoMap : Nat := 0
  ssaoBlurFrameBuffer : Nat := 0
  ssaoBlurredMap : Nat := 0
  noiseTexture : Nat := 0
  allMaterialsUBOLocation : Nat := 0
  materialUniformSize : Nat := 0
  activeMaterialIndex : Nat := 0
  lightUBOLocation : Nat := 0
  playerUBOLocation : Nat := 0
  allModelsUBOLocation : Nat := 0
  allModelIndexesUBOLocation : Nat := 0
  rboDepth : Nat := 0
deriving DecidableEq, Repr

/-! ## GPU object registry (`GLHelper.cpp` lines 550-653) -/

/-- Method `GLHelper::generateBuffer`; `bufferID` is the name `glGenBuffers` wrote. -/
def generateBuffer (g : GLHelper) (_number : Nat) (bufferID : Nat) : GLHelper × Nat :=
  ({ g with bufferObjects := g.bufferObjects ++ [bufferID] }, bufferID)

/-- Method `GLHelper::deleteBuffer`. -/
def deleteBuffer (g : GLHelper) (number bufferID : Nat) : GLHelper × Bool :=
  if glIsBuffer g.gl bufferID then
    ({ g with gl := glDeleteBuffers g.gl number bufferID }, true)
  else
    (g, false)

/-- The scan `for (i = 0; i < v.size(); ++i) if (v[i] == id)` of `freeBuffer`
and `freeVAO`: the index at which the loop body fires, counted from `i`. -/
def firstMatch (id : Nat) : List Nat → Nat → Option Nat
  | [], _ => none
  | x :: rest, i => if x = id then some i else firstMatch id rest (i + 1)

/-- The statements `v[i] = v[v.size() - 1]; v.pop_back();`. -/
def swapRemove (v : List Nat) (i : Nat) : List Nat :=
  (v.set i (v.getD (v.length - 1) 0)).dropLast

/-- Method `GLHelper::freeBuffer`. -/
def freeBuffer (g : GLHelper) (bufferID : Nat) : GLHelper × Bool :=
  match firstMatch bufferID g.bufferObjects 0 with
  | some i =>
    let g1 := (deleteBuffer g 1 (g.bufferObjects.getD i 0)).1
    ({ g1 with bufferObjects := swapRemove g1.bufferObjects i }, true)
  | none => (g, false)

/-- Method `GLHelper::generateVAO`; `bufferID` is the name `glGenVertexArrays` wrote. -/
def generateVAO (g : GLHelper) (_number : Nat) (bufferID : Nat) : GLHelper × Nat :=
  ({ g with vertexArrays := g.vertexArrays ++ [bufferID] }, bufferID)

/-- Method `GLHelper::deleteVAO`; the existence test in the source is `glIsBuffer`. -/
def deleteVAO (g : GLHelper) (number bufferID : Nat) : GLHelper × Bool :=
  if glIsBuffer g.gl bufferID then
    ({ g with gl := glDeleteVertexArrays g.gl number bufferID }, true)
  else
    (g, false)

/-- Method `GLHelper::freeVAO`; the source calls `deleteBuffer` on the matched entry. -/
def freeVAO (g : GLHelper) (bufferID : Nat) : GLHelper × Bool :=
  match firstMatch bufferID g.vertexArrays 0 with
  | some i =>
    let g1 := (deleteBuffer g 1 (g.vertexArrays.getD i 0)).1
    ({ g1 with vertexArrays := swapRemove g1.vertexArrays i }, true)
  | none => (g, false)

/-- The handle triple `bufferVertexData` writes to its reference parameters. -/
structure Handles where
  vao : Nat
  vbo : Nat
  ebo : Nat
deriving DecidableEq, Repr

/-- Method `GLHelper::bufferVertexData`.  `eboName`, `vaoName` and `vboName` are the
names the driver hands out at the three `glGen*` calls, in program order. -/
def bufferVertexData (g : GLHelper) (eboName vaoName vboName : Nat) : GLHelper × Handles :=
  -- ebo = generateBuffer(1); glBindBuffer(GL_ELEMENT_ARRAY_BUFFER, ebo);
  let (g1, ebo) := generateBuffer g 1 eboName
  let g2 := { g1 with gl := glBindElementArrayBuffer g1.gl ebo }
  -- glGenVertexArrays(1, &temp); glBindVertexArray(temp); vao = temp;
  let g3 := { g2 with gl := glBindVertexArray g2.gl vaoName }
  -- vbo = generateBuffer(1); bufferObjects.push_back(vbo);
  let (g4, vbo) := generateBuffer g3 1 vboName
  let g5 := { g4 with bufferObjects := g4.bufferObjects ++ [vbo] }
  -- glBindBuffer(GL_ARRAY_BUFFER, vbo); ... glBindBuffer(GL_ARRAY_BUFFER, 0); glBindVertexArray(0);
  let g6 := { g5 with gl := glBindVertexArray (glBindBuffer (glBindBuffer g5.gl vbo) 0) 0 }
  (g6, { vao := vaoName, vbo := vbo, ebo := ebo })

/-- Method `GLHelper::bufferNormalData`; `vboName` is the name `glGenBuffers` wrote. -/
def bufferNormalData (g : GLHelper) (vao : Nat) (vboName : Nat) : GLHelper × Nat :=
  let (g1, vbo) := generateBuffer g 1 vboName
  let g2 := { g1 with gl := glBindBuffer g1.gl vbo }
  let g3 := { g2 with gl := glBindVertexArray (glBindVertexArray g2.gl vao) 0 }
  (g3, vbo)

/-! ## State cache operations and the functions that bind -/

/-- The call `glUseProgram(program)`. -/
def glUseProgram (d : Driver) (program : Nat) : Driver :=
  { d with currentProgram := program, useProgramCalls := d.useProgramCalls + 1 }

/-- The call `glActiveTexture(GL_TEXTURE0 + unit)`. -/
def glActiveTexture (d : Driver) (unit : Nat) : Driver :=
  { d with activeTexture := unit }

/-- The call `glBindTexture(GL_TEXTURE_2D, texture)`: it binds on the active unit. -/
def glBindTexture2D (d : Driver) (texture : Nat) : Driver :=
  { d with textures := createOnBind d.textures texture,
           texture2D := d.texture2D.set d.activeTexture texture }

/-- The call `glBindTexture(GL_TEXTURE_CUBE_MAP, texture)`: it binds on the active unit. -/
def glBindTextureCubeMap (d : Driver) (texture : Nat) : Driver :=
  { d with textures := createOnBind d.textures texture,
           textureCubeMap := d.textureCubeMap.set d.activeTexture texture }

/-- The call `glDrawElements` or `glDrawElementsInstanced`. -/
def glDrawElements (d : Driver) : Driver :=
  { d with drawCalls := d.drawCalls + 1 }

/-- Modelled from the spec: `OpenglState::setProgram` (declared in `GLHelper.h`,
not among the sources).  Section 4.2: a no-op if the requested binding already
matches cached state, else issues the bind and updates the cache. -/
def OpenglState.setProgram (st : OpenglState) (d : Driver) (program : Nat) :
    OpenglState × Driver :=
  if st.activeProgram = program then (st, d)
  else ({ st with activeProgram := program }, glUseProgram d program)

/-- Modelled from the spec: `OpenglState::activateTextureUnit` (declared in
`GLHelper.h`, not among the sources): it makes `unit` the active texture unit. -/
def OpenglState.activateTextureUnit (st : OpenglState) (d : Driver) (unit : Nat) :
    OpenglState × Driver :=
  (st, glActiveTexture d unit)

/-- Modelled from the spec: `OpenglState::attachTexture` (declared in `GLHelper.h`,
not among the sources).  Section 4.2: a no-op if the requested binding already
matches cached state, else issues the bind (on that unit, target
`GL_TEXTURE_2D`) and updates the cache. -/
def OpenglState.attachTexture (st : OpenglState) (d : Driver) (textureID unit : Nat) :
    OpenglState × Driver :=
  if st.textures.getD unit 0 = textureID then (st, d)
  else ({ st with textures := st.textures.set unit textureID },
        glBindTexture2D (glActiveTexture d unit) textureID)

/-- Modelled from the spec: `OpenglState::attachCubemap` (declared in `GLHelper.h`,
not among the sources).  Section 4.2: a no-op if the requested binding already
matches cached state, else issues the bind (on that unit, target
`GL_TEXTURE_CUBE_MAP`) and updates the cache. -/
def OpenglState.attachCubemap (st : OpenglState) (d : Driver) (cubeMapID unit : Nat) :
    OpenglState × Driver :=
  if st.textures.getD unit 0 = cubeMapID then (st, d)
  else ({ st with textures := st.textures.set unit cubeMapID },
        glBindTextureCubeMap (glActiveTexture d unit) cubeMapID)

/-- Method `GLHelper::attachTexture`. -/
def attachTexture (g : GLHelper) (textureID attachPoint : Nat) : GLHelper :=
  let r := g.state.attachTexture g.gl textureID attachPoint
  { g with state := r.1, gl := r.2 }

/-- Method `GLHelper::attachCubeMap`. -/
def attachCubeMap (g : GLHelper) (cubeMapID attachPoint : Nat) : GLHelper :=
  let r := g.state.attachCubemap g.gl cubeMapID attachPoint
  { g with state := r.1, gl := r.2 }

/-- Method `GLHelper::loadTexture`; `texture` is the name `glGenTextures` wrote.  The
image upload and the sampling parameters do not touch the bindings. -/
def loadTexture (g : GLHelper) (texture : Nat) : GLHelper × Nat :=
  -- state->activateTextureUnit(0);
  let r := g.state.activateTextureUnit g.gl 0
  -- glBindTexture(GL_TEXTURE_2D, texture); ... glBindTexture(GL_TEXTURE_2D, 0);
  let d := glBindTexture2D (glBindTexture2D r.2 texture) 0
  ({ g with state := r.1, gl := d }, texture)

/-- Method `GLHelper::loadCubeMap`; `cubeMap` is the name `glGenTextures` wrote. -/
def loadCubeMap (g : GLHelper) (cubeMap : Nat) : GLHelper × Nat :=
  -- glBindTexture(GL_TEXTURE_CUBE_MAP, cubeMap); ... glBindTexture(GL_TEXTURE_CUBE_MAP, 0);
  let d := glBindTextureCubeMap (glBindTextureCubeMap g.gl cubeMap) 0
  ({ g with gl := d }, cubeMap)

/-- Wrap-around of the counters `renderTriangleCount` and `uniformSetCount`
(fields declared in `GLHelper.h`, not among the sources; taken as `uint32_t`). -/
def wrap32 (n : Nat) : Nat := n % 2 ^ 32

/-- Method `GLHelper::render`. -/
def render (g : GLHelper) (program vao ebo elementCount : Nat) : GLHelper :=
  if program = 0 then g
  else
    let r := g.state.setProgram g.gl program
    let d := glBindElementArrayBuffer (glBindVertexArray r.2 vao) ebo
    { g with state := r.1,
             renderTriangleCount := wrap32 (g.renderTriangleCount + elementCount),
             gl := glBindVertexArray (glDrawElements d) 0 }

/-- Method `GLHelper::setUniform` (the `mat4`, `vec3`, `float` and `int` overloads share
this control flow; the value written is not part of the state modelled here). -/
def setUniform (g : GLHelper) (programID _uniformID : Nat) : GLHelper × Bool :=
  if glIsProgram g.gl programID then
    let r := g.state.setProgram g.gl programID
    ({ g with state := r.1,
              uniformSetCount := wrap32 (g.uniformSetCount + 1),
              gl := { r.2 with uniformWrites := r.2.uniformWrites + 1 } }, true)
  else
    (g, false)

/-! ## Uniform buffers -/

/-- Size `sizeof(uint32_t)`. -/
def sizeofUint32 : Nat := 4

/-- Size `sizeof(glm::uvec4)`. -/
def sizeofUvec4 : Nat := 16

/-- Size in bytes of the model-index uniform buffer the constructor allocates
(line 345): `sizeof(uint32_t) * NR_MAX_MODELS`.  The constant `NR_MAX_MODELS` is
defined in `GLHelper.h`, which is not among the sources, so it is a parameter. -/
def modelIndexBufferSize (NR_MAX_MODELS : Nat) : Nat :=
  sizeofUint32 * NR_MAX_MODELS

/-- One `glBufferSubData(target, offset, size, data)` call on a buffer. -/
structure SubDataWrite where
  offset : Nat
  size : Nat
  data : List (Nat × Nat × Nat × Nat)
deriving DecidableEq, Repr

/-- Method `GLHelper::setModelIndexesUBO`: the sub-range write it issues, or `none`
when `temp.at(0)` throws `std::out_of_range` (empty list). -/
def setModelIndexesUBO (modelIndicesList : List Nat) : Option SubDataWrite :=
  let temp := modelIndicesList.map (fun index => (index, 0, 0, 0))
  match temp with
  | [] => none
  | _ :: _ =>
    some { offset := 0, size := sizeofUvec4 * modelIndicesList.length, data := temp }

/-- Conversion of a `GLint` to `unsigned int` in a mixed comparison or assignment. -/
def toUnsigned32 (a : Int) : Nat := (a % 2 ^ 32).toNat

/-- Constructor, lines 301-306: the padding of `materialUniformSize` to the
queried `GL_UNIFORM_BUFFER_OFFSET_ALIGNMENT`.  The first argument is the value
the field has before the constructor body runs (its initialiser is in
`GLHelper.h`, not among the sources); the field is taken as an unsigned 32-bit
integer, `uniformBufferAlignSize` is a `GLint`, so the comparison converts the
latter to unsigned. -/
def padMaterialUniformSize (materialUniformSize : Nat) (uniformBufferAlignSize : Int) : Nat :=
  if toUnsigned32 uniformBufferAlignSize > materialUniformSize then
    toUnsigned32 uniformBufferAlignSize
  else
    materialUniformSize

/-! ## Render target pipeline (`GLHelper.cpp` lines 705-766) -/

/-- The call `glViewport(x, y, width, height)`. -/
def glViewport (d : Driver) (x y width height : Nat) : Driver :=
  { d with viewport := (x, y, width, height) }

/-- The call `glBindFramebuffer(GL_FRAMEBUFFER, framebuffer)`. -/
def glBindFramebuffer (d : Driver) (framebuffer : Nat) : Driver :=
  { d with framebuffers := createOnBind d.framebuffers framebuffer,
           framebufferBinding := framebuffer }

/-- The call `glFramebufferTextureLayer(GL_FRAMEBUFFER, GL_DEPTH_ATTACHMENT, texture,
level, layer)`: it attaches to the framebuffer that is bound. -/
def glFramebufferTextureLayer (d : Driver) (texture level layer : Nat) : Driver :=
  { d with depthLayers := (d.framebufferBinding, texture, level, layer) :: d.depthLayers }

/-- The call `glCullFace(mode)`. -/
def glCullFace (d : Driver) (mode : CullFace) : Driver :=
  { d with cullFace := mode }

/-- The depth attachment `(texture, level, layer)` that the framebuffer received
from its latest `glFramebufferTextureLayer` call, if any. -/
def depthLayerOf (d : Driver) (framebuffer : Nat) : Option (Nat × Nat × Nat) :=
  (d.depthLayers.find? (fun e => e.1 = framebuffer)).map (fun e => e.2)

/-- The call `glBindTexture(GL_TEXTURE_2D_ARRAY, texture)`: it binds on the active unit. -/
def glBindTexture2DArray (d : Driver) (texture : Nat) : Driver :=
  { d with textures := createOnBind d.textures texture,
           texture2DArray := d.texture2DArray.set d.activeTexture texture }

/-- The call `glBindTexture(GL_TEXTURE_CUBE_MAP_ARRAY_ARB, texture)`: it binds on
the active unit. -/
def glBindTextureCubeMapArray (d : Driver) (texture : Nat) : Driver :=
  { d with textures := createOnBind d.textures texture,
           textureCubeMapArray := d.textureCubeMapArray.set d.activeTexture texture }

/-- Modelled from the spec: `OpenglState::attach2DTextureArray` (declared in
`GLHelper.h`, not among the sources).  Section 4.2, `attach_2d_array`: a no-op
if the requested binding already matches cached state, else issues the bind
(on that unit, target `GL_TEXTURE_2D_ARRAY`) and updates the cache. -/
def OpenglState.attach2DTextureArray (st : OpenglState) (d : Driver) (textureID unit : Nat) :
    OpenglState × Driver :=
  if st.textures.getD unit 0 = textureID then (st, d)
  else ({ st with textures := st.textures.set unit textureID },
        glBindTexture2DArray (glActiveTexture d unit) textureID)

/-- Modelled from the spec: `OpenglState::attachCubemapArray` (declared in
`GLHelper.h`, not among the sources), taken to follow the same contract (spec
4.2) as the other attach operations, on target `GL_TEXTURE_CUBE_MAP_ARRAY_ARB`. -/
def OpenglState.attachCubemapArray (st : OpenglState) (d : Driver) (textureID unit : Nat) :
    OpenglState × Driver :=
  if st.textures.getD unit 0 = textureID then (st, d)
  else ({ st with textures := st.textures.set unit textureID },
        glBindTextureCubeMapArray (glActiveTexture d unit) textureID)

/-- Method `GLHelper::switchRenderToShadowMapDirectional`. -/
def switchRenderToShadowMapDirectional (g : GLHelper) (index : Nat) : GLHelper :=
  let d1 := glViewport g.gl 0 0 g.options.shadowMapDirectionalWidth
    g.options.shadowMapDirectionalHeight
  let d2 := glBindFramebuffer d1 g.depthOnlyFrameBufferDirectional
  let d3 := glFramebufferTextureLayer d2 g.depthMapDirectional 0 index
  { g with gl := glCullFace d3 CullFace.FRONT }

/-- Method `GLHelper::switchRenderToShadowMapPoint`. -/
def switchRenderToShadowMapPoint (g : GLHelper) : GLHelper :=
  let d1 := glViewport g.gl 0 0 g.options.shadowMapPointWidth g.options.shadowMapPointHeight
  let d2 := glBindFramebuffer d1 g.depthOnlyFrameBufferPoint
  { g with gl := glCullFace d2 CullFace.FRONT }

/-- Method `GLHelper::switchRenderToDepthPrePass`. -/
def switchRenderToDepthPrePass (g : GLHelper) : GLHelper :=
  let d1 := glViewport g.gl 0 0 g.screenWidth g.screenHeight
  let d2 := glBindFramebuffer d1 g.depthOnlyFrameBuffer
  { g with gl := glCullFace d2 CullFace.BACK }

/-- Method `GLHelper::switchRenderToColoring`. -/
def switchRenderToColoring (g : GLHelper) : GLHelper :=
  let d1 := glViewport g.gl 0 0 g.screenWidth g.screenHeight
  let d2 := glBindFramebuffer d1 g.coloringFrameBuffer
  let r1 := g.state.attach2DTextureArray d2 g.depthMapDirectional
    (toUnsigned32 (g.maxTextureImageUnits - 1))
  let r2 := r1.1.attachCubemapArray r1.2 g.depthCubemapPoint
    (toUnsigned32 (g.maxTextureImageUnits - 2))
  let r3 := r2.1.attachTexture r2.2 g.depthMap (toUnsigned32 (g.maxTextureImageUnits - 3))
  let r4 := r3.1.attachTexture r3.2 g.noiseTexture (toUnsigned32 (g.maxTextureImageUnits - 4))
  { g with state := r4.1, gl := glCullFace r4.2 CullFace.BACK }

/-- Method `GLHelper::switchRenderToSSAOGeneration`. -/
def switchRenderToSSAOGeneration (g : GLHelper) : GLHelper :=
  let d1 := glViewport g.gl 0 0 g.screenWidth g.screenHeight
  let d2 := glBindFramebuffer d1 g.ssaoGenerationFrameBuffer
  let r1 := g.state.attachTexture d2 g.depthMap 1
  let r2 := r1.1.attachTexture r1.2 g.normalMap 2
  let r3 := r2.1.attachTexture r2.2 g.noiseTexture 3
  { g with state := r3.1, gl := glCullFace r3.2 CullFace.BACK }

/-- Method `GLHelper::switchRenderToSSAOBlur`. -/
def switchRenderToSSAOBlur (g : GLHelper) : GLHelper :=
  let d1 := glViewport g.gl 0 0 g.screenWidth g.screenHeight
  let d2 := glBindFramebuffer d1 g.ssaoBlurFrameBuffer
  let r1 := g.state.attachTexture d2 g.ssaoMap 1
  { g with state := r1.1, gl := glCullFace r1.2 CullFace.BACK }

/-- Method `GLHelper::switchRenderToCombining`. -/
def switchRenderToCombining (g : GLHelper) : GLHelper :=
  let d1 := glViewport g.gl 0 0 g.screenWidth g.screenHeight
  let d2 := glBindFramebuffer d1 0
  let r1 := g.state.attachTexture d2 g.diffuseAndSpecularLightedMap 1
  let r2 := r1.1.attachTexture r1.2 g.ambientMap 2
  let r3 := r2.1.attachTexture r2.2 g.ssaoBlurredMap 3
  { g with state := r3.1, gl := r3.2 }

/-! ## Draw dispatch and uniform setters, continued -/

/-- Method `GLHelper::renderInstanced`. -/
def renderInstanced (g : GLHelper) (program VAO EBO triangleCount instanceCount : Nat) :
    GLHelper :=
  if program = 0 then g
  else
    let r := g.state.setProgram g.gl program
    let d := glBindElementArrayBuffer (glBindVertexArray r.2 VAO) EBO
    { g with state := r.1,
             renderTriangleCount :=
               wrap32 (g.renderTriangleCount + triangleCount * instanceCount),
             gl := glBindVertexArray (glDrawElements d) 0 }

/-- Method `GLHelper::setUniformArray`.  The result is `Except.error` when
`matrixArray.at(0)` throws `std::out_of_range`; it carries the object as the
exception leaves it (the program is bound by then). -/
def setUniformArray {β : Type} (g : GLHelper) (programID _uniformID : Nat)
    (matrixArray : List β) : Except GLHelper (GLHelper × Bool) :=
  if glIsProgram g.gl programID then
    let r := g.state.setProgram g.gl programID
    let g1 := { g with state := r.1, gl := r.2 }
    match matrixArray with
    | [] => Except.error g1
    | _ :: _ =>
      Except.ok ({ g1 with uniformSetCount := wrap32 (g1.uniformSetCount + 1),
                           gl := { g1.gl with uniformWrites := g1.gl.uniformWrites + 1 } }, true)
  else
    Except.ok (g, false)

/-- The call `glBindBufferRange(GL_UNIFORM_BUFFER, index, buffer, offset, size)`. -/
def glBindBufferRange (d : Driver) (index buffer offset size : Nat) : Driver :=
  { d with uniformBufferRanges :=
      (index, { buffer := buffer, offset := offset, size := size }) :: d.uniformBufferRanges }

/-- Method `GLHelper::attachMaterialUBO`.  `uniformIndex` is what
`glGetUniformBlockIndex(program, "MaterialInformationBlock")` answered, stored
in an `int`; the block-to-binding-point assignment of the program
(`glUniformBlockBinding`) is not part of the state modelled here.  The offset
is the 32-bit product `materialID * materialUniformSize`. -/
def attachMaterialUBO (g : GLHelper) (_program : Nat) (uniformIndex : Int) (materialID : Nat) :
    GLHelper :=
  let d :=
    if uniformIndex ≥ 0 then
      glBindBuffer
        (glBindBufferRange (glBindBuffer g.gl g.allMaterialsUBOLocation) 9
          g.allMaterialsUBOLocation (wrap32 (materialID * g.materialUniformSize))
          g.materialUniformSize) 0
    else g.gl
  { g with gl := d, activeMaterialIndex := materialID }

/-! ## Light uniform buffer (`GLHelper.cpp` lines 317-322 and 1064-1099) -/

/-- Size `sizeof(glm::mat4)`. -/
def sizeofMat4 : Nat := 64

/-- Size `sizeof(glm::vec3)`. -/
def sizeofVec3 : Nat := 12

/-- Size `sizeof(glm::vec4)`. -/
def sizeofVec4 : Nat := 16

/-- Size `sizeof(GLfloat)`. -/
def sizeofGLfloat : Nat := 4

/-- Size `sizeof(GLint)`. -/
def sizeofGLint : Nat := 4

/-- The call `glBufferSubData(target, offset, size, data)` on the data store (a
list of bytes) of the bound buffer: `size` bytes are copied from `data` to
`offset`.  A range that does not lie inside the store is rejected by the driver
and nothing is written.  A source object shorter than `size` is not a
well-formed argument; the store is left as it is then. -/
def glBufferSubData (store : List Nat) (offset size : Nat) (data : List Nat) : List Nat :=
  if offset + size ≤ store.length ∧ size ≤ data.length then
    store.take offset ++ data.take size ++ store.drop (offset + size)
  else
    store

/-- Reading `size` bytes of a data store back from `offset`. -/
def readBytes (store : List Nat) (offset size : Nat) : List Nat :=
  (store.drop offset).take size

/-- One `glBufferSubData` call: offset, size and source bytes. -/
structure BufferWrite where
  offset : Nat
  size : Nat
  data : List Nat
deriving DecidableEq, Repr

/-- A sequence of `glBufferSubData` calls on one data store, in program order. -/
def applyWrites (store : List Nat) (writes : List BufferWrite) : List Nat :=
  writes.foldl (fun s w => glBufferSubData s w.offset w.size w.data) store

/-- The enumeration `Light::LightTypes` as far as `setLight` distinguishes it. -/
inductive LightTypes where
  | DIRECTIONAL
  | POINT
deriving DecidableEq, Repr

/-- The values `setLight` reads from a `Light` through its getters (the class is
declared in `Light.h`, not among the sources), each as the bytes the object
occupies in memory: six `mat4`, one `mat4`, three floats, one float, and three
times three floats. -/
structure Light where
  lightType : LightTypes
  shadowMatrices : List Nat
  lightSpaceMatrix : List Nat
  position : List Nat
  activeDistance : List Nat
  color : List Nat
  attenuation : List Nat
  ambientColor : List Nat
deriving DecidableEq, Repr

/-- The byte sizes of the fields of a `Light`. -/
def Light.WellFormed (light : Light) : Prop :=
  light.shadowMatrices.length = sizeofMat4 * 6 ∧
  light.lightSpaceMatrix.length = sizeofMat4 ∧
  light.position.length = sizeofVec3 ∧
  light.activeDistance.length = sizeofGLfloat ∧
  light.color.length = sizeofVec3 ∧
  light.attenuation.length = sizeofVec3 ∧
  light.ambientColor.length = sizeofVec3

instance (light : Light) : Decidable light.WellFormed := by
  unfold Light.WellFormed; infer_instance

/-- A point light whose fields are filled with recognisable bytes. -/
def Light.sample : Light :=
  { lightType := LightTypes.POINT,
    shadowMatrices := List.replicate 384 7,
    lightSpaceMatrix := List.replicate 64 6,
    position := List.replicate 12 5,
    activeDistance := List.replicate 4 4,
    color := List.replicate 12 3,
    attenuation := List.replicate 12 2,
    ambientColor := List.replicate 12 1 }

/-- The four bytes of a `GLint` in memory (least significant byte first). -/
def glintBytes (n : Nat) : List Nat :=
  [n % 256, n / 256 % 256, n / 65536 % 256, n / 16777216 % 256]

/-- The `switch` of `setLight`: the `GLint` uploaded for a light type. -/
def lightTypeCode : LightTypes → Nat
  | LightTypes.DIRECTIONAL => 1
  | LightTypes.POINT => 2

/-- The data store of the light uniform buffer as the constructor creates it
(lines 318-321): `lightUniformSize * NR_TOTAL_LIGHTS` zero bytes.  Both
constants are defined in `GLHelper.h`, not among the sources, so they are
parameters; the product is a 32-bit unsigned one. -/
def lightBufferInit (lightUniformSize NR_TOTAL_LIGHTS : Nat) : List Nat :=
  List.replicate (wrap32 (lightUniformSize * NR_TOTAL_LIGHTS)) 0

/-- The eight `glBufferSubData` calls of `GLHelper::setLight`, in program order.
The slot offset `i * lightUniformSize` is a 32-bit unsigned product (`i` is an
`int`); the field offsets are added in `size_t`. -/
def setLightWrites (lightUniformSize : Nat) (light : Light) (i : Int) : List BufferWrite :=
  let base := wrap32 (toUnsigned32 i * lightUniformSize)
  [ { offset := base, size := sizeofMat4 * 6, data := light.shadowMatrices },
    { offset := base + sizeofMat4 * 6, size := sizeofMat4, data := light.lightSpaceMatrix },
    { offset := base + sizeofMat4 * 7, size := sizeofVec3, data := light.position },
    { offset := base + sizeofMat4 * 7 + sizeofVec3, size := sizeofGLfloat,
      data := light.activeDistance },
    { offset := base + sizeofMat4 * 7 + sizeofVec4, size := sizeofVec3, data := light.color },
    { offset := base + sizeofMat4 * 7 + sizeofVec4 + sizeofVec3, size := sizeofGLint,
      data := glintBytes (lightTypeCode light.lightType) },
    { offset := base + sizeofMat4 * 7 + 2 * sizeofVec4, size := sizeofVec3,
      data := light.attenuation },
    { offset := base + sizeofMat4 * 7 + 3 * sizeofVec4, size := sizeofVec3,
      data := light.ambientColor } ]

/-- Method `GLHelper::setLight`, as a function on the data store of the light
uniform buffer. -/
def setLight (lightUniformSize : Nat) (store : List Nat) (light : Light) (i : Int) : List Nat :=
  applyWrites store (setLightWrites lightUniformSize light i)

/-- Two byte ranges that share no byte. -/
def BufferWrite.Disjoint (a b : BufferWrite) : Prop :=
  a.offset + a.size ≤ b.offset ∨ b.offset + b.size ≤ a.offset

/-! ## Frustum planes (`GLHelper.cpp` lines 1170-1222) -/

/-- The type `glm::vec4` over a number type `α`. -/
structure Vec4 (α : Type) where
  x : α
  y : α
  z : α
  w : α
deriving DecidableEq, Repr

/-- The type `glm::mat4` over a number type `α`: four columns, `m[i]` being `ci`. -/
structure Mat4 (α : Type) where
  c0 : Vec4 α
  c1 : Vec4 α
  c2 : Vec4 α
  c3 : Vec4 α
deriving DecidableEq, Repr

/-- The indices of the six frustum planes. -/
inductive FrustumPlane where
  | RIGHT
  | LEFT
  | BOTTOM
  | TOP
  | BACK
  | FRONT
deriving DecidableEq, Repr

section Frustum

variable {α : Type} [Add α] [Sub α] [Mul α]

/-- The product `glm::dot(a, b)`. -/
def Vec4.dot (a b : Vec4 α) : α :=
  a.x * b.x + a.y * b.y + a.z * b.z + a.w * b.w

/-- The function `glm::normalize(v)`, which is `v * inversesqrt(dot(v, v))`, over
the number type `α` with its own `+` and `*`, of which nothing is assumed (for
`float` they round and produce infinities and NaN); the library function
`inversesqrt` is a parameter, of which nothing is assumed either. -/
def normalize (inversesqrt : α → α) (v : Vec4 α) : Vec4 α :=
  { x := v.x * inversesqrt (v.dot v),
    y := v.y * inversesqrt (v.dot v),
    z := v.z * inversesqrt (v.dot v),
    w := v.w * inversesqrt (v.dot v) }

/-- One pass of the loop of `calculateFrustumPlanes`: the entry `clipMat[i]`
computed from `cameraRow = cameraMatrix[i]`. -/
def clipColumn (cameraRow : Vec4 α) (projectionMatrix : Mat4 α) : Vec4 α :=
  { x := cameraRow.x * projectionMatrix.c0.x + cameraRow.y * projectionMatrix.c1.x +
         cameraRow.z * projectionMatrix.c2.x + cameraRow.w * projectionMatrix.c3.x,
    y := cameraRow.x * projectionMatrix.c0.y + cameraRow.y * projectionMatrix.c1.y +
         cameraRow.z * projectionMatrix.c2.y + cameraRow.w * projectionMatrix.c3.y,
    z := cameraRow.x * projectionMatrix.c0.z + cameraRow.y * projectionMatrix.c1.z +
         cameraRow.z * projectionMatrix.c2.z + cameraRow.w * projectionMatrix.c3.z,
    w := cameraRow.x * projectionMatrix.c0.w + cameraRow.y * projectionMatrix.c1.w +
         cameraRow.z * projectionMatrix.c2.w + cameraRow.w * projectionMatrix.c3.w }

/-- The matrix `clipMat` after the loop of `calculateFrustumPlanes`. -/
def clipMatrix (cameraMatrix projectionMatrix : Mat4 α) : Mat4 α :=
  { c0 := clipColumn cameraMatrix.c0 projectionMatrix,
    c1 := clipColumn cameraMatrix.c1 projectionMatrix,
    c2 := clipColumn cameraMatrix.c2 projectionMatrix,
    c3 := clipColumn cameraMatrix.c3 projectionMatrix }

/-- The four components assigned to `planes[side]` before it is normalized. -/
def rawFrustumPlane (clipMat : Mat4 α) : FrustumPlane → Vec4 α
  | FrustumPlane.RIGHT =>
    { x := clipMat.c0.w - clipMat.c0.x, y := clipMat.c1.w - clipMat.c1.x,
      z := clipMat.c2.w - clipMat.c2.x, w := clipMat.c3.w - clipMat.c3.x }
  | FrustumPlane.LEFT =>
    { x := clipMat.c0.w + clipMat.c0.x, y := clipMat.c1.w + clipMat.c1.x,
      z := clipMat.c2.w + clipMat.c2.x, w := clipMat.c3.w + clipMat.c3.x }
  | FrustumPlane.BOTTOM =>
    { x := clipMat.c0.w + clipMat.c0.y, y := clipMat.c1.w + clipMat.c1.y,
      z := clipMat.c2.w + clipMat.c2.y, w := clipMat.c3.w + clipMat.c3.y }
  | FrustumPlane.TOP =>
    { x := clipMat.c0.w - clipMat.c0.y, y := clipMat.c1.w - clipMat.c1.y,
      z := clipMat.c2.w - clipMat.c2.y, w := clipMat.c3.w - clipMat.c3.y }
  | FrustumPlane.BACK =>
    { x := clipMat.c0.w - clipMat.c0.z, y := clipMat.c1.w - clipMat.c1.z,
      z := clipMat.c2.w - clipMat.c2.z, w := clipMat.c3.w - clipMat.c3.z }
  | FrustumPlane.FRONT =>
    { x := clipMat.c0.w + clipMat.c0.z, y := clipMat.c1.w + clipMat.c1.z,
      z := clipMat.c2.w + clipMat.c2.z, w := clipMat.c3.w + clipMat.c3.z }

/-- Method `GLHelper::calculateFrustumPlanes`: the six entries it leaves in
`planes`, indexed by the plane.  The number type `α` stands for `float`; its
operators `+`, `-` and `*` are applied in the order of the source and nothing
is assumed of them, so that rounding, infinities and NaN are whatever the
operators of `α` make them. -/
def calculateFrustumPlanes (inversesqrt : α → α) (cameraMatrix projectionMatrix : Mat4 α) :
    FrustumPlane → Vec4 α :=
  fun side => normalize inversesqrt
    (rawFrustumPlane (clipMatrix cameraMatrix projectionMatrix) side)

/-- The matrix-vector product `m * v` (columns `m.ci`), with the operators of `α`. -/
def Mat4.mulVec (m : Mat4 α) (v : Vec4 α) : Vec4 α :=
  { x := m.c0.x * v.x + m.c1.x * v.y + m.c2.x * v.z + m.c3.x * v.w,
    y := m.c0.y * v.x + m.c1.y * v.y + m.c2.y * v.z + m.c3.y * v.w,
    z := m.c0.z * v.x + m.c1.z * v.y + m.c2.z * v.z + m.c3.z * v.w,
    w := m.c0.w * v.x + m.c1.w * v.y + m.c2.w * v.z + m.c3.w * v.w }

/-- The matrix product `a * b`: column `i` is `a * b.ci`, with the operators of `α`. -/
def Mat4.mul (a b : Mat4 α) : Mat4 α :=
  { c0 := a.mulVec b.c0, c1 := a.mulVec b.c1, c2 := a.mulVec b.c2, c3 := a.mulVec b.c3 }

end Frustum

section FrustumSamples

variable {α : Type} [LinearOrderedField α]

/-- The identity matrix. -/
def Mat4.identity : Mat4 α :=
  { c0 := { x := 1, y := 0, z := 0, w := 0 }, c1 := { x := 0, y := 1, z := 0, w := 0 },
    c2 := { x := 0, y := 0, z := 1, w := 0 }, c3 := { x := 0, y := 0, z := 0, w := 1 } }

/-- The matrix of `glm::perspective(fovy, 1, 1, 3)` for a vertical field of view
of 90 degrees (`tan(fovy / 2) = 1`): near plane `z = -1`, far plane `z = -3`. -/
def Mat4.perspective90 : Mat4 α :=
  { c0 := { x := 1, y := 0, z := 0, w := 0 }, c1 := { x := 0, y := 1, z := 0, w := 0 },
    c2 := { x := 0, y := 0, z := -2, w := -1 }, c3 := { x := 0, y := 0, z := -3, w := 0 } }

end FrustumSamples

/-! ## Uniform lookup (`GLHelper.cpp` lines 1007-1018) -/

/-- Method `GLHelper::getUniformLocation`.  `rawLocation` is what
`glGetUniformLocation` answered and `errorFound` what the following
`checkErrors` call returned (the helper is declared in `GLHelper.h`, not among
the sources; the branch taken on `!checkErrors(..)` prints "No error found",
so `true` stands for a driver error).  `location` is the value of the
reference parameter before the call; the result is the returned `bool` and the
value of the reference parameter after the call. -/
def getUniformLocation (rawLocation : Int) (errorFound : Bool) (location : Nat) : Bool × Nat :=
  if !errorFound then
    if rawLocation ≥ 0 then (true, toUnsigned32 rawLocation) else (false, location)
  else
    (false, location)

/-! ## Options file (`Options.cpp`) -/

/-- An element of the options XML document as `loadOptions` reads it: its name,
its text (`GetText()`, `none` for a null pointer) and the names and texts of
its child elements. -/
structure XMLElement where
  name : String
  text : Option String
  children : List (String × Option String)
deriving DecidableEq, Repr

/-- The outcome of `xmlDoc.LoadFile` and `xmlDoc.FirstChild()`: whether the file
loaded, and the child elements of the first node (`none` for a null pointer). -/
structure XMLFile where
  loadSuccess : Bool
  firstChild : Option (List XMLElement)
deriving DecidableEq, Repr

/-- The ways in which `loadOptions` leaves without returning: `exit(-1)`, a C++
exception (`std::stoi` and its siblings on unparsable text), or the use of a
null pointer. -/
inductive LoadAbort where
  | exited
  | exception
  | nullPointer
deriving DecidableEq, Repr

/-- The enumeration `Options::TextureFilteringModes`. -/
inductive TextureFilteringModes where
  | NEAREST
  | BILINEAR
  | TRILINEAR
deriving DecidableEq, Repr

/-- The fields of `Options` that `loadOptions` assigns; `F` stands for `float`. -/
structure OptionValues (F : Type) where
  screenHeight : Int
  screenWidth : Nat
  shadowMapDirectionalWidth : Nat
  shadowMapDirectionalHeight : Nat
  shadowMapPointWidth : Nat
  shadowMapPointHeight : Nat
  debugDrawBufferSize : Nat
  jumpFactor : F
  lookAroundSpeed : F
  lightOrthogonalProjectionNearPlane : F
  lightOrthogonalProjectionFarPlane : F
  lightPerspectiveProjectionNearPlane : F
  lightPerspectiveProjectionFarPlane : F
  currentTextureFilteringMode : TextureFilteringModes
  fullScreen : Bool
  ssaoSampleCount : Int
  ssaoEnabled : Bool
  walkSpeed : F × F × F
  runSpeed : F × F × F
  freeMovementSpeed : F × F × F
  lightOrthogonalProjectionValues : F × F × F × F

/-- The standard library parsers `std::stoi`, `std::stoul` and `std::stof`; `none`
stands for the exception they throw on text they cannot convert. -/
structure Parsers (F : Type) where
  stoi : String → Option Int
  stoul : String → Option Nat
  stof : String → Option F

/-- The call `node->FirstChildElement(name)`. -/
def firstChildElement (node : List XMLElement) (name : String) : Option XMLElement :=
  node.find? (fun e => e.name = name)

/-- The idiom `if (n != nullptr) { field = parse(n->GetText()); }`: a missing element
keeps the field, a null text is handed to the `std::string` constructor. -/
def loadScalar {T : Type} (parse : String → Option T) (element : Option XMLElement) (old : T) :
    Except LoadAbort T :=
  match element with
  | none => Except.ok old
  | some e =>
    match e.text with
    | none => Except.error LoadAbort.nullPointer
    | some t =>
      match parse t with
      | none => Except.error LoadAbort.exception
      | some v => Except.ok v

/-- One component of `loadVec3` / `loadVec4`: the child element `X`, `Y`, `Z` or `W`
of the vector node, or 0 when it is missing. -/
def loadComponent {F : Type} [Zero F] (stof : String → Option F)
    (children : List (String × Option String)) (name : String) : Except LoadAbort F :=
  match children.find? (fun c => c.1 = name) with
  | none => Except.ok 0
  | some c =>
    match c.2 with
    | none => Except.error LoadAbort.nullPointer
    | some t =>
      match stof t with
      | none => Except.error LoadAbort.exception
      | some v => Except.ok v

/-- Method `Options::loadVec3`; the vector node is used without a null check. -/
def loadVec3 {F : Type} [Zero F] (stof : String → Option F) (optionsNode : List XMLElement)
    (name : String) : Except LoadAbort (F × F × F) :=
  match firstChildElement optionsNode name with
  | none => Except.error LoadAbort.nullPointer
  | some vectorNode => do
    let x ← loadComponent stof vectorNode.children "X"
    let y ← loadComponent stof vectorNode.children "Y"
    let z ← loadComponent stof vectorNode.children "Z"
    pure (x, y, z)

/-- Method `Options::loadVec4`; the vector node is used without a null check. -/
def loadVec4 {F : Type} [Zero F] (stof : String → Option F) (optionsNode : List XMLElement)
    (name : String) : Except LoadAbort (F × F × F × F) :=
  match firstChildElement optionsNode name with
  | none => Except.error LoadAbort.nullPointer
  | some vectorNode => do
    let x ← loadComponent stof vectorNode.children "X"
    let y ← loadComponent stof vectorNode.children "Y"
    let z ← loadComponent stof vectorNode.children "Z"
    let w ← loadComponent stof vectorNode.children "W"
    pure (x, y, z, w)

/-- The `TextureFiltering` block of `loadOptions`. -/
def loadTextureFiltering (element : Option XMLElement) (old : TextureFilteringModes) :
    TextureFilteringModes :=
  match element with
  | none => old
  | some e =>
    match e.text with
    | none => old
    | some lightMode =>
      if lightMode = "Nearest" then TextureFilteringModes.NEAREST
      else if lightMode = "Bilinear" then TextureFilteringModes.BILINEAR
      else if lightMode = "Trilinear" then TextureFilteringModes.TRILINEAR
      else old

/-- The `fullScreen` block of `loadOptions`. -/
def loadFullScreen (element : Option XMLElement) (old : Bool) : Bool :=
  match element with
  | none => old
  | some e =>
    match e.text with
    | none => old
    | some fullScreenText =>
      if fullScreenText = "True" then true
      else if fullScreenText = "False" then false
      else old

/-- The `SSAOEnabled` block of `loadOptions`; the text is copied into a
`std::string` without a null check. -/
def loadSSAOEnabled (element : Option XMLElement) (old : Bool) : Except LoadAbort Bool :=
  match element with
  | none => Except.ok false
  | some e =>
    match e.text with
    | none => Except.error LoadAbort.nullPointer
    | some ssaoEnabledText =>
      if ssaoEnabledText = "True" then Except.ok true
      else if ssaoEnabledText = "False" then Except.ok false
      else Except.ok old

/-- The body of `Options::loadOptions` between the null check of `optionsNode` and
the final `return`: the assignments to the fields, in program order. -/
def loadFields {F : Type} [Zero F] (p : Parsers F) (optionsNode : List XMLElement)
    (o : OptionValues F) : Except LoadAbort (OptionValues F) := do
  let screenHeight ← loadScalar p.stoi (firstChildElement optionsNode "screenHeight")
    o.screenHeight
  let screenWidth ← loadScalar p.stoul (firstChildElement optionsNode "screenWidth")
    o.screenWidth
  let shadowMapDirectionalWidth ← loadScalar p.stoul
    (firstChildElement optionsNode "shadowMapDirectionalWidth") o.shadowMapDirectionalWidth
  let shadowMapDirectionalHeight ← loadScalar p.stoul
    (firstChildElement optionsNode "shadowMapDirectionalHeight") o.shadowMapDirectionalHeight
  let shadowMapPointWidth ← loadScalar p.stoul
    (firstChildElement optionsNode "shadowMapPointWidth") o.shadowMapPointWidth
  let shadowMapPointHeight ← loadScalar p.stoul
    (firstChildElement optionsNode "shadowMapPointHeight") o.shadowMapPointHeight
  let debugDrawBufferSize ← loadScalar p.stoul
    (firstChildElement optionsNode "debugDrawBufferSize") o.debugDrawBufferSize
  let jumpFactor ← loadScalar p.stof (firstChildElement optionsNode "jumpFactor") o.jumpFactor
  let lookAroundSpeed ← loadScalar p.stof (firstChildElement optionsNode "lookAroundSpeed")
    o.lookAroundSpeed
  let lightOrthogonalProjectionNearPlane ← loadScalar p.stof
    (firstChildElement optionsNode "lightOrthogonalProjectionNearPlane")
    o.lightOrthogonalProjectionNearPlane
  let lightOrthogonalProjectionFarPlane ← loadScalar p.stof
    (firstChildElement optionsNode "lightOrthogonalProjectionFarPlane")
    o.lightOrthogonalProjectionFarPlane
  let lightPerspectiveProjectionNearPlane ← loadScalar p.stof
    (firstChildElement optionsNode "lightPerspectiveProjectionNearPlane")
    o.lightPerspectiveProjectionNearPlane
  let lightPerspectiveProjectionFarPlane ← loadScalar p.stof
    (firstChildElement optionsNode "lightPerspectiveProjectionFarPlane")
    o.lightPerspectiveProjectionFarPlane
  let currentTextureFilteringMode :=
    loadTextureFiltering (firstChildElement optionsNode "TextureFiltering")
      o.currentTextureFilteringMode
  let fullScreen := loadFullScreen (firstChildElement optionsNode "fullScreen") o.fullScreen
  let ssaoSampleCount ← loadScalar p.stoi (firstChildElement optionsNode "SSAOSampleCount")
    o.ssaoSampleCount
  let ssaoEnabled ← loadSSAOEnabled (firstChildElement optionsNode "SSAOEnabled") o.ssaoEnabled
  let walkSpeed ← loadVec3 p.stof optionsNode "walkSpeed"
  let runSpeed ← loadVec3 p.stof optionsNode "runSpeed"
  let freeMovementSpeed ← loadVec3 p.stof optionsNode "freeMovementSpeed"
  let lightOrthogonalProjectionValues ←
    loadVec4 p.stof optionsNode "lightOrthogonalProjectionValues"
  pure
    { screenHeight := screenHeight,
      screenWidth := screenWidth,
      shadowMapDirectionalWidth := shadowMapDirectionalWidth,
      shadowMapDirectionalHeight := shadowMapDirectionalHeight,
      shadowMapPointWidth := shadowMapPointWidth,
      shadowMapPointHeight := shadowMapPointHeight,
      debugDrawBufferSize := debugDrawBufferSize,
      jumpFactor := jumpFactor,
      lookAroundSpeed := lookAroundSpeed,
      lightOrthogonalProjectionNearPlane := lightOrthogonalProjectionNearPlane,
      lightOrthogonalProjectionFarPlane := lightOrthogonalProjectionFarPlane,
      lightPerspectiveProjectionNearPlane := lightPerspectiveProjectionNearPlane,
      lightPerspectiveProjectionFarPlane := lightPerspectiveProjectionFarPlane,
      currentTextureFilteringMode := currentTextureFilteringMode,
      fullScreen := fullScreen,
      ssaoSampleCount := ssaoSampleCount,
      ssaoEnabled := ssaoEnabled,
      walkSpeed := walkSpeed,
      runSpeed := runSpeed,
      freeMovementSpeed := freeMovementSpeed,
      lightOrthogonalProjectionValues := lightOrthogonalProjectionValues }

/-- Method `Options::loadOptions`: the returned `bool` and the fields after the
call, or the way in which the call leaves without returning. -/
def loadOptions {F : Type} [Zero F] (p : Parsers F) (file : XMLFile) (o : OptionValues F) :
    Except LoadAbort (Bool × OptionValues F) :=
  if file.loadSuccess then
    match file.firstChild with
    | none => Except.ok (false, o)
    | some optionsNode =>
      match loadFields p optionsNode o with
      | Except.error a => Except.error a
      | Except.ok o1 => Except.ok (false, o1)
  else
    Except.error LoadAbort.exited

/-- An options file that holds every element `loadOptions` looks for. -/
def XMLFile.sample : XMLFile :=
  { loadSuccess := true,
    firstChild := some
      [ { name := "screenHeight", text := some "600", children := [] },
        { name := "screenWidth", text := some "800", children := [] },
        { name := "shadowMapDirectionalWidth", text := some "1024", children := [] },
        { name := "shadowMapDirectionalHeight", text := some "1024", children := [] },
        { name := "shadowMapPointWidth", text := some "512", children := [] },
        { name := "shadowMapPointHeight", text := some "512", children := [] },
        { name := "debugDrawBufferSize", text := some "1000", children := [] },
        { name := "jumpFactor", text := some "7", children := [] },
        { name := "lookAroundSpeed", text := some "2", children := [] },
        { name := "lightOrthogonalProjectionNearPlane", text := some "1", children := [] },
        { name := "lightOrthogonalProjectionFarPlane", text := some "100", children := [] },
        { name := "lightPerspectiveProjectionNearPlane", text := some "1", children := [] },
        { name := "lightPerspectiveProjectionFarPlane", text := some "100", children := [] },
        { name := "TextureFiltering", text := some "Bilinear", children := [] },
        { name := "fullScreen", text := some "False", children := [] },
        { name := "SSAOSampleCount", text := some "9", children := [] },
        { name := "SSAOEnabled", text := some "True", children := [] },
        { name := "walkSpeed", text := none,
          children := [("X", some "8"), ("Y", some "0"), ("Z", some "8")] },
        { name := "runSpeed", text := none,
          children := [("X", some "14"), ("Y", some "0"), ("Z", some "14")] },
        { name := "freeMovementSpeed", text := none,
          children := [("X", some "1"), ("Y", some "1"), ("Z", some "1")] },
        { name := "lightOrthogonalProjectionValues", text := none,
          children := [("X", some "1"), ("Y", some "2"), ("Z", some "3"), ("W", some "4")] } ] }

/-- A decimal numeral read digit by digit; `none` on an empty text or a character
that is not a digit. -/
def parseDecimal (s : String) : Option Nat :=
  match s.data with
  | [] => none
  | cs => cs.foldl
      (fun acc c => acc.bind (fun n => if c.isDigit then some (10 * n + (c.toNat - 48)) else none))
      (some 0)

/-- Parsers for decimal numerals, with `float` values taken in the natural numbers. -/
def Parsers.decimal : Parsers Nat :=
  { stoi := fun s => (parseDecimal s).map (fun n => (n : Int)),
    stoul := parseDecimal,
    stof := parseDecimal }

/-- The field values before any load. -/
def OptionValues.blank : OptionValues Nat :=
  { screenHeight := 0, screenWidth := 0, shadowMapDirectionalWidth := 0,
    shadowMapDirectionalHeight := 0, shadowMapPointWidth := 0, shadowMapPointHeight := 0,
    debugDrawBufferSize := 0, jumpFactor := 0, lookAroundSpeed := 0,
    lightOrthogonalProjectionNearPlane := 0, lightOrthogonalProjectionFarPlane := 0,
    lightPerspectiveProjectionNearPlane := 0, lightPerspectiveProjectionFarPlane := 0,
    currentTextureFilteringMode := TextureFilteringModes.TRILINEAR, fullScreen := false,
    ssaoSampleCount := 0, ssaoEnabled := false, walkSpeed := (0, 0, 0), runSpeed := (0, 0, 0),
    freeMovementSpeed := (0, 0, 0), lightOrthogonalProjectionValues := (0, 0, 0, 0) }

/-- The field values after loading `XMLFile.sample`. -/
def OptionValues.sampleLoaded : OptionValues Nat :=
  { screenHeight := 600, screenWidth := 800, shadowMapDirectionalWidth := 1024,
    shadowMapDirectionalHeight := 1024, shadowMapPointWidth := 512, shadowMapPointHeight := 512,
    debugDrawBufferSize := 1000, jumpFactor := 7, lookAroundSpeed := 2,
    lightOrthogonalProjectionNearPlane := 1, lightOrthogonalProjectionFarPlane := 100,
    lightPerspectiveProjectionNearPlane := 1, lightPerspectiveProjectionFarPlane := 100,
    currentTextureFilteringMode := TextureFilteringModes.BILINEAR, fullScreen := false,
    ssaoSampleCount := 9, ssaoEnabled := true, walkSpeed := (8, 0, 8), runSpeed := (14, 0, 14),
    freeMovementSpeed := (1, 1, 1), lightOrthogonalProjectionValues := (1, 2, 3, 4) }

/-! ## Player uniform block and stored frustum (`GLHelper.cpp` lines 912-922, 1146-1168) -/

/-- The type `glm::vec3` over a number type `α`. -/
structure Vec3 (α : Type) where
  x : α
  y : α
  z : α
deriving DecidableEq, Repr

/-- The type `glm::vec2` over a number type `α`. -/
structure Vec2 (α : Type) where
  x : α
  y : α
deriving DecidableEq, Repr

/-- The constructor `glm::vec4(v, w)` from a `glm::vec3` and a fourth component. -/
def Vec4.ofVec3 {α : Type} (v : Vec3 α) (w : α) : Vec4 α :=
  { x := v.x, y := v.y, z := v.z, w := w }

/-- The conversion `glm::vec3(v)` of a `glm::vec4`, which drops the fourth component. -/
def Vec4.xyz {α : Type} (v : Vec4 α) : Vec3 α :=
  { x := v.x, y := v.y, z := v.z }

/-- Size `sizeof(glm::vec2)` in bytes. -/
def sizeofVec2 : Nat := 8

/-- The value behind the data pointer of one `glBufferSubData` call on the player
uniform buffer. -/
inductive UploadData (α : Type) where
  | mat4 (m : Mat4 α)
  | vec3 (v : Vec3 α)
  | vec2 (v : Vec2 α)
deriving DecidableEq, Repr

/-- One `glBufferSubData` call on the player uniform buffer: byte offset, byte
size and the value uploaded. -/
structure PlayerUpload (α : Type) where
  offset : Nat
  size : Nat
  data : UploadData α
deriving DecidableEq, Repr

/-- The camera fields of `GLHelper`, over a number type `α` in place of `float`,
and the sub-range writes made so far on the buffer `playerUBOLocation`, oldest
first. -/
structure CameraFields (α : Type) where
  cameraMatrix : Mat4 α
  cameraPosition : Vec3 α
  perspectiveProjectionMatrix : Mat4 α
  inverseProjection : Mat4 α
  orthogonalProjectionMatrix : Mat4 α
  frustumPlanes : List (Vec4 α)
  playerUBO : List (PlayerUpload α)

/-- The library functions and the constant that the camera code calls and that lie
outside the repository: `glm::inversesqrt` (inside `glm::normalize`),
`glm::inverse`, `glm::perspective`, `glm::ortho`, and `Options::PI`. -/
structure FloatLibrary (α : Type) where
  inversesqrt : α → α
  inverse : Mat4 α → Mat4 α
  perspective : α → α → α → α → Mat4 α
  ortho : α → α → α → α → Mat4 α
  PI : α

/-- Modelled from the spec: the enumeration of the plane indices is declared in
`GLHelper.h`, which is not among the sources; the spec lists the six planes as
right/left/bottom/top/back/front, taken here as the values 0 to 5 in that order. -/
def FrustumPlane.index : FrustumPlane → Nat
  | FrustumPlane.RIGHT => 0
  | FrustumPlane.LEFT => 1
  | FrustumPlane.BOTTOM => 2
  | FrustumPlane.TOP => 3
  | FrustumPlane.BACK => 4
  | FrustumPlane.FRONT => 5

/-- The ways in which `calculateFrustumPlanes` can fail on its output vector: the
`assert` on its size, or an element access past its end. -/
inductive PlaneFault where
  | assertionFailed
  | outOfBounds
deriving DecidableEq, Repr

/-- The call `v.resize(n)` of `std::vector`, new elements being `filler`. -/
def vectorResize {T : Type} (v : List T) (n : Nat) (filler : T) : List T :=
  v.take n ++ List.replicate (n - v.length) filler

section Camera

variable {α : Type} [Add α] [Sub α] [Mul α] [Div α] [Zero α] [One α] [NatCast α]
  [OfScientific α]

/-- The statements `planes[side].x = ..; ..; planes[side] = glm::normalize(planes[side]);`
of `calculateFrustumPlanes`: the element at the index of `side` is replaced. -/
def assignPlane (planes : List (Vec4 α)) (side : FrustumPlane) (value : Vec4 α) :
    Except PlaneFault (List (Vec4 α)) :=
  if side.index < planes.length then Except.ok (planes.set side.index value)
  else Except.error PlaneFault.outOfBounds

/-- Method `GLHelper::calculateFrustumPlanes` on its output vector `planes`: the
assertion on the size, then the six element writes in program order. -/
def calculateFrustumPlanesInPlace (inversesqrt : α → α) (cameraMatrix projectionMatrix : Mat4 α)
    (planes : List (Vec4 α)) : Except PlaneFault (List (Vec4 α)) :=
  if planes.length = 6 then do
    let p1 ← assignPlane planes FrustumPlane.RIGHT
      (calculateFrustumPlanes inversesqrt cameraMatrix projectionMatrix FrustumPlane.RIGHT)
    let p2 ← assignPlane p1 FrustumPlane.LEFT
      (calculateFrustumPlanes inversesqrt cameraMatrix projectionMatrix FrustumPlane.LEFT)
    let p3 ← assignPlane p2 FrustumPlane.BOTTOM
      (calculateFrustumPlanes inversesqrt cameraMatrix projectionMatrix FrustumPlane.BOTTOM)
    let p4 ← assignPlane p3 FrustumPlane.TOP
      (calculateFrustumPlanes inversesqrt cameraMatrix projectionMatrix FrustumPlane.TOP)
    let p5 ← assignPlane p4 FrustumPlane.BACK
      (calculateFrustumPlanes inversesqrt cameraMatrix projectionMatrix FrustumPlane.BACK)
    assignPlane p5 FrustumPlane.FRONT
      (calculateFrustumPlanes inversesqrt cameraMatrix projectionMatrix FrustumPlane.FRONT)
  else
    Except.error PlaneFault.assertionFailed

/-- The eight `glBufferSubData` calls of `setPlayerMatrices`, in program order.
The screen size is the one cached in `GLHelper`; `screenWidth / 4` is a division
of integers, converted to `float` afterwards. -/
def playerUploads (lib : FloatLibrary α) (g : GLHelper) (c : CameraFields α)
    (cameraPosition : Vec3 α) (cameraTransform : Mat4 α) : List (PlayerUpload α) :=
  let cameraSpacePosition := (cameraTransform.mulVec (Vec4.ofVec3 cameraPosition 1)).xyz
  let inverseCameraMatrix := lib.inverse cameraTransform
  let viewMatrix := c.perspectiveProjectionMatrix.mul cameraTransform
  let noiseScale : Vec2 α :=
    { x := ((g.screenWidth / 4 : Nat) : α), y := ((g.screenHeight / 4 : Nat) : α) }
  [ { offset := 0 * sizeofMat4, size := sizeofMat4, data := UploadData.mat4 cameraTransform },
    { offset := 1 * sizeofMat4, size := sizeofMat4,
      data := UploadData.mat4 c.perspectiveProjectionMatrix },
    { offset := 2 * sizeofMat4, size := sizeofMat4, data := UploadData.mat4 viewMatrix },
    { offset := 3 * sizeofMat4, size := sizeofMat4, data := UploadData.mat4 c.inverseProjection },
    { offset := 4 * sizeofMat4, size := sizeofMat4, data := UploadData.mat4 inverseCameraMatrix },
    { offset := 5 * sizeofMat4, size := sizeofVec3, data := UploadData.vec3 cameraPosition },
    { offset := 5 * sizeofMat4 + sizeofVec4, size := sizeofVec3,
      data := UploadData.vec3 cameraSpacePosition },
    { offset := 5 * sizeofMat4 + 2 * sizeofVec4, size := sizeofVec2,
      data := UploadData.vec2 noiseScale } ]

/-- Method `GLHelper::setPlayerMatrices`: the camera fields after the call, or the
fault raised inside `calculateFrustumPlanes`. -/
def setPlayerMatrices (lib : FloatLibrary α) (g : GLHelper) (c : CameraFields α)
    (cameraPosition : Vec3 α) (cameraTransform : Mat4 α) : Except PlaneFault (CameraFields α) :=
  match calculateFrustumPlanesInPlace lib.inversesqrt cameraTransform
      c.perspectiveProjectionMatrix c.frustumPlanes with
  | Except.error fault => Except.error fault
  | Except.ok planes =>
    Except.ok
      { c with
        cameraMatrix := cameraTransform,
        cameraPosition := cameraPosition,
        playerUBO := c.playerUBO ++ playerUploads lib g c cameraPosition cameraTransform,
        frustumPlanes := planes }

/-- Method `GLHelper::reshape`, the part on the projection matrices (the part on
the cached screen size and the viewport is `reshape`). -/
def reshapeMatrices (lib : FloatLibrary α) (g : GLHelper) (c : CameraFields α) : CameraFields α :=
  let aspect : α := (g.options.screenHeight : α) / (g.options.screenWidth : α)
  let perspectiveProjectionMatrix := lib.perspective (lib.PI / 3) (1 / aspect) 0.01 10000
  { c with
    perspectiveProjectionMatrix := perspectiveProjectionMatrix,
    inverseProjection := lib.inverse perspectiveProjectionMatrix,
    orthogonalProjectionMatrix :=
      lib.ortho 0 (g.options.screenWidth : α) 0 (g.options.screenHeight : α) }

/-- The camera fields when the constructor returns: whatever the fields hold
before, `frustumPlanes.resize(6)` on the empty vector leaves six entries. -/
def cameraConstructed (initial : CameraFields α) (filler : Vec4 α) : CameraFields α :=
  { initial with frustumPlanes := vectorResize [] 6 filler, playerUBO := [] }

/-- The camera fields reachable after construction: through `setPlayerMatrices`
calls that return and `reshape` calls, whatever the rest of `GLHelper` is at
each call. -/
inductive CameraReachable (lib : FloatLibrary α) : CameraFields α → Prop where
  | constructed (initial : CameraFields α) (filler : Vec4 α) :
      CameraReachable lib (cameraConstructed initial filler)
  | playerSet (g : GLHelper) (c next : CameraFields α) (cameraPosition : Vec3 α)
      (cameraTransform : Mat4 α) :
      CameraReachable lib c →
      setPlayerMatrices lib g c cameraPosition cameraTransform = Except.ok next →
      CameraReachable lib next
  | reshaped (g : GLHelper) (c : CameraFields α) :
      CameraReachable lib c → CameraReachable lib (reshapeMatrices lib g c)

end Camera

/-- A library instance over the rationals, for running the camera code on concrete
inputs.  The results of `setPlayerMatrices` proved below hold for every library;
this one has rational stand-ins where the true function is irrational, and its
`inverse` is exact on the identity matrix only. -/
def FloatLibrary.rational : FloatLibrary ℚ :=
  { inversesqrt := fun t => 1 / (1 + t),
    inverse := fun m => m,
    perspective := fun _ aspect near far =>
      { c0 := { x := 1 / aspect, y := 0, z := 0, w := 0 },
        c1 := { x := 0, y := 1, z := 0, w := 0 },
        c2 := { x := 0, y := 0, z := -(far + near) / (far - near), w := -1 },
        c3 := { x := 0, y := 0, z := -(2 * far * near) / (far - near), w := 0 } },
    ortho := fun left right bottom top =>
      { c0 := { x := 2 / (right - left), y := 0, z := 0, w := 0 },
        c1 := { x := 0, y := 2 / (top - bottom), z := 0, w := 0 },
        c2 := { x := 0, y := 0, z := -1, w := 0 },
        c3 := { x := -(right + left) / (right - left), y := -(top + bottom) / (top - bottom),
                z := 0, w := 1 } },
    PI := 22 / 7 }

/-- Camera fields before construction, over the rationals: identity matrices and an
empty plane vector. -/
def CameraFields.blank : CameraFields ℚ :=
  { cameraMatrix := Mat4.identity, cameraPosition := { x := 0, y := 0, z := 0 },
    perspectiveProjectionMatrix := Mat4.perspective90, inverseProjection := Mat4.identity,
    orthogonalProjectionMatrix := Mat4.identity, frustumPlanes := [], playerUBO := [] }

/-- The cached screen size of the scenario "screen 800 x 600". -/
def GLHelper.screen800x600 : GLHelper := { screenWidth := 800, screenHeight := 600 }

/-- The camera fields right after construction, over the rationals. -/
def CameraFields.fresh : CameraFields ℚ :=
  cameraConstructed CameraFields.blank { x := 0, y := 0, z := 0, w := 0 }

/-! ## Material and model uniform buffers (`GLHelper.cpp` lines 329-339, 1101-1133) -/

/-- The values `setMaterial` reads from a `Material` through its getters (the class
is declared in `Material.h`, not among the sources): the index, and the ambient
colour, specular exponent and diffuse colour as the bytes they occupy in
memory, and the `uint32_t` bit set of texture maps. -/
structure Material where
  materialIndex : Nat
  ambientColor : List Nat
  specularExponent : List Nat
  diffuseColor : List Nat
  maps : Nat
deriving DecidableEq, Repr

/-- The byte sizes and ranges of the fields of a `Material`. -/
def Material.WellFormed (material : Material) : Prop :=
  material.materialIndex < 2 ^ 32 ∧
  material.ambientColor.length = sizeofVec3 ∧
  material.specularExponent.length = sizeofGLfloat ∧
  material.diffuseColor.length = sizeofVec3 ∧
  material.maps < 2 ^ 32

instance (material : Material) : Decidable material.WellFormed := by
  unfold Material.WellFormed; infer_instance

/-- A material with index 1 whose fields are filled with recognisable bytes. -/
def Material.sample : Material :=
  { materialIndex := 1,
    ambientColor := List.replicate 12 9,
    specularExponent := List.replicate 4 8,
    diffuseColor := List.replicate 12 7,
    maps := 5 }

/-- The four `glBufferSubData` calls of `GLHelper::setMaterial`, in program order.
The slot offset `getMaterialIndex() * materialUniformSize` is a 32-bit unsigned
product; the field offsets are added in `size_t`. -/
def setMaterialWrites (materialUniformSize : Nat) (material : Material) : List BufferWrite :=
  let base := wrap32 (material.materialIndex * materialUniformSize)
  [ { offset := base, size := sizeofVec3, data := material.ambientColor },
    { offset := base + sizeofVec3, size := sizeofGLfloat, data := material.specularExponent },
    { offset := base + sizeofVec3 + sizeofGLfloat, size := sizeofVec3,
      data := material.diffuseColor },
    { offset := base + 2 * sizeofVec3 + sizeofGLfloat, size := sizeofGLint,
      data := glintBytes material.maps } ]

/-- Method `GLHelper::setMaterial`, as a function on the data store of the buffer
`allMaterialsUBOLocation`. -/
def setMaterial (materialUniformSize : Nat) (store : List Nat) (material : Material) :
    List Nat :=
  applyWrites store (setMaterialWrites materialUniformSize material)

/-- The one `glBufferSubData` call of `GLHelper::setModel`; `worldTransform` is the
matrix as the 64 bytes it occupies in memory.  The offset
`modelID * sizeof(glm::mat4)` is computed in `size_t`. -/
def setModelWrites (modelID : Nat) (worldTransform : List Nat) : List BufferWrite :=
  [ { offset := modelID * sizeofMat4, size := sizeofMat4, data := worldTransform } ]

/-- Method `GLHelper::setModel`, as a function on the data store of the buffer
`allModelsUBOLocation`. -/
def setModel (store : List Nat) (modelID : Nat) (worldTransform : List Nat) : List Nat :=
  applyWrites store (setModelWrites modelID worldTransform)

/-- The byte size the constructor passes to `glBufferData` for a buffer of
`count` slots of `stride` bytes (`lightUniformSize * NR_TOTAL_LIGHTS`,
`materialUniformSize * NR_MAX_MATERIALS`, `modelUniformSize * NR_MAX_MODELS`):
a 32-bit unsigned product of constants defined in `GLHelper.h`, which is not
among the sources, so both are parameters. -/
def uniformBufferSize (stride count : Nat) : Nat := wrap32 (stride * count)

/-! ## Model rendering (`GameObjects/Model.cpp` lines 170-275) -/

/-- The material of a mesh as `Model` reads it through its getters (the class is
declared in `Material.h`, not among the sources): its index, and for each kind
of map the ID of its texture when the material has that map. -/
structure MeshMaterial where
  materialIndex : Nat
  diffuseTexture : Option Nat := none
  ambientTexture : Option Nat := none
  specularTexture : Option Nat := none
  opacityTexture : Option Nat := none
  normalTexture : Option Nat := none
deriving DecidableEq, Repr

/-- The mesh of a `MeshMeta` as `Model` reads it: `getMaterial()` (`none` for a null
pointer), `getVao()`, `getEbo()` and `getTriangleCount()`. -/
structure Mesh where
  material : Option MeshMaterial
  vao : Nat
  ebo : Nat
  triangleCount : Nat
deriving DecidableEq, Repr

/-- The shader program of a `MeshMeta` as `Model` uses it: `getID()`, what
`glGetUniformBlockIndex` answers for its material block, and the location of
its uniform `boneTransformArray[0]` when it has one. -/
structure GLSLProgram where
  id : Nat
  materialBlockIndex : Int
  boneTransformArrayLocation : Option Nat
deriving DecidableEq, Repr

/-- One entry of `Model::meshMetaData`: the mesh (`none` for a null pointer) and
the program. -/
structure MeshMeta where
  mesh : Option Mesh
  program : GLSLProgram
deriving DecidableEq, Repr

/-- The fields of `Model` that its render methods read.  The five attach points
are constants of `Model.h`, which is not among the sources; the bone transforms
are kept as opaque values, one per bone. -/
structure Model where
  meshMetaData : List MeshMeta
  animated : Bool
  boneTransforms : List Nat
  diffuseMapAttachPoint : Nat
  ambientMapAttachPoint : Nat
  specularMapAttachPoint : Nat
  opacityMapAttachPoint : Nat
  normalMapAttachPoint : Nat
deriving DecidableEq, Repr

/-- Modelled from the spec: `GLSLProgram::setUniformArray` (the class is not among
the sources).  The shader-program layer resolves the uniform name to a location
and hands it to the array setter of `GLHelper`; when the program has no such
uniform it sets nothing and reports failure. -/
def GLSLProgram.setUniformArray {β : Type} (program : GLSLProgram) (g : GLHelper)
    (matrixArray : List β) : Except GLHelper (GLHelper × Bool) :=
  match program.boneTransformArrayLocation with
  | none => Except.ok (g, false)
  | some uniformID => Limon.setUniformArray g program.id uniformID matrixArray

/-- One `if (material->hasXMap()) glHelper->attachTexture(..)` of
`activateTexturesOnly`. -/
def attachIfPresent (g : GLHelper) (texture : Option Nat) (attachPoint : Nat) : GLHelper :=
  match texture with
  | some textureID => attachTexture g textureID attachPoint
  | none => g

/-- Method `Model::activateTexturesOnly`. -/
def Model.activateTexturesOnly (m : Model) (g : GLHelper) (material : MeshMaterial) : GLHelper :=
  let g1 := attachIfPresent g material.diffuseTexture m.diffuseMapAttachPoint
  let g2 := attachIfPresent g1 material.ambientTexture m.ambientMapAttachPoint
  let g3 := attachIfPresent g2 material.specularTexture m.specularMapAttachPoint
  let g4 := attachIfPresent g3 material.opacityTexture m.opacityMapAttachPoint
  attachIfPresent g4 material.normalTexture m.normalMapAttachPoint

/-- The test `mesh != nullptr && mesh->getMaterial() != nullptr`: the mesh and its
material when both are present. -/
def MeshMeta.meshAndMaterial (meshMeta : MeshMeta) : Option (Mesh × MeshMaterial) :=
  match meshMeta.mesh with
  | none => none
  | some mesh =>
    match mesh.material with
    | none => none
    | some material => some (mesh, material)

/-- Method `Model::setupRenderVariables`: the `GLHelper` after the call and the
returned `bool`, or the `GLHelper` as a thrown exception leaves it.  The bone
loop of the animated case writes only to objects of the model. -/
def Model.setupRenderVariables (m : Model) (g : GLHelper) (meshMeta : MeshMeta) :
    Except GLHelper (GLHelper × Bool) :=
  match meshMeta.meshAndMaterial with
  | none => Except.ok (g, false)
  | some (_, material) =>
    let g1 := attachMaterialUBO g meshMeta.program.id meshMeta.program.materialBlockIndex
      material.materialIndex
    if m.animated then
      match meshMeta.program.setUniformArray g1 m.boneTransforms with
      | Except.error thrown => Except.error thrown
      | Except.ok r => Except.ok (r.1, true)
    else
      Except.ok (g1, true)

/-- The loop of `Model::render` on the entries not yet visited.  The element count
handed to `GLHelper::render` is the 32-bit product `getTriangleCount() * 3`. -/
def Model.renderMeshes (m : Model) : GLHelper → List MeshMeta → Except GLHelper GLHelper
  | g, [] => Except.ok g
  | g, meshMeta :: rest =>
    match m.setupRenderVariables g meshMeta with
    | Except.error thrown => Except.error thrown
    | Except.ok (g1, true) =>
      match meshMeta.mesh with
      | some mesh =>
        m.renderMeshes
          (render g1 meshMeta.program.id mesh.vao mesh.ebo (wrap32 (mesh.triangleCount * 3))) rest
      | none => m.renderMeshes g1 rest
    | Except.ok (g1, false) => m.renderMeshes g1 rest

/-- Method `Model::render`. -/
def Model.render (m : Model) (g : GLHelper) : Except GLHelper GLHelper :=
  m.renderMeshes g m.meshMetaData

/-- The loop of `Model::renderInstanced` on the entries not yet visited; the result
of `setupRenderVariables` is not looked at. -/
def Model.renderMeshesInstanced (m : Model) (instanceCount : Nat) :
    GLHelper → List MeshMeta → Except GLHelper GLHelper
  | g, [] => Except.ok g
  | g, meshMeta :: rest =>
    match m.setupRenderVariables g meshMeta with
    | Except.error thrown => Except.error thrown
    | Except.ok (g1, _) =>
      match meshMeta.meshAndMaterial with
      | some (mesh, material) =>
        m.renderMeshesInstanced instanceCount
          (renderInstanced (m.activateTexturesOnly g1 material) meshMeta.program.id mesh.vao
            mesh.ebo (wrap32 (mesh.triangleCount * 3)) instanceCount) rest
      | none => m.renderMeshesInstanced instanceCount g1 rest

/-- Method `Model::renderInstanced`.  It starts with `setModelIndexesUBO`, which
throws on an empty index list; the bytes that call writes belong to the
model-index buffer, which is not part of `GLHelper` here. -/
def Model.renderInstanced (m : Model) (g : GLHelper) (modelIndices : List Nat) :
    Except GLHelper GLHelper :=
  match setModelIndexesUBO modelIndices with
  | none => Except.error g
  | some _ => m.renderMeshesInstanced modelIndices.length g m.meshMetaData

/-- The triangle counts `T_1 .. T_k` of the meshes of an entry list, summed. -/
def triangleTotal (meshes : List MeshMeta) : Nat :=
  (meshes.map (fun meshMeta =>
    match meshMeta.mesh with
    | some mesh => mesh.triangleCount
    | none => 0)).sum

/-- Every entry has a mesh with a material and a non-zero program ID. -/
def Renderable (meshes : List MeshMeta) : Prop :=
  ∀ meshMeta ∈ meshes, meshMeta.meshAndMaterial ≠ none ∧ meshMeta.program.id ≠ 0

/-- A static model of two meshes with materials, of 12 and 100 triangles. -/
def Model.sample : Model :=
  { meshMetaData :=
      [ { mesh := some { material := some { materialIndex := 0, diffuseTexture := some 7 },
                         vao := 1, ebo := 2, triangleCount := 12 },
          program := { id := 3, materialBlockIndex := 0, boneTransformArrayLocation := none } },
        { mesh := some { material := some { materialIndex := 1 },
                         vao := 4, ebo := 5, triangleCount := 100 },
          program := { id := 3, materialBlockIndex := 0, boneTransformArrayLocation := none } } ],
    animated := false,
    boneTransforms := List.replicate 128 0,
    diffuseMapAttachPoint := 1, ambientMapAttachPoint := 2, specularMapAttachPoint := 3,
    opacityMapAttachPoint := 4, normalMapAttachPoint := 5 }

/-! ## Construction, shutdown and reshape (`GLHelper.cpp` lines 225-548, 895-922) -/

/-- The texture targets the constructor binds. -/
inductive TextureTarget where
  | TEXTURE_2D
  | TEXTURE_2D_ARRAY
  | TEXTURE_CUBE_MAP_ARRAY
deriving DecidableEq, Repr

/-- The texture bound to a target on the active texture unit. -/
def boundTexture (d : Driver) : TextureTarget → Nat
  | TextureTarget.TEXTURE_2D => d.texture2D.getD d.activeTexture 0
  | TextureTarget.TEXTURE_2D_ARRAY => d.texture2DArray.getD d.activeTexture 0
  | TextureTarget.TEXTURE_CUBE_MAP_ARRAY => d.textureCubeMapArray.getD d.activeTexture 0

/-- The calls `glTexImage2D(target, 0, .., width, height, ..)` and
`glTexImage3D(target, 0, .., width, height, depth, ..)`: the texture bound to the
target receives an image of that width and height. -/
def glTexImage (d : Driver) (target : TextureTarget) (width height : Nat) : Driver :=
  { d with textureImages := (boundTexture d target, width, height) :: d.textureImages }

/-- The call `glFramebufferTexture2D(GL_FRAMEBUFFER, point, GL_TEXTURE_2D, texture, 0)`
or `glFramebufferTexture(GL_FRAMEBUFFER, point, texture, 0)`: it attaches to the
framebuffer that is bound. -/
def glFramebufferTexture (d : Driver) (point : AttachmentPoint) (texture : Nat) : Driver :=
  { d with framebufferTextures := (d.framebufferBinding, point, texture) :: d.framebufferTextures }

/-- The call `glBindRenderbuffer(GL_RENDERBUFFER, name)`. -/
def glBindRenderbuffer (d : Driver) (name : Nat) : Driver :=
  { d with renderbuffers := createOnBind d.renderbuffers name, renderbufferBinding := name }

/-- The call `glRenderbufferStorage(GL_RENDERBUFFER, format, width, height)`. -/
def glRenderbufferStorage (d : Driver) (width height : Nat) : Driver :=
  { d with renderbufferStorage := (d.renderbufferBinding, width, height) :: d.renderbufferStorage }

/-- The call `glFramebufferRenderbuffer(GL_FRAMEBUFFER, point, GL_RENDERBUFFER, name)`. -/
def glFramebufferRenderbuffer (d : Driver) (point : AttachmentPoint) (name : Nat) : Driver :=
  { d with framebufferRenderbuffers :=
      (d.framebufferBinding, point, name) :: d.framebufferRenderbuffers }

/-- The call `glDeleteFramebuffers(1, &name)`: the object is gone, and the default
framebuffer takes its place if it was bound. -/
def glDeleteFramebuffers (d : Driver) (name : Nat) : Driver :=
  { d with framebuffers := d.framebuffers.filter (fun f => f ≠ name),
           framebufferBinding := if d.framebufferBinding = name then 0 else d.framebufferBinding }

/-- The query `glIsTexture(name)`. -/
def glIsTexture (d : Driver) (name : Nat) : Bool :=
  decide (name ∈ d.textures)

/-- The call `glDeleteTextures(1, &name)`. -/
def glDeleteTextures (d : Driver) (name : Nat) : Driver :=
  { d with textures := d.textures.filter (fun t => t ≠ name) }

/-- Method `GLHelper::deleteTexture`. -/
def deleteTexture (g : GLHelper) (textureID : Nat) : GLHelper × Bool :=
  if glIsTexture g.gl textureID then
    ({ g with gl := glDeleteTextures g.gl textureID }, true)
  else
    (g, false)

/-- The image `(width, height)` a texture received last, if any. -/
def textureSizeOf (d : Driver) (texture : Nat) : Option (Nat × Nat) :=
  (d.textureImages.find? (fun e => e.1 = texture)).map (fun e => e.2)

/-- The textures attached to a framebuffer through `glFramebufferTexture2D` or
`glFramebufferTexture`. -/
def attachedTextures (d : Driver) (framebuffer : Nat) : List Nat :=
  (d.framebufferTextures.filter (fun e => e.1 = framebuffer)).map (fun e => e.2.2)

/-- A context in which no object exists yet, with `units` texture units. -/
def Driver.fresh (units : Nat) : Driver :=
  { texture2D := List.replicate units 0,
    textureCubeMap := List.replicate units 0,
    texture2DArray := List.replicate units 0,
    textureCubeMapArray := List.replicate units 0 }

/-- The names the `glGen*` calls of the constructor write, in program order. -/
structure GeneratedNames where
  lightUBOLocation : Nat
  playerUBOLocation : Nat
  allMaterialsUBOLocation : Nat
  allModelsUBOLocation : Nat
  allModelIndexesUBOLocation : Nat
  depthOnlyFrameBufferDirectional : Nat
  depthMapDirectional : Nat
  depthOnlyFrameBufferPoint : Nat
  depthCubemapPoint : Nat
  depthOnlyFrameBuffer : Nat
  depthMap : Nat
  coloringFrameBuffer : Nat
  normalMap : Nat
  diffuseAndSpecularLightedMap : Nat
  ambientMap : Nat
  rboDepth : Nat
  ssaoGenerationFrameBuffer : Nat
  ssaoMap : Nat
  ssaoBlurFrameBuffer : Nat
  ssaoBlurredMap : Nat
  noiseTexture : Nat
deriving DecidableEq, Repr

/-- What the driver answers to the queries of the constructor: whether `glewInit`
succeeded, `GL_MAX_TEXTURE_IMAGE_UNITS`, whether the extension list holds
`GL_ARB_texture_cube_map_array`, and `GL_UNIFORM_BUFFER_OFFSET_ALIGNMENT`. -/
structure DriverAnswers where
  glewOk : Bool
  maxTextureImageUnits : Int
  isCubeMapArraySupported : Bool
  uniformBufferAlignSize : Int
deriving DecidableEq, Repr

/-- The statements `glGenBuffers(1, &name); glBindBuffer(GL_UNIFORM_BUFFER, name);
glBufferData(..); glBindBuffer(GL_UNIFORM_BUFFER, 0);` of the constructor. -/
def createUniformBuffer (d : Driver) (name : Nat) : Driver :=
  glBindBuffer (glBindBuffer d name) 0

/-- The statements `glGenTextures(1, &texture); glBindTexture(GL_TEXTURE_2D, texture);
glTexImage2D(.., width, height, ..); ..; glBindTexture(GL_TEXTURE_2D, 0);` of the
constructor. -/
def createTexture2D (d : Driver) (texture width height : Nat) : Driver :=
  glBindTexture2D (glTexImage (glBindTexture2D d texture) TextureTarget.TEXTURE_2D width height) 0

/-- Modelled from the spec: the constructor `OpenglState(maxTextureImageUnits)`
(declared in `GLHelper.h`, not among the sources): a cache with one entry per
texture unit and nothing bound. -/
def OpenglState.initial (maxTextureImageUnits : Int) : OpenglState :=
  { activeProgram := 0, textures := List.replicate (toUnsigned32 maxTextureImageUnits) 0 }

/-- The constructor `GLHelper::GLHelper(Options *options)` on the context `d`:
the object it leaves, or `none` on the two paths that end the process
(`exit(1)` after a failed `glewInit`, `exit(-1)` without cube map arrays).
The third argument is the value `materialUniformSize` has before the body runs
(its initialiser is in `GLHelper.h`, not among the sources).  Sampling
parameters, draw buffer selection and the light projection matrices are not
part of the state modelled here; the camera fields are in `cameraConstructed`. -/
def GLHelper.construct (d : Driver) (options : Options) (materialUniformSize : Nat)
    (answers : DriverAnswers) (names : GeneratedNames) : Option GLHelper :=
  if !answers.glewOk then none
  else
    -- glEnable(GL_CULL_FACE); glFrontFace(GL_CCW); glCullFace(GL_BACK);
    let d := glCullFace d CullFace.BACK
    if !answers.isCubeMapArraySupported then none
    else
      -- the five uniform buffers
      let d := createUniformBuffer d names.lightUBOLocation
      let d := createUniformBuffer d names.playerUBOLocation
      let d := createUniformBuffer d names.allMaterialsUBOLocation
      let d := createUniformBuffer d names.allModelsUBOLocation
      let d := createUniformBuffer d names.allModelIndexesUBOLocation
      -- depth buffer and texture for the directional shadow map
      let d := glBindTexture2DArray d names.depthMapDirectional
      let d := glTexImage d TextureTarget.TEXTURE_2D_ARRAY options.shadowMapDirectionalWidth
        options.shadowMapDirectionalHeight
      let d := glBindTexture2DArray d 0
      let d := glBindFramebuffer d names.depthOnlyFrameBufferDirectional
      let d := glFramebufferTextureLayer d names.depthMapDirectional 0 0
      let d := glBindFramebuffer d 0
      -- depth buffer and texture for the point shadow map
      let d := glBindTextureCubeMapArray d names.depthCubemapPoint
      let d := glTexImage d TextureTarget.TEXTURE_CUBE_MAP_ARRAY options.shadowMapPointWidth
        options.shadowMapPointHeight
      let d := glBindTextureCubeMapArray d 0
      let d := glBindFramebuffer d names.depthOnlyFrameBufferPoint
      let d := glFramebufferTexture d AttachmentPoint.DEPTH names.depthCubemapPoint
      let d := glBindFramebuffer d 0
      -- prepass depth
      let d := createTexture2D d names.depthMap options.screenWidth options.screenHeight
      let d := glBindFramebuffer d names.depthOnlyFrameBuffer
      let d := glFramebufferTexture d AttachmentPoint.DEPTH names.depthMap
      let d := glBindFramebuffer d 0
      -- coloring framebuffer with normal map extraction
      let d := createTexture2D d names.normalMap options.screenWidth options.screenHeight
      let d := createTexture2D d names.diffuseAndSpecularLightedMap options.screenWidth
        options.screenHeight
      let d := createTexture2D d names.ambientMap options.screenWidth options.screenHeight
      let d := glBindFramebuffer d names.coloringFrameBuffer
      let d := glFramebufferTexture d (AttachmentPoint.COLOR 0) names.diffuseAndSpecularLightedMap
      let d := glFramebufferTexture d (AttachmentPoint.COLOR 1) names.ambientMap
      let d := glFramebufferTexture d (AttachmentPoint.COLOR 2) names.normalMap
      let d := glBindRenderbuffer d names.rboDepth
      let d := glRenderbufferStorage d options.screenWidth options.screenHeight
      let d := glFramebufferRenderbuffer d AttachmentPoint.DEPTH names.rboDepth
      let d := glBindFramebuffer d 0
      -- SSAO generation
      let d := createTexture2D d names.ssaoMap options.screenWidth options.screenHeight
      let d := glBindFramebuffer d names.ssaoGenerationFrameBuffer
      let d := glFramebufferTexture d (AttachmentPoint.COLOR 1) names.ssaoMap
      let d := glBindFramebuffer d 0
      -- SSAO blur
      let d := createTexture2D d names.ssaoBlurredMap options.screenWidth options.screenHeight
      let d := glBindFramebuffer d names.ssaoBlurFrameBuffer
      let d := glFramebufferTexture d (AttachmentPoint.COLOR 1) names.ssaoBlurredMap
      let d := glBindFramebuffer d 0
      -- SSAO noise, 4 x 4; the texture stays bound
      let d := glBindTexture2D d names.noiseTexture
      let d := glTexImage d TextureTarget.TEXTURE_2D 4 4
      some
        { gl := d,
          options := options,
          screenHeight := options.screenHeight,
          screenWidth := options.screenWidth,
          maxTextureImageUnits := answers.maxTextureImageUnits,
          state := OpenglState.initial answers.maxTextureImageUnits,
          materialUniformSize :=
            padMaterialUniformSize materialUniformSize answers.uniformBufferAlignSize,
          lightUBOLocation := names.lightUBOLocation,
          playerUBOLocation := names.playerUBOLocation,
          allMaterialsUBOLocation := names.allMaterialsUBOLocation,
          allModelsUBOLocation := names.allModelsUBOLocation,
          allModelIndexesUBOLocation := names.allModelIndexesUBOLocation,
          depthOnlyFrameBufferDirectional := names.depthOnlyFrameBufferDirectional,
          depthMapDirectional := names.depthMapDirectional,
          depthOnlyFrameBufferPoint := names.depthOnlyFrameBufferPoint,
          depthCubemapPoint := names.depthCubemapPoint,
          depthOnlyFrameBuffer := names.depthOnlyFrameBuffer,
          depthMap := names.depthMap,
          coloringFrameBuffer := names.coloringFrameBuffer,
          normalMap := names.normalMap,
          diffuseAndSpecularLightedMap := names.diffuseAndSpecularLightedMap,
          ambientMap := names.ambientMap,
          rboDepth := names.rboDepth,
          ssaoGenerationFrameBuffer := names.ssaoGenerationFrameBuffer,
          ssaoMap := names.ssaoMap,
          ssaoBlurFrameBuffer := names.ssaoBlurFrameBuffer,
          ssaoBlurredMap := names.ssaoBlurredMap,
          noiseTexture := names.noiseTexture }

/-- The destructor `GLHelper::~GLHelper()`. -/
def GLHelper.destruct (g : GLHelper) : GLHelper :=
  -- for (i = 0; i < bufferObjects.size(); ++i) deleteBuffer(1, bufferObjects[i]);
  let g := g.bufferObjects.foldl (fun acc bufferID => (deleteBuffer acc 1 bufferID).1) g
  let g := (deleteBuffer g 1 g.lightUBOLocation).1
  let g := (deleteBuffer g 1 g.playerUBOLocation).1
  let g := (deleteBuffer g 1 g.allMaterialsUBOLocation).1
  let g := (deleteBuffer g 1 g.depthMapDirectional).1
  let g := (deleteBuffer g 1 g.depthCubemapPoint).1
  let g := (deleteBuffer g 1 g.depthMap).1
  let d := glDeleteFramebuffers g.gl g.depthOnlyFrameBufferDirectional
  let d := glDeleteFramebuffers d g.depthOnlyFrameBufferPoint
  let d := glDeleteFramebuffers d g.depthOnlyFrameBuffer
  { g with gl := d }

/-- Method `GLHelper::reshape`, the part on the cached screen size and the
viewport (the projection matrices are in `reshapeMatrices`).  The options
object is read through the pointer at the time of the call. -/
def reshape (g : GLHelper) : GLHelper :=
  { g with
    screenHeight := g.options.screenHeight,
    screenWidth := g.options.screenWidth,
    gl := glViewport g.gl 0 0 g.options.screenWidth g.options.screenHeight }

/-- A write to the options object by its owner: the object is shared with
`GLHelper` through a pointer, and `Options::loadOptions` assigns its fields. -/
def optionsWritten (g : GLHelper) (options : Options) : GLHelper :=
  { g with options := options }

/-- The names a driver hands out in a context without objects: each kind of object
is numbered from 1. -/
def GeneratedNames.first : GeneratedNames :=
  { lightUBOLocation := 1, playerUBOLocation := 2, allMaterialsUBOLocation := 3,
    allModelsUBOLocation := 4, allModelIndexesUBOLocation := 5,
    depthOnlyFrameBufferDirectional := 1, depthMapDirectional := 1,
    depthOnlyFrameBufferPoint := 2, depthCubemapPoint := 2,
    depthOnlyFrameBuffer := 3, depthMap := 3,
    coloringFrameBuffer := 4, normalMap := 4, diffuseAndSpecularLightedMap := 5,
    ambientMap := 6, rboDepth := 1,
    ssaoGenerationFrameBuffer := 5, ssaoMap := 7,
    ssaoBlurFrameBuffer := 6, ssaoBlurredMap := 8, noiseTexture := 9 }

/-- Options with a screen of 800 x 600 and shadow maps of 1024 and 512. -/
def Options.sample : Options :=
  { screenWidth := 800, screenHeight := 600,
    shadowMapDirectionalWidth := 1024, shadowMapDirectionalHeight := 1024,
    shadowMapPointWidth := 512, shadowMapPointHeight := 512 }

/-- Driver answers of a working context: 16 texture units, alignment 256. -/
def DriverAnswers.sample : DriverAnswers :=
  { glewOk := true, maxTextureImageUnits := 16, isCubeMapArraySupported := true,
    uniformBufferAlignSize := 256 }

/-- The object the constructor leaves in a context without objects, for the
sample options; the default object stands for the paths that do not return. -/
def GLHelper.sample : GLHelper :=
  (GLHelper.construct (Driver.fresh 16) Options.sample 32 DriverAnswers.sample
    GeneratedNames.first).getD {}

/-- The four passes that render at screen size into a framebuffer of their own. -/
inductive ScreenPass where
  | depthPrePass
  | coloring
  | ssaoGeneration
  | ssaoBlur
deriving DecidableEq, Repr

/-- The switch method of a screen-size pass. -/
def ScreenPass.switch : ScreenPass → GLHelper → GLHelper
  | ScreenPass.depthPrePass => switchRenderToDepthPrePass
  | ScreenPass.coloring => switchRenderToColoring
  | ScreenPass.ssaoGeneration => switchRenderToSSAOGeneration
  | ScreenPass.ssaoBlur => switchRenderToSSAOBlur

/-- The framebuffer a screen-size pass renders into. -/
def ScreenPass.framebuffer : ScreenPass → GLHelper → Nat
  | ScreenPass.depthPrePass => fun g => g.depthOnlyFrameBuffer
  | ScreenPass.coloring => fun g => g.coloringFrameBuffer
  | ScreenPass.ssaoGeneration => fun g => g.ssaoGenerationFrameBuffer
  | ScreenPass.ssaoBlur => fun g => g.ssaoBlurFrameBuffer

/-- The states reachable from the constructed object `start` through `reshape`
calls and pass switches, the options object being written in between by its
owner with values that satisfy `allowed`. -/
inductive PipelineReachable (allowed : Options → Prop) (start : GLHelper) : GLHelper → Prop where
  | constructed : PipelineReachable allowed start start
  | written (g : GLHelper) (options : Options) :
      PipelineReachable allowed start g → allowed options →
      PipelineReachable allowed start (optionsWritten g options)
  | reshaped (g : GLHelper) :
      PipelineReachable allowed start g → PipelineReachable allowed start (reshape g)
  | shadowDirectional (g : GLHelper) (index : Nat) :
      PipelineReachable allowed start g →
      PipelineReachable allowed start (switchRenderToShadowMapDirectional g index)
  | shadowPoint (g : GLHelper) :
      PipelineReachable allowed start g →
      PipelineReachable allowed start (switchRenderToShadowMapPoint g)
  | screenPass (g : GLHelper) (pass : ScreenPass) :
      PipelineReachable allowed start g → PipelineReachable allowed start (pass.switch g)
  | combining (g : GLHelper) :
      PipelineReachable allowed start g →
      PipelineReachable allowed start (switchRenderToCombining g)

/-- The render targets of `b` are those of `a`: same texture images, same
framebuffer attachments, same framebuffer handles of the screen-size passes. -/
def TargetsKept (a b : GLHelper) : Prop :=
  b.gl.textureImages = a.gl.textureImages ∧
  b.gl.framebufferTextures = a.gl.framebufferTextures ∧
  b.depthOnlyFrameBuffer = a.depthOnlyFrameBuffer ∧
  b.coloringFrameBuffer = a.coloringFrameBuffer ∧
  b.ssaoGenerationFrameBuffer = a.ssaoGenerationFrameBuffer ∧
  b.ssaoBlurFrameBuffer = a.ssaoBlurFrameBuffer

/-- The framebuffer names among the generated names. -/
def GeneratedNames.framebuffers (names : GeneratedNames) : List Nat :=
  [names.depthOnlyFrameBufferDirectional, names.depthOnlyFrameBufferPoint,
    names.depthOnlyFrameBuffer, names.coloringFrameBuffer, names.ssaoGenerationFrameBuffer,
    names.ssaoBlurFrameBuffer]

/-- The texture names among the generated names. -/
def GeneratedNames.textures (names : GeneratedNames) : List Nat :=
  [names.depthMapDirectional, names.depthCubemapPoint, names.depthMap, names.normalMap,
    names.diffuseAndSpecularLightedMap, names.ambientMap, names.ssaoMap, names.ssaoBlurredMap,
    names.noiseTexture]

/-- Options of a window resized to 1024 x 768. -/
def Options.resized : Options :=
  { Options.sample with screenWidth := 1024, screenHeight := 768 }

/-! ## Lemmas on the scan and on swap-with-last-and-pop -/

theorem firstMatch_none (id : Nat) (xs : List Nat) (i : Nat) (h : id ∉ xs) :
    firstMatch id xs i = none := by
  induction xs generalizing i with
  | nil => rfl
  | cons x rest ih =>
    have hx : x ≠ id := fun e => h (by simp [e])
    have hr : id ∉ rest := fun m => h (List.mem_cons_of_mem _ m)
    simp [firstMatch, hx, ih _ hr]

theorem firstMatch_some (id : Nat) (xs : List Nat) (i : Nat) (h : id ∈ xs) :
    firstMatch id xs i = some (i + xs.indexOf id) := by
  induction xs generalizing i with
  | nil => simp at h
  | cons x rest ih =>
    by_cases hx : x = id
    · simp [firstMatch, hx]
    · have hr : id ∈ rest := by
        rcases List.mem_cons.mp h with e | m
        · exact absurd e.symm hx
        · exact m
      simp [firstMatch, hx, ih _ hr, List.indexOf_cons_ne _ hx]
      omega

theorem swapRemove_length (v : List Nat) (i : Nat) :
    (swapRemove v i).length = v.length - 1 := by
  simp [swapRemove]

theorem swapRemove_getElem? (v : List Nat) (i j : Nat) (hj : j < v.length - 1) :
    (swapRemove v i)[j]? = if j = i then v.getLast? else v[j]? := by
  unfold swapRemove
  rw [List.getElem?_dropLast, List.length_set, if_pos hj, List.getElem?_set]
  by_cases hji : j = i
  · subst hji
    have h1 : j < v.length := by omega
    have h2 : v.length - 1 < v.length := by omega
    simp [h1, List.getLast?_eq_getElem?, List.getD_eq_getElem?_getD, List.getElem?_eq_getElem h2]
  · have : ¬ i = j := fun e => hji e.symm
    simp [hji, this]

theorem set_perm_cons_eraseIdx (ys : List Nat) (i l : Nat) (hi : i < ys.length) :
    (ys.set i l).Perm (l :: ys.eraseIdx i) := by
  induction ys generalizing i with
  | nil => simp at hi
  | cons y rest ih =>
    cases i with
    | zero => simp
    | succ k =>
      have hk : k < rest.length := by simpa using hi
      simp only [List.set_cons_succ, List.eraseIdx_cons_succ]
      exact ((ih k hk).cons y).trans (List.Perm.swap l y _)

theorem swapRemove_concat_lt (ys : List Nat) (l i : Nat) (hi : i < ys.length) :
    swapRemove (ys ++ [l]) i = ys.set i l := by
  unfold swapRemove
  have : (ys ++ [l]).getD ((ys ++ [l]).length - 1) 0 = l := by simp [List.getD_eq_getElem?_getD]
  rw [this, List.set_append_left _ _ hi, List.dropLast_concat]

theorem swapRemove_concat_last (ys : List Nat) (l : Nat) :
    swapRemove (ys ++ [l]) ys.length = ys := by
  unfold swapRemove
  have : (ys ++ [l]).getD ((ys ++ [l]).length - 1) 0 = l := by simp [List.getD_eq_getElem?_getD]
  rw [this, List.set_append_right _ _ (le_refl _)]
  simp

theorem swapRemove_perm (v : List Nat) (i : Nat) (hi : i < v.length) :
    (swapRemove v i).Perm (v.eraseIdx i) := by
  rcases List.eq_nil_or_concat v with rfl | ⟨ys, l, rfl⟩
  · simp at hi
  · simp only [List.concat_eq_append] at hi ⊢
    have hi2 : i < ys.length + 1 := by simpa using hi
    rcases Nat.lt_succ_iff_lt_or_eq.mp hi2 with hlt | heq
    · rw [swapRemove_concat_lt ys l i hlt, List.eraseIdx_append_of_lt_length hlt]
      exact (set_perm_cons_eraseIdx ys i l hlt).trans (List.perm_append_singleton l _).symm
    · subst heq
      rw [swapRemove_concat_last, List.eraseIdx_append_of_length_le (le_refl _)]
      simp

/-- The index of a list entry equal to `h` with no earlier such entry is `indexOf`. -/
theorem indexOf_of_first (t : List Nat) (h i : Nat) (hat : t[i]? = some h)
    (hfirst : ∀ j, j < i → t[j]? ≠ some h) : t.indexOf h = i := by
  induction t generalizing i with
  | nil => simp at hat
  | cons x rest ih =>
    cases i with
    | zero =>
      have hx : x = h := by simpa using hat
      simp [hx]
    | succ k =>
      have hx : x ≠ h := fun e => hfirst 0 (Nat.succ_pos k) (by simp [e])
      have hk : rest[k]? = some h := by simpa using hat
      have hf : ∀ j, j < k → rest[j]? ≠ some h := fun j hj => by
        simpa using hfirst (j + 1) (Nat.succ_lt_succ hj)
      rw [List.indexOf_cons_ne _ hx, ih k hk hf]

/-! ## Lemmas on `freeBuffer` and `freeVAO` -/

theorem freeBuffer_of_not_mem (g : GLHelper) (h : Nat) (hm : h ∉ g.bufferObjects) :
    freeBuffer g h = (g, false) := by
  simp [freeBuffer, firstMatch_none h _ 0 hm]

theorem freeVAO_of_not_mem (g : GLHelper) (h : Nat) (hm : h ∉ g.vertexArrays) :
    freeVAO g h = (g, false) := by
  simp [freeVAO, firstMatch_none h _ 0 hm]

theorem deleteBuffer_bufferObjects (g : GLHelper) (n b : Nat) :
    (deleteBuffer g n b).1.bufferObjects = g.bufferObjects := by
  unfold deleteBuffer; split <;> rfl

theorem deleteBuffer_vertexArrays (g : GLHelper) (n b : Nat) :
    (deleteBuffer g n b).1.vertexArrays = g.vertexArrays := by
  unfold deleteBuffer; split <;> rfl

theorem getD_indexOf (t : List Nat) (h : Nat) (hm : h ∈ t) : t.getD (t.indexOf h) 0 = h := by
  have hlt : t.indexOf h < t.length := List.indexOf_lt_length.mpr hm
  simp [List.getD_eq_getElem?_getD, List.getElem?_eq_getElem hlt]

theorem freeBuffer_of_mem (g : GLHelper) (h : Nat) (hm : h ∈ g.bufferObjects) :
    freeBuffer g h =
      ({ (deleteBuffer g 1 h).1 with
          bufferObjects := swapRemove g.bufferObjects (g.bufferObjects.indexOf h) }, true) := by
  unfold freeBuffer
  rw [firstMatch_some h _ 0 hm]
  simp only [Nat.zero_add, getD_indexOf _ _ hm, deleteBuffer_bufferObjects]

theorem freeVAO_of_mem (g : GLHelper) (h : Nat) (hm : h ∈ g.vertexArrays) :
    freeVAO g h =
      ({ (deleteBuffer g 1 h).1 with
          vertexArrays := swapRemove g.vertexArrays (g.vertexArrays.indexOf h) }, true) := by
  unfold freeVAO
  rw [firstMatch_some h _ 0 hm]
  simp only [Nat.zero_add, getD_indexOf _ _ hm, deleteBuffer_vertexArrays]

theorem freeBuffer_table_perm (g : GLHelper) (h : Nat) (hm : h ∈ g.bufferObjects) :
    (freeBuffer g h).1.bufferObjects.Perm (g.bufferObjects.erase h) := by
  rw [freeBuffer_of_mem g h hm]
  have hlt : g.bufferObjects.indexOf h < g.bufferObjects.length := List.indexOf_lt_length.mpr hm
  simpa [List.eraseIdx_indexOf_eq_erase] using swapRemove_perm g.bufferObjects _ hlt

theorem freeBuffer_snd_iff (g : GLHelper) (h : Nat) :
    (freeBuffer g h).2 = true ↔ h ∈ g.bufferObjects := by
  by_cases hm : h ∈ g.bufferObjects
  · simp [freeBuffer_of_mem g h hm, hm]
  · simp [freeBuffer_of_not_mem g h hm, hm]

/-- A handle registered exactly once is freed once: the second free reports false. -/
theorem freeBuffer_twice_of_count_one (g : GLHelper) (h : Nat)
    (hc : g.bufferObjects.count h = 1) :
    (freeBuffer g h).2 = true ∧ (freeBuffer (freeBuffer g h).1 h).2 = false := by
  have hm : h ∈ g.bufferObjects := List.count_pos_iff.mp (by omega)
  refine ⟨(freeBuffer_snd_iff g h).mpr hm, ?_⟩
  have hp := (freeBuffer_table_perm g h hm).count_eq h
  have hnot : h ∉ (freeBuffer g h).1.bufferObjects := by
    intro hin
    have : 0 < (freeBuffer g h).1.bufferObjects.count h := List.count_pos_iff.mpr hin
    rw [hp, List.count_erase_self] at this
    omega
  rw [freeBuffer_of_not_mem _ h hnot]

/-! ## Claims on the GPU object registry -/

/-- C1 (defect in the code): `bufferVertexData` enters the VBO handle it returns
into the buffer table twice (once in `generateBuffer`, once more by its own
`push_back`), so freeing that handle twice in succession reports true both
times, whatever the registry held before and whatever names the driver chose. -/
theorem bufferVertexData_vbo_freed_twice (g : GLHelper) (eboName vaoName vboName : Nat) :
    (bufferVertexData g eboName vaoName vboName).2.vbo = vboName ∧
    (freeBuffer (bufferVertexData g eboName vaoName vboName).1 vboName).2 = true ∧
    (freeBuffer (freeBuffer (bufferVertexData g eboName vaoName vboName).1 vboName).1
      vboName).2 = true := by
  have htab : (bufferVertexData g eboName vaoName vboName).1.bufferObjects
      = g.bufferObjects ++ [eboName] ++ [vboName] ++ [vboName] := rfl
  have hm : vboName ∈ (bufferVertexData g eboName vaoName vboName).1.bufferObjects := by
    rw [htab]; simp
  refine ⟨rfl, (freeBuffer_snd_iff _ _).mpr hm, (freeBuffer_snd_iff _ _).mpr ?_⟩
  have hp := (freeBuffer_table_perm _ vboName hm).count_eq vboName
  have hc : 2 ≤ (bufferVertexData g eboName vaoName vboName).1.bufferObjects.count vboName := by
    rw [htab]; simp [List.count_append, List.count_cons]; omega
  apply List.count_pos_iff.mp
  rw [hp, List.count_erase_self]
  omega

/-- C2: freeing a handle that does not occur in the live table of its kind
returns false and changes nothing (neither the table nor any other state), for
`freeBuffer` and for `freeVAO`. -/
theorem free_unregistered_handle (g : GLHelper) (h : Nat) :
    (h ∉ g.bufferObjects → freeBuffer g h = (g, false)) ∧
    (h ∉ g.vertexArrays → freeVAO g h = (g, false)) :=
  ⟨freeBuffer_of_not_mem g h, freeVAO_of_not_mem g h⟩

/-- Witness for C2: handle 7 in a registry holding buffers 1, 2 and vertex array 3. -/
theorem free_unregistered_handle_witness :
    freeBuffer { bufferObjects := [1, 2], vertexArrays := [3] } 7
      = ({ bufferObjects := [1, 2], vertexArrays := [3] }, false) ∧
    freeVAO { bufferObjects := [1, 2], vertexArrays := [3] } 7
      = ({ bufferObjects := [1, 2], vertexArrays := [3] }, false) :=
  ⟨(free_unregistered_handle { bufferObjects := [1, 2], vertexArrays := [3] } 7).1 (by decide),
   (free_unregistered_handle { bufferObjects := [1, 2], vertexArrays := [3] } 7).2 (by decide)⟩

/-- C3, counterexample: a handle fresh from `generateBuffer` has never been bound,
so the driver's `glIsBuffer` answers false for it, yet `freeBuffer` returns true. -/
theorem freeBuffer_true_without_driver_buffer :
    ¬ (glIsBuffer (generateBuffer {} 1 1).1.gl 1 = false →
        (freeBuffer (generateBuffer {} 1 1).1 1).2 = false) := by
  decide

/-- C3, as amended: `freeBuffer h` returns true exactly when `h` occurs in the
local live table, whatever the driver's existence query answers.  The query
lives in `deleteBuffer`, whose result is the query's answer and which deletes
nothing when the answer is false; `freeBuffer` passes the first matching entry
to it and takes over only its effect on the driver. -/
theorem freeBuffer_reports_table_membership (g : GLHelper) (h : Nat) :
    ((freeBuffer g h).2 = true ↔ h ∈ g.bufferObjects) ∧
    (deleteBuffer g 1 h).2 = glIsBuffer g.gl h ∧
    (deleteBuffer g 1 h).1.gl.buffers
      = (if glIsBuffer g.gl h then g.gl.buffers.filter (fun b => b ≠ h) else g.gl.buffers) ∧
    (freeBuffer g h).1.gl = (if h ∈ g.bufferObjects then (deleteBuffer g 1 h).1.gl else g.gl) := by
  refine ⟨freeBuffer_snd_iff g h, ?_, ?_, ?_⟩
  · unfold deleteBuffer; split <;> simp_all
  · unfold deleteBuffer; split <;> simp_all [glDeleteBuffers]
  · by_cases hm : h ∈ g.bufferObjects
    · rw [freeBuffer_of_mem g h hm, if_pos hm]
    · rw [freeBuffer_of_not_mem g h hm, if_neg hm]

/-- C4: when `h` occurs in the live buffer table `t` and `i` is the index of its
first occurrence, `freeBuffer h` returns true and leaves a table of length
`t.length - 1` that agrees with `t` at every position except `i`, which holds
the old last element; as a multiset it is `t` minus one occurrence of `h`. -/
theorem freeBuffer_swap_with_last_and_pop (g : GLHelper) (h i : Nat)
    (hat : g.bufferObjects[i]? = some h)
    (hfirst : ∀ j, j < i → g.bufferObjects[j]? ≠ some h) :
    (freeBuffer g h).2 = true ∧
    (freeBuffer g h).1.bufferObjects.length = g.bufferObjects.length - 1 ∧
    (∀ j, j < g.bufferObjects.length - 1 →
      (freeBuffer g h).1.bufferObjects[j]?
        = if j = i then g.bufferObjects.getLast? else g.bufferObjects[j]?) ∧
    ((freeBuffer g h).1.bufferObjects : Multiset Nat)
      = (g.bufferObjects : Multiset Nat).erase h := by
  have hm : h ∈ g.bufferObjects := List.getElem?_mem hat
  have hidx : g.bufferObjects.indexOf h = i := indexOf_of_first _ h i hat hfirst
  refine ⟨(freeBuffer_snd_iff g h).mpr hm, ?_, ?_, ?_⟩
  · rw [freeBuffer_of_mem g h hm]; exact swapRemove_length _ _
  · intro j hj
    rw [freeBuffer_of_mem g h hm, hidx]
    exact swapRemove_getElem? _ i j hj
  · rw [Multiset.coe_erase]
    exact Multiset.coe_eq_coe.mpr (freeBuffer_table_perm g h hm)

/-- Witness for C4: freeing 5 from the table 4, 5, 6, 5, 7 (first occurrence at index 1). -/
theorem freeBuffer_swap_with_last_and_pop_witness :
    (freeBuffer { bufferObjects := [4, 5, 6, 5, 7] } 5).2 = true ∧
    (freeBuffer { bufferObjects := [4, 5, 6, 5, 7] } 5).1.bufferObjects.length = 5 - 1 ∧
    (∀ j, j < 5 - 1 →
      (freeBuffer { bufferObjects := [4, 5, 6, 5, 7] } 5).1.bufferObjects[j]?
        = if j = 1 then [4, 5, 6, 5, 7].getLast? else [4, 5, 6, 5, 7][j]?) ∧
    ((freeBuffer { bufferObjects := [4, 5, 6, 5, 7] } 5).1.bufferObjects : Multiset Nat)
      = (([4, 5, 6, 5, 7] : List Nat) : Multiset Nat).erase 5 :=
  freeBuffer_swap_with_last_and_pop { bufferObjects := [4, 5, 6, 5, 7] } 5 1 (by decide)
    (by intro j hj; interval_cases j; decide)

/-- C5 (defect in the code): `freeVAO` hands the matched handle to `deleteBuffer`,
so no vertex array is ever deleted in the driver.  In general the driver's set
of live vertex arrays is the same after `freeVAO` as before; in particular,
after `generateVAO` returned 7 and `bufferNormalData` bound it, `freeVAO 7`
returns true while the driver still answers true to `glIsVertexArray 7`. -/
theorem freeVAO_leaves_vertex_array_alive :
    (∀ (g : GLHelper) (h : Nat), (freeVAO g h).1.gl.vertexArrays = g.gl.vertexArrays) ∧
    (freeVAO (bufferNormalData (generateVAO {} 1 7).1 7 3).1 7).2 = true ∧
    glIsVertexArray (freeVAO (bufferNormalData (generateVAO {} 1 7).1 7 3).1 7).1.gl 7 = true := by
  refine ⟨?_, by decide, by decide⟩
  intro g h
  by_cases hm : h ∈ g.vertexArrays
  · rw [freeVAO_of_mem g h hm]
    show (deleteBuffer g 1 h).1.gl.vertexArrays = g.gl.vertexArrays
    unfold deleteBuffer glDeleteBuffers
    split <;> simp
  · rw [freeVAO_of_not_mem g h hm]

/-- C6, counterexample: on an empty registry, with the driver handing out buffer
names 1 and 2 and vertex-array name 1, `bufferVertexData` leaves the VAO out of
the vertex-array table (and the VBO twice in the buffer table). -/
theorem bufferVertexData_not_once_each :
    ¬ ((bufferVertexData {} 1 1 2).1.vertexArrays.count (bufferVertexData {} 1 1 2).2.vao = 1 ∧
       (bufferVertexData {} 1 1 2).1.bufferObjects.count (bufferVertexData {} 1 1 2).2.vbo = 1 ∧
       (bufferVertexData {} 1 1 2).1.bufferObjects.count (bufferVertexData {} 1 1 2).2.ebo = 1) := by
  decide

/-- C6, as amended: `bufferVertexData` returns the three driver names; it leaves
the vertex-array table as it was (the VAO is created in the driver directly
and not registered), and the EBO, when its name is new to the buffer table
and differs from the VBO name, is registered there exactly once; the VBO is
registered as well. -/
theorem bufferVertexData_registers_ebo_once (g : GLHelper) (eboName vaoName vboName : Nat)
    (hfresh : eboName ∉ g.bufferObjects) (hne : eboName ≠ vboName) :
    (bufferVertexData g eboName vaoName vboName).2
      = { vao := vaoName, vbo := vboName, ebo := eboName } ∧
    (bufferVertexData g eboName vaoName vboName).1.vertexArrays = g.vertexArrays ∧
    (bufferVertexData g eboName vaoName vboName).1.bufferObjects.count eboName = 1 ∧
    vboName ∈ (bufferVertexData g eboName vaoName vboName).1.bufferObjects := by
  have htab : (bufferVertexData g eboName vaoName vboName).1.bufferObjects
      = g.bufferObjects ++ [eboName] ++ [vboName] ++ [vboName] := rfl
  refine ⟨rfl, rfl, ?_, ?_⟩
  · rw [htab]
    have h0 : g.bufferObjects.count eboName = 0 := List.count_eq_zero_of_not_mem hfresh
    have hne2 : ¬ vboName = eboName := fun e => hne e.symm
    simp [List.count_append, h0, List.count_cons, hne2]
  · rw [htab]; simp

/-- Witness for C6 as amended: registry holding buffer 9, driver names 1 (EBO),
1 (VAO) and 2 (VBO). -/
theorem bufferVertexData_registers_ebo_once_witness :
    (bufferVertexData { bufferObjects := [9] } 1 1 2).2 = { vao := 1, vbo := 2, ebo := 1 } ∧
    (bufferVertexData { bufferObjects := [9] } 1 1 2).1.vertexArrays = [] ∧
    (bufferVertexData { bufferObjects := [9] } 1 1 2).1.bufferObjects.count 1 = 1 ∧
    2 ∈ (bufferVertexData { bufferObjects := [9] } 1 1 2).1.bufferObjects :=
  bufferVertexData_registers_ebo_once { bufferObjects := [9] } 1 1 2 (by decide) (by decide)

/-! ## Claims on the state cache -/

theorem attachTexture_skip (st : OpenglState) (d : Driver) (t u : Nat)
    (h : st.textures.getD u 0 = t) : st.attachTexture d t u = (st, d) := by
  unfold OpenglState.attachTexture
  rw [if_pos h]

theorem attachTexture_bind (st : OpenglState) (d : Driver) (t u : Nat)
    (h : ¬ st.textures.getD u 0 = t) :
    st.attachTexture d t u
      = ({ st with textures := st.textures.set u t },
         glBindTexture2D (glActiveTexture d u) t) := by
  unfold OpenglState.attachTexture
  rw [if_neg h]

theorem attachTexture_noop (g : GLHelper) (t u : Nat) (h : g.state.textures.getD u 0 = t) :
    attachTexture g t u = g := by
  simp only [attachTexture, attachTexture_skip _ _ _ _ h]

theorem attachTexture_cache (g : GLHelper) (t u : Nat) (hu : u < g.state.textures.length) :
    (attachTexture g t u).state.textures.getD u 0 = t := by
  by_cases hc : g.state.textures.getD u 0 = t
  · rw [attachTexture_noop g t u hc]; exact hc
  · simp only [attachTexture, attachTexture_bind _ _ _ _ hc]
    simp [List.getD_eq_getElem?_getD, List.getElem?_set, hu]

theorem attachTexture_lengths (g : GLHelper) (t u : Nat) :
    (attachTexture g t u).state.textures.length = g.state.textures.length ∧
    (attachTexture g t u).gl.texture2D.length = g.gl.texture2D.length := by
  by_cases hc : g.state.textures.getD u 0 = t
  · rw [attachTexture_noop g t u hc]; exact ⟨rfl, rfl⟩
  · simp only [attachTexture, attachTexture_bind _ _ _ _ hc]
    simp [glBindTexture2D, glActiveTexture]

/-- C7 (defect in the code): `loadTexture` binds and unbinds on unit 0 directly,
past the state cache.  From every state with at least one texture unit, after
`attachTexture t 0` (with `t` a texture name, so non-zero) and a `loadTexture`,
the cache still records `t` for unit 0 while the driver has texture 0 bound
there, and a further `attachTexture t 0` is skipped: it changes nothing, so
the driver keeps texture 0 on the unit although `t` was asked for. -/
theorem loadTexture_makes_cache_stale (g : GLHelper) (t name : Nat) (ht : t ≠ 0)
    (hcache : 0 < g.state.textures.length) (hdriver : 0 < g.gl.texture2D.length) :
    (loadTexture (attachTexture g t 0) name).1.state.textures.getD 0 0 = t ∧
    (loadTexture (attachTexture g t 0) name).1.gl.texture2D.getD 0 0 = 0 ∧
    (loadTexture (attachTexture g t 0) name).1.gl.texture2D.getD 0 0 ≠ t ∧
    attachTexture (loadTexture (attachTexture g t 0) name).1 t 0
      = (loadTexture (attachTexture g t 0) name).1 := by
  have hc : (loadTexture (attachTexture g t 0) name).1.state.textures.getD 0 0 = t :=
    attachTexture_cache g t 0 hcache
  have hl : 0 < (attachTexture g t 0).gl.texture2D.length := by
    rw [(attachTexture_lengths g t 0).2]; exact hdriver
  have hd : (loadTexture (attachTexture g t 0) name).1.gl.texture2D.getD 0 0 = 0 := by
    simp [loadTexture, OpenglState.activateTextureUnit, glBindTexture2D, glActiveTexture,
      List.getD_eq_getElem?_getD, List.getElem?_set, hl]
  refine ⟨hc, hd, ?_, ?_⟩
  · rw [hd]; exact fun e => ht e.symm
  · exact attachTexture_noop _ t 0 hc

/-- Witness for C7: two texture units, texture 1 loaded and attached to unit 0,
then texture 2 loaded. -/
theorem loadTexture_makes_cache_stale_witness :
    (loadTexture (attachTexture
      (loadTexture { state := { textures := [0, 0] }, gl := { texture2D := [0, 0] } } 1).1
      1 0) 2).1.state.textures.getD 0 0 = 1 ∧
    (loadTexture (attachTexture
      (loadTexture { state := { textures := [0, 0] }, gl := { texture2D := [0, 0] } } 1).1
      1 0) 2).1.gl.texture2D.getD 0 0 = 0 ∧
    (loadTexture (attachTexture
      (loadTexture { state := { textures := [0, 0] }, gl := { texture2D := [0, 0] } } 1).1
      1 0) 2).1.gl.texture2D.getD 0 0 ≠ 1 ∧
    attachTexture (loadTexture (attachTexture
      (loadTexture { state := { textures := [0, 0] }, gl := { texture2D := [0, 0] } } 1).1
      1 0) 2).1 1 0
      = (loadTexture (attachTexture
          (loadTexture { state := { textures := [0, 0] }, gl := { texture2D := [0, 0] } } 1).1
          1 0) 2).1 :=
  loadTexture_makes_cache_stale
    (loadTexture { state := { textures := [0, 0] }, gl := { texture2D := [0, 0] } } 1).1
    1 2 (by decide) (by decide) (by decide)

/-- The same staleness through `loadCubeMap`, which binds on whatever unit is
active: after an `attachCubeMap c u` that issued its bind and a `loadCubeMap`,
the cache records `c` for unit `u` while the driver has cube map 0 there, and
a further `attachCubeMap c u` is skipped. -/
theorem loadCubeMap_makes_cache_stale (g : GLHelper) (c u name : Nat) (hc : c ≠ 0)
    (hcache : u < g.state.textures.length) (hdriver : u < g.gl.textureCubeMap.length)
    (hnew : g.state.textures.getD u 0 ≠ c) :
    (loadCubeMap (attachCubeMap g c u) name).1.state.textures.getD u 0 = c ∧
    (loadCubeMap (attachCubeMap g c u) name).1.gl.textureCubeMap.getD u 0 = 0 ∧
    (loadCubeMap (attachCubeMap g c u) name).1.gl.textureCubeMap.getD u 0 ≠ c ∧
    attachCubeMap (loadCubeMap (attachCubeMap g c u) name).1 c u
      = (loadCubeMap (attachCubeMap g c u) name).1 := by
  have hatt : attachCubeMap g c u
      = { g with state := { g.state with textures := g.state.textures.set u c },
                 gl := glBindTextureCubeMap (glActiveTexture g.gl u) c } := by
    simp only [attachCubeMap, OpenglState.attachCubemap, if_neg hnew]
  have h1 : (loadCubeMap (attachCubeMap g c u) name).1.state.textures.getD u 0 = c := by
    rw [hatt]
    simp [loadCubeMap, List.getD_eq_getElem?_getD, List.getElem?_set, hcache]
  have h2 : (loadCubeMap (attachCubeMap g c u) name).1.gl.textureCubeMap.getD u 0 = 0 := by
    rw [hatt]
    simp [loadCubeMap, glBindTextureCubeMap, glActiveTexture, List.getD_eq_getElem?_getD,
      List.getElem?_set, hdriver]
  refine ⟨h1, h2, by rw [h2]; exact fun e => hc e.symm, ?_⟩
  generalize (loadCubeMap (attachCubeMap g c u) name).1 = g2 at h1
  simp only [attachCubeMap, OpenglState.attachCubemap, if_pos h1]

theorem setProgram_calls (st : OpenglState) (d : Driver) (p : Nat) :
    (st.setProgram d p).2.useProgramCalls
      = d.useProgramCalls + (if st.activeProgram = p then 0 else 1) ∧
    (st.setProgram d p).1.activeProgram = p := by
  unfold OpenglState.setProgram
  by_cases h : st.activeProgram = p
  · simp [h]
  · simp [h, glUseProgram]

theorem render_calls (g : GLHelper) (p vao ebo n : Nat) (hp : p ≠ 0) :
    (render g p vao ebo n).gl.useProgramCalls
      = g.gl.useProgramCalls + (if g.state.activeProgram = p then 0 else 1) ∧
    (render g p vao ebo n).state.activeProgram = p := by
  have h := setProgram_calls g.state g.gl p
  simp only [render, if_neg hp]
  exact ⟨h.1, h.2⟩

theorem setUniform_calls (g : GLHelper) (p u : Nat) (hp : glIsProgram g.gl p = true) :
    (setUniform g p u).1.gl.useProgramCalls
      = g.gl.useProgramCalls + (if g.state.activeProgram = p then 0 else 1) ∧
    (setUniform g p u).1.state.activeProgram = p ∧
    (setUniform g p u).1.gl.programs = g.gl.programs ∧
    (setUniform g p u).2 = true := by
  have h := setProgram_calls g.state g.gl p
  have hprog : (g.state.setProgram g.gl p).2.programs = g.gl.programs := by
    unfold OpenglState.setProgram; split <;> rfl
  simp only [setUniform, hp, if_true]
  exact ⟨h.1, h.2, hprog, trivial⟩

/-- C8, counterexample: the second and third of three successive `render` calls
with program 3 are two successive calls with the same non-zero program, and
between them they issue no program bind at all, not one. -/
theorem render_pair_without_bind :
    ¬ ((render (render (render {} 3 1 2 6) 3 1 2 6) 3 1 2 6).gl.useProgramCalls
        = (render {} 3 1 2 6).gl.useProgramCalls + 1) := by
  decide

/-- C8, as amended: two successive `render` calls with the same non-zero program
(or two successive `setUniform` calls on the same live program) issue at most
one program bind: the first issues one exactly when the cache held another
program before it, and the second never issues one. -/
theorem render_twice_binds_at_most_once (g : GLHelper) (program vao ebo n vao2 ebo2 n2 : Nat)
    (hp : program ≠ 0) :
    (render g program vao ebo n).gl.useProgramCalls
      = g.gl.useProgramCalls + (if g.state.activeProgram = program then 0 else 1) ∧
    (render (render g program vao ebo n) program vao2 ebo2 n2).gl.useProgramCalls
      = (render g program vao ebo n).gl.useProgramCalls ∧
    (glIsProgram g.gl program = true →
      (setUniform g program vao).1.gl.useProgramCalls
        = g.gl.useProgramCalls + (if g.state.activeProgram = program then 0 else 1) ∧
      (setUniform (setUniform g program vao).1 program vao2).1.gl.useProgramCalls
        = (setUniform g program vao).1.gl.useProgramCalls) := by
  have h1 := render_calls g program vao ebo n hp
  have h2 := render_calls (render g program vao ebo n) program vao2 ebo2 n2 hp
  refine ⟨h1.1, ?_, ?_⟩
  · rw [h2.1, if_pos h1.2]; rfl
  · intro hlive
    have s1 := setUniform_calls g program vao hlive
    have hlive2 : glIsProgram (setUniform g program vao).1.gl program = true := by
      unfold glIsProgram at hlive ⊢
      rw [s1.2.2.1]; exact hlive
    have s2 := setUniform_calls (setUniform g program vao).1 program vao2 hlive2
    refine ⟨s1.1, ?_⟩
    rw [s2.1, if_pos s1.2.1]; rfl

/-- Witness for C8 as amended: program 3, live in the driver, on a fresh cache. -/
theorem render_twice_binds_at_most_once_witness :
    (render { gl := { programs := [3] } } 3 1 2 6).gl.useProgramCalls
      = 0 + (if (0 : Nat) = 3 then 0 else 1) ∧
    (render (render { gl := { programs := [3] } } 3 1 2 6) 3 4 5 9).gl.useProgramCalls
      = (render { gl := { programs := [3] } } 3 1 2 6).gl.useProgramCalls ∧
    (glIsProgram ({ programs := [3] } : Driver) 3 = true →
      (setUniform { gl := { programs := [3] } } 3 1).1.gl.useProgramCalls
        = 0 + (if (0 : Nat) = 3 then 0 else 1) ∧
      (setUniform (setUniform { gl := { programs := [3] } } 3 1).1 3 4).1.gl.useProgramCalls
        = (setUniform { gl := { programs := [3] } } 3 1).1.gl.useProgramCalls) :=
  render_twice_binds_at_most_once { gl := { programs := [3] } } 3 1 2 6 4 5 9 (by decide)

/-! ## Claims on the uniform buffers -/

/-- C9 (defect in the code): for a non-empty index list `setModelIndexesUBO` writes
16 bytes per index from offset 0, while the buffer the constructor allocates
has 4 bytes per model, so the write stays inside the buffer exactly when the
list has at most `NR_MAX_MODELS / 4` entries; a list of `NR_MAX_MODELS`
indices overruns it. -/
theorem setModelIndexesUBO_write_range (NR_MAX_MODELS : Nat) (l : List Nat) (hne : l ≠ []) :
    ∃ w, setModelIndexesUBO l = some w ∧ w.offset = 0 ∧ w.size = 16 * l.length ∧
      (w.offset + w.size ≤ modelIndexBufferSize NR_MAX_MODELS ↔ 4 * l.length ≤ NR_MAX_MODELS) ∧
      (l.length = NR_MAX_MODELS → modelIndexBufferSize NR_MAX_MODELS < w.offset + w.size) := by
  cases l with
  | nil => exact absurd rfl hne
  | cons x rest =>
    refine ⟨_, rfl, rfl, rfl, ?_, ?_⟩
    · simp only [modelIndexBufferSize, sizeofUint32, sizeofUvec4, List.length_cons]
      omega
    · intro hlen
      simp only [modelIndexBufferSize, sizeofUint32, sizeofUvec4, List.length_cons] at hlen ⊢
      omega

/-- Witness for C9: capacity 3 and the index list 10, 11, 12 (48 bytes into 12). -/
theorem setModelIndexesUBO_write_range_witness :
    ∃ w, setModelIndexesUBO [10, 11, 12] = some w ∧ w.offset = 0 ∧ w.size = 16 * 3 ∧
      (w.offset + w.size ≤ modelIndexBufferSize 3 ↔ 4 * 3 ≤ 3) ∧
      (3 = 3 → modelIndexBufferSize 3 < w.offset + w.size) :=
  setModelIndexesUBO_write_range 3 [10, 11, 12] (by decide)

/-! ## Claims on the material stride the constructor sets -/

theorem construct_returns (d : Driver) (options : Options) (materialUniformSize : Nat)
    (answers : DriverAnswers) (names : GeneratedNames) (start : GLHelper)
    (hconstruct : GLHelper.construct d options materialUniformSize answers names = some start) :
    answers.glewOk = true ∧ answers.isCubeMapArraySupported = true := by
  unfold GLHelper.construct at hconstruct
  cases h1 : answers.glewOk
  · simp [h1] at hconstruct
  · cases h2 : answers.isCubeMapArraySupported
    · simp [h1, h2] at hconstruct
    · exact ⟨rfl, rfl⟩

theorem construct_materialUniformSize (d : Driver) (options : Options)
    (materialUniformSize : Nat) (answers : DriverAnswers) (names : GeneratedNames)
    (start : GLHelper)
    (hconstruct : GLHelper.construct d options materialUniformSize answers names = some start) :
    start.materialUniformSize
      = padMaterialUniformSize materialUniformSize answers.uniformBufferAlignSize := by
  have hret := construct_returns _ _ _ _ _ _ hconstruct
  unfold GLHelper.construct at hconstruct
  simp only [hret.1, hret.2, Bool.not_true, Bool.false_eq_true, if_false,
    Option.some.injEq] at hconstruct
  subst hconstruct
  rfl

/-- C10: whenever the constructor returns, the field `materialUniformSize` of the
object it leaves is the maximum of the value the field had before the
constructor ran (the natural struct size) and the alignment the driver reported
for `GL_UNIFORM_BUFFER_OFFSET_ALIGNMENT`, hence not smaller than either. -/
theorem materialUniformSize_is_max (d : Driver) (options : Options) (naturalStructSize : Nat)
    (answers : DriverAnswers) (names : GeneratedNames) (start : GLHelper)
    (hlo : 0 ≤ answers.uniformBufferAlignSize) (hhi : answers.uniformBufferAlignSize < 2 ^ 31)
    (hconstruct : GLHelper.construct d options naturalStructSize answers names = some start) :
    (start.materialUniformSize : Int)
      = max (naturalStructSize : Int) answers.uniformBufferAlignSize ∧
    naturalStructSize ≤ start.materialUniformSize ∧
    answers.uniformBufferAlignSize ≤ (start.materialUniformSize : Int) := by
  rw [construct_materialUniformSize d options naturalStructSize answers names start hconstruct]
  generalize answers.uniformBufferAlignSize = queriedAlignment at hlo hhi
  have hconv : (toUnsigned32 queriedAlignment : Int) = queriedAlignment := by
    unfold toUnsigned32
    rw [Int.toNat_of_nonneg (Int.emod_nonneg _ (by norm_num))]
    exact Int.emod_eq_of_lt hlo (by omega)
  unfold padMaterialUniformSize
  by_cases hgt : toUnsigned32 queriedAlignment > naturalStructSize
  · rw [if_pos hgt]
    have : (naturalStructSize : Int) < queriedAlignment := by rw [← hconv]; exact_mod_cast hgt
    refine ⟨?_, by omega, by omega⟩
    rw [hconv, max_eq_right (le_of_lt this)]
  · rw [if_neg hgt]
    have : queriedAlignment ≤ (naturalStructSize : Int) := by
      rw [← hconv]; exact_mod_cast Nat.le_of_not_gt hgt
    exact ⟨(max_eq_left this).symm, le_refl _, this⟩

/-- Witness for C10: construction in a context without objects, with a 32-byte
material block on a driver that reports the alignment 256. -/
theorem materialUniformSize_is_max_witness :
    (GLHelper.sample.materialUniformSize : Int)
      = max ((32 : Nat) : Int) DriverAnswers.sample.uniformBufferAlignSize ∧
    32 ≤ GLHelper.sample.materialUniformSize ∧
    DriverAnswers.sample.uniformBufferAlignSize ≤ (GLHelper.sample.materialUniformSize : Int) :=
  materialUniformSize_is_max (Driver.fresh 16) Options.sample 32 DriverAnswers.sample
    GeneratedNames.first GLHelper.sample (by decide) (by decide) (by decide)

/-! ## Lemmas on sub-range writes -/

theorem glBufferSubData_length (s : List Nat) (o n : Nat) (d : List Nat) :
    (glBufferSubData s o n d).length = s.length := by
  unfold glBufferSubData
  split
  · rename_i h
    simp only [List.length_append, List.length_take, List.length_drop]
    omega
  · rfl

theorem getElem?_glBufferSubData (s : List Nat) (o n : Nat) (d : List Nat) (j : Nat)
    (h : o + n ≤ s.length) (hd : n ≤ d.length) :
    (glBufferSubData s o n d)[j]?
      = if j < o then s[j]? else if j < o + n then d[j - o]? else s[j]? := by
  unfold glBufferSubData
  rw [if_pos ⟨h, hd⟩]
  have hlo : (List.take o s).length = o := by simp; omega
  have hld : (List.take n d).length = n := by simp; omega
  by_cases h1 : j < o
  · rw [if_pos h1, List.append_assoc, List.getElem?_append_left (by omega),
      List.getElem?_take, if_pos h1]
  · rw [if_neg h1, List.append_assoc, List.getElem?_append_right (by omega), hlo]
    by_cases h2 : j < o + n
    · rw [if_pos h2, List.getElem?_append_left (by omega), List.getElem?_take,
        if_pos (by omega)]
    · rw [if_neg h2, List.getElem?_append_right (by omega), hld, List.getElem?_drop]
      congr 1
      omega

theorem getElem?_readBytes (s : List Nat) (o n k : Nat) :
    (readBytes s o n)[k]? = if k < n then s[o + k]? else none := by
  unfold readBytes
  rw [List.getElem?_take, List.getElem?_drop]

theorem readBytes_glBufferSubData_same (s : List Nat) (o n : Nat) (d : List Nat)
    (h : o + n ≤ s.length) (hd : n ≤ d.length) :
    readBytes (glBufferSubData s o n d) o n = d.take n := by
  apply List.ext_getElem?
  intro k
  rw [getElem?_readBytes, getElem?_glBufferSubData s o n d _ h hd, List.getElem?_take]
  by_cases hk : k < n
  · rw [if_pos hk, if_neg (by omega), if_pos (by omega), if_pos hk]
    congr 1
    omega
  · rw [if_neg hk, if_neg hk]

theorem readBytes_glBufferSubData_disjoint (s : List Nat) (o n : Nat) (d : List Nat)
    (o2 n2 : Nat) (hdis : o2 + n2 ≤ o ∨ o + n ≤ o2) :
    readBytes (glBufferSubData s o n d) o2 n2 = readBytes s o2 n2 := by
  by_cases hb : o + n ≤ s.length ∧ n ≤ d.length
  · apply List.ext_getElem?
    intro k
    rw [getElem?_readBytes, getElem?_readBytes, getElem?_glBufferSubData s o n d _ hb.1 hb.2]
    by_cases hk : k < n2
    · rw [if_pos hk, if_pos hk]
      rcases hdis with h1 | h1
      · rw [if_pos (by omega)]
      · rw [if_neg (by omega), if_neg (by omega)]
    · rw [if_neg hk, if_neg hk]
  · unfold glBufferSubData
    rw [if_neg hb]

theorem applyWrites_cons (s : List Nat) (w : BufferWrite) (ws : List BufferWrite) :
    applyWrites s (w :: ws) = applyWrites (glBufferSubData s w.offset w.size w.data) ws := rfl

theorem applyWrites_length (s : List Nat) (ws : List BufferWrite) :
    (applyWrites s ws).length = s.length := by
  induction ws generalizing s with
  | nil => rfl
  | cons w rest ih => rw [applyWrites_cons, ih, glBufferSubData_length]

/-- Writes that all miss a range leave what is read from that range unchanged. -/
theorem readBytes_applyWrites_disjoint (s : List Nat) (ws : List BufferWrite) (o n : Nat)
    (hdis : ∀ w ∈ ws, o + n ≤ w.offset ∨ w.offset + w.size ≤ o) :
    readBytes (applyWrites s ws) o n = readBytes s o n := by
  induction ws generalizing s with
  | nil => rfl
  | cons w rest ih =>
    rw [applyWrites_cons, ih _ (fun w' hw' => hdis w' (List.mem_cons_of_mem _ hw'))]
    exact readBytes_glBufferSubData_disjoint s _ _ _ o n (hdis w (List.mem_cons_self _ _))

/-- After a sequence of pairwise disjoint in-range writes, every written range
reads back as the bytes written to it. -/
theorem readBytes_applyWrites (s : List Nat) (ws : List BufferWrite)
    (hpair : ws.Pairwise BufferWrite.Disjoint)
    (hin : ∀ w ∈ ws, w.offset + w.size ≤ s.length ∧ w.size ≤ w.data.length) :
    ∀ w ∈ ws, readBytes (applyWrites s ws) w.offset w.size = w.data.take w.size := by
  induction ws generalizing s with
  | nil => intro w hw; simp at hw
  | cons w0 rest ih =>
    rw [List.pairwise_cons] at hpair
    intro w hw
    rw [applyWrites_cons]
    rcases List.mem_cons.mp hw with rfl | hw'
    · rw [readBytes_applyWrites_disjoint _ rest _ _ (fun w' hw' => by
        have := hpair.1 w' hw'
        unfold BufferWrite.Disjoint at this
        omega)]
      exact readBytes_glBufferSubData_same s _ _ _ (hin w (List.mem_cons_self _ _)).1
        (hin w (List.mem_cons_self _ _)).2
    · apply ih _ hpair.2 _ w hw'
      intro w' hw''
      rw [glBufferSubData_length]
      exact hin w' (List.mem_cons_of_mem _ hw'')

/-! ## Claims on the light uniform buffer -/

theorem toUnsigned32_natCast (n : Nat) (h : n < 2 ^ 32) : toUnsigned32 (n : Int) = n := by
  unfold toUnsigned32
  have : ((n : Int) % 2 ^ 32) = (n : Int) := Int.emod_eq_of_lt (by omega) (by omega)
  rw [this]
  simp

theorem setLightWrites_eq (lightUniformSize : Nat) (light : Light) (i : Nat)
    (hi : i < 2 ^ 32) (hb : i * lightUniformSize < 2 ^ 32) :
    setLightWrites lightUniformSize light (i : Int) =
      [ { offset := i * lightUniformSize, size := 384, data := light.shadowMatrices },
        { offset := i * lightUniformSize + 384, size := 64, data := light.lightSpaceMatrix },
        { offset := i * lightUniformSize + 448, size := 12, data := light.position },
        { offset := i * lightUniformSize + 460, size := 4, data := light.activeDistance },
        { offset := i * lightUniformSize + 464, size := 12, data := light.color },
        { offset := i * lightUniformSize + 476, size := 4,
          data := glintBytes (lightTypeCode light.lightType) },
        { offset := i * lightUniformSize + 480, size := 12, data := light.attenuation },
        { offset := i * lightUniformSize + 496, size := 12, data := light.ambientColor } ] := by
  have hw : wrap32 (i * lightUniformSize) = i * lightUniformSize := by
    unfold wrap32; exact Nat.mod_eq_of_lt hb
  simp only [setLightWrites, toUnsigned32_natCast i hi, hw, sizeofMat4, sizeofVec3, sizeofVec4,
    sizeofGLfloat, sizeofGLint]

/-- C12: for a light index `i` below `NR_TOTAL_LIGHTS` and a light slot that holds
the 508 bytes of the layout, the eight sub-writes of `setLight` occupy pairwise
disjoint byte ranges of the light buffer, and reading the buffer back at
`i * lightUniformSize` returns, field by field, exactly the bytes written:
shadow matrices, light-space matrix, position, far plane, colour, type,
attenuation and ambient colour. -/
theorem setLight_round_trip (lightUniformSize NR_TOTAL_LIGHTS : Nat) (store : List Nat)
    (light : Light) (i : Nat)
    (hi : i < NR_TOTAL_LIGHTS) (hslot : 508 ≤ lightUniformSize)
    (h32 : lightUniformSize * NR_TOTAL_LIGHTS < 2 ^ 32)
    (hstore : store.length = (lightBufferInit lightUniformSize NR_TOTAL_LIGHTS).length)
    (hl : light.WellFormed) :
    (setLightWrites lightUniformSize light (i : Int)).Pairwise BufferWrite.Disjoint ∧
    readBytes (setLight lightUniformSize store light i) (i * lightUniformSize) 384
      = light.shadowMatrices ∧
    readBytes (setLight lightUniformSize store light i) (i * lightUniformSize + 384) 64
      = light.lightSpaceMatrix ∧
    readBytes (setLight lightUniformSize store light i) (i * lightUniformSize + 448) 12
      = light.position ∧
    readBytes (setLight lightUniformSize store light i) (i * lightUniformSize + 460) 4
      = light.activeDistance ∧
    readBytes (setLight lightUniformSize store light i) (i * lightUniformSize + 464) 12
      = light.color ∧
    readBytes (setLight lightUniformSize store light i) (i * lightUniformSize + 476) 4
      = glintBytes (lightTypeCode light.lightType) ∧
    readBytes (setLight lightUniformSize store light i) (i * lightUniformSize + 480) 12
      = light.attenuation ∧
    readBytes (setLight lightUniformSize store light i) (i * lightUniformSize + 496) 12
      = light.ambientColor := by
  have hlen : store.length = lightUniformSize * NR_TOTAL_LIGHTS := by
    rw [hstore]
    simp only [lightBufferInit, List.length_replicate, wrap32]
    exact Nat.mod_eq_of_lt h32
  have hmul : (i + 1) * lightUniformSize ≤ NR_TOTAL_LIGHTS * lightUniformSize :=
    Nat.mul_le_mul_right _ hi
  have hcomm : lightUniformSize * NR_TOTAL_LIGHTS = NR_TOTAL_LIGHTS * lightUniformSize :=
    Nat.mul_comm _ _
  have hsucc : (i + 1) * lightUniformSize = i * lightUniformSize + lightUniformSize :=
    Nat.succ_mul _ _
  have hN : NR_TOTAL_LIGHTS * lightUniformSize < 2 ^ 32 := by rw [← hcomm]; exact h32
  have hb : i * lightUniformSize < 2 ^ 32 := by omega
  have hilt : i < 2 ^ 32 := by
    have : i * 1 ≤ i * lightUniformSize := Nat.mul_le_mul_left _ (by omega)
    omega
  have hws := setLightWrites_eq lightUniformSize light i hilt hb
  obtain ⟨l1, l2, l3, l4, l5, l6, l7⟩ := hl
  simp only [sizeofMat4, sizeofVec3, sizeofGLfloat] at l1 l2 l3 l4 l5 l6 l7
  have l8 : (glintBytes (lightTypeCode light.lightType)).length = 4 := rfl
  have hpair : (setLightWrites lightUniformSize light (i : Int)).Pairwise BufferWrite.Disjoint := by
    rw [hws]
    simp only [List.pairwise_cons, List.mem_cons, List.mem_singleton, BufferWrite.Disjoint,
      forall_eq_or_imp, forall_eq, List.not_mem_nil, List.Pairwise.nil, false_implies,
      implies_true, and_true]
    omega
  have hin : ∀ w ∈ setLightWrites lightUniformSize light (i : Int),
      w.offset + w.size ≤ store.length ∧ w.size ≤ w.data.length := by
    rw [hws, hlen]
    simp only [List.mem_cons, List.mem_singleton, forall_eq_or_imp, forall_eq, List.not_mem_nil,
      false_implies, implies_true, and_true]
    omega
  have key := readBytes_applyWrites store _ hpair hin
  rw [hws] at key
  simp only [List.mem_cons, List.mem_singleton, forall_eq_or_imp, forall_eq, List.not_mem_nil,
    false_implies, implies_true, and_true] at key
  obtain ⟨k1, k2, k3, k4, k5, k6, k7, k8⟩ := key
  rw [← hws] at k1 k2 k3 k4 k5 k6 k7 k8
  refine ⟨hpair, ?_, ?_, ?_, ?_, ?_, ?_, ?_, ?_⟩
  · rw [setLight, k1, List.take_of_length_le (by omega)]
  · rw [setLight, k2, List.take_of_length_le (by omega)]
  · rw [setLight, k3, List.take_of_length_le (by omega)]
  · rw [setLight, k4, List.take_of_length_le (by omega)]
  · rw [setLight, k5, List.take_of_length_le (by omega)]
  · rw [setLight, k6, List.take_of_length_le (by omega)]
  · rw [setLight, k7, List.take_of_length_le (by omega)]
  · rw [setLight, k8, List.take_of_length_le (by omega)]

/-- Witness for C12: two light slots of 512 bytes, the sample light written to slot 1. -/
theorem setLight_round_trip_witness :
    (setLightWrites 512 Light.sample ((1 : Nat) : Int)).Pairwise BufferWrite.Disjoint ∧
    readBytes (setLight 512 (lightBufferInit 512 2) Light.sample (1 : Nat)) (1 * 512) 384
      = Light.sample.shadowMatrices ∧
    readBytes (setLight 512 (lightBufferInit 512 2) Light.sample (1 : Nat)) (1 * 512 + 384) 64
      = Light.sample.lightSpaceMatrix ∧
    readBytes (setLight 512 (lightBufferInit 512 2) Light.sample (1 : Nat)) (1 * 512 + 448) 12
      = Light.sample.position ∧
    readBytes (setLight 512 (lightBufferInit 512 2) Light.sample (1 : Nat)) (1 * 512 + 460) 4
      = Light.sample.activeDistance ∧
    readBytes (setLight 512 (lightBufferInit 512 2) Light.sample (1 : Nat)) (1 * 512 + 464) 12
      = Light.sample.color ∧
    readBytes (setLight 512 (lightBufferInit 512 2) Light.sample (1 : Nat)) (1 * 512 + 476) 4
      = glintBytes (lightTypeCode Light.sample.lightType) ∧
    readBytes (setLight 512 (lightBufferInit 512 2) Light.sample (1 : Nat)) (1 * 512 + 480) 12
      = Light.sample.attenuation ∧
    readBytes (setLight 512 (lightBufferInit 512 2) Light.sample (1 : Nat)) (1 * 512 + 496) 12
      = Light.sample.ambientColor :=
  setLight_round_trip 512 2 (lightBufferInit 512 2) Light.sample 1 (by decide) (by decide)
    (by decide) rfl
    (by simp only [Light.WellFormed, Light.sample, List.length_replicate, sizeofMat4,
          sizeofVec3, sizeofGLfloat]; decide)

/-! ## Claims on the frustum planes -/

theorem real_inverse_sqrt_spec (t : ℝ) (ht : 0 < t) :
    (Real.sqrt t)⁻¹ * (Real.sqrt t)⁻¹ * t = 1 := by
  have hs : Real.sqrt t ≠ 0 := ne_of_gt (Real.sqrt_pos.mpr ht)
  field_simp

/-- C14, counterexample: for the identity camera and the perspective projection
`glm::perspective(90°, 1, 1, 3)` the near plane is `z = -1`, in distance form
`(0, 0, -1, -1)`; the FRONT plane returned is `(0, 0, -3, -3) / √18`, whose
normal has squared length 1/2, not 1.  The planes are evaluated over the real
numbers with the real inverse square root. -/
theorem frustum_front_normal_not_unit :
    ¬ ((calculateFrustumPlanes (fun t : ℝ => (Real.sqrt t)⁻¹) Mat4.identity Mat4.perspective90
          FrustumPlane.FRONT).x ^ 2 +
       (calculateFrustumPlanes (fun t : ℝ => (Real.sqrt t)⁻¹) Mat4.identity Mat4.perspective90
          FrustumPlane.FRONT).y ^ 2 +
       (calculateFrustumPlanes (fun t : ℝ => (Real.sqrt t)⁻¹) Mat4.identity Mat4.perspective90
          FrustumPlane.FRONT).z ^ 2 = 1) := by
  have hraw : rawFrustumPlane (clipMatrix (Mat4.identity : Mat4 ℝ) Mat4.perspective90)
      FrustumPlane.FRONT = { x := 0, y := 0, z := -3, w := -3 } := by
    simp [rawFrustumPlane, clipMatrix, clipColumn, Mat4.identity, Mat4.perspective90]
    norm_num
  have hdot : ({ x := 0, y := 0, z := -3, w := -3 } : Vec4 ℝ).dot
      { x := 0, y := 0, z := -3, w := -3 } = 18 := by
    simp [Vec4.dot]; norm_num
  have h18 := real_inverse_sqrt_spec 18 (by norm_num)
  simp only [calculateFrustumPlanes, hraw, normalize, hdot]
  intro h
  nlinarith [h, h18]

section FrustumNormClaims

variable {α : Type} [Add α] [Sub α] [Mul α]

/-- C14, as amended: for every camera and projection matrix and every number type
with its operators (binary32 included), each plane returned by
`calculateFrustumPlanes` is the raw plane `(a, b, c, d)` with each of its four
components multiplied by the one factor `inversesqrt(a*a + b*b + c*c + d*d)`,
the sum running over all four components, `d` included: `glm::normalize` is
applied to the 4-vector, and the normal `(a, b, c)` is not divided by a length
of its own. -/
theorem calculateFrustumPlanes_scales_four_components (inversesqrt : α → α)
    (cameraMatrix projectionMatrix : Mat4 α) (side : FrustumPlane) :
    calculateFrustumPlanes inversesqrt cameraMatrix projectionMatrix side =
      { x := (rawFrustumPlane (clipMatrix cameraMatrix projectionMatrix) side).x *
          inversesqrt
            ((rawFrustumPlane (clipMatrix cameraMatrix projectionMatrix) side).x *
                (rawFrustumPlane (clipMatrix cameraMatrix projectionMatrix) side).x +
              (rawFrustumPlane (clipMatrix cameraMatrix projectionMatrix) side).y *
                (rawFrustumPlane (clipMatrix cameraMatrix projectionMatrix) side).y +
              (rawFrustumPlane (clipMatrix cameraMatrix projectionMatrix) side).z *
                (rawFrustumPlane (clipMatrix cameraMatrix projectionMatrix) side).z +
              (rawFrustumPlane (clipMatrix cameraMatrix projectionMatrix) side).w *
                (rawFrustumPlane (clipMatrix cameraMatrix projectionMatrix) side).w),
        y := (rawFrustumPlane (clipMatrix cameraMatrix projectionMatrix) side).y *
          inversesqrt
            ((rawFrustumPlane (clipMatrix cameraMatrix projectionMatrix) side).x *
                (rawFrustumPlane (clipMatrix cameraMatrix projectionMatrix) side).x +
              (rawFrustumPlane (clipMatrix cameraMatrix projectionMatrix) side).y *
                (rawFrustumPlane (clipMatrix cameraMatrix projectionMatrix) side).y +
              (rawFrustumPlane (clipMatrix cameraMatrix projectionMatrix) side).z *
                (rawFrustumPlane (clipMatrix cameraMatrix projectionMatrix) side).z +
              (rawFrustumPlane (clipMatrix cameraMatrix projectionMatrix) side).w *
                (rawFrustumPlane (clipMatrix cameraMatrix projectionMatrix) side).w),
        z := (rawFrustumPlane (clipMatrix cameraMatrix projectionMatrix) side).z *
          inversesqrt
            ((rawFrustumPlane (clipMatrix cameraMatrix projectionMatrix) side).x *
                (rawFrustumPlane (clipMatrix cameraMatrix projectionMatrix) side).x +
              (rawFrustumPlane (clipMatrix cameraMatrix projectionMatrix) side).y *
                (rawFrustumPlane (clipMatrix cameraMatrix projectionMatrix) side).y +
              (rawFrustumPlane (clipMatrix cameraMatrix projectionMatrix) side).z *
                (rawFrustumPlane (clipMatrix cameraMatrix projectionMatrix) side).z +
              (rawFrustumPlane (clipMatrix cameraMatrix projectionMatrix) side).w *
                (rawFrustumPlane (clipMatrix cameraMatrix projectionMatrix) side).w),
        w := (rawFrustumPlane (clipMatrix cameraMatrix projectionMatrix) side).w *
          inversesqrt
            ((rawFrustumPlane (clipMatrix cameraMatrix projectionMatrix) side).x *
                (rawFrustumPlane (clipMatrix cameraMatrix projectionMatrix) side).x +
              (rawFrustumPlane (clipMatrix cameraMatrix projectionMatrix) side).y *
                (rawFrustumPlane (clipMatrix cameraMatrix projectionMatrix) side).y +
              (rawFrustumPlane (clipMatrix cameraMatrix projectionMatrix) side).z *
                (rawFrustumPlane (clipMatrix cameraMatrix projectionMatrix) side).z +
              (rawFrustumPlane (clipMatrix cameraMatrix projectionMatrix) side).w *
                (rawFrustumPlane (clipMatrix cameraMatrix projectionMatrix) side).w) } :=
  rfl

end FrustumNormClaims

/-! ## Claims on the material stride -/

/-- C11, counterexample: with a natural material size of 32 bytes and a reported
alignment of 24, the constructor keeps 32, which is not a multiple of 24, and
`attachMaterialUBO` binds material 1 at offset 32; so it is for the object
constructed in a context without objects on a driver that reports 24. -/
theorem materialUniformSize_not_multiple :
    ¬ (24 ∣ padMaterialUniformSize 32 24) ∧
    (attachMaterialUBO
        { allMaterialsUBOLocation := 3, materialUniformSize := padMaterialUniformSize 32 24 }
        1 0 1).gl.uniformBufferRanges.head?
      = some (9, { buffer := 3, offset := 32, size := 32 }) ∧
    ¬ (24 ∣ 32) ∧
    (GLHelper.construct (Driver.fresh 16) Options.sample 32
        { DriverAnswers.sample with uniformBufferAlignSize := 24 } GeneratedNames.first).map
      (fun start => (start.materialUniformSize,
        (attachMaterialUBO start 1 0 1).gl.uniformBufferRanges.head?))
      = some (32, some (9, { buffer := 3, offset := 32, size := 32 })) := by
  decide

theorem padMaterialUniformSize_natCast (n a : Nat) (hhi : a < 2 ^ 31) :
    padMaterialUniformSize n (a : Int) = max n a := by
  have hconv : toUnsigned32 (a : Int) = a := toUnsigned32_natCast a (by omega)
  unfold padMaterialUniformSize
  rw [hconv]
  by_cases h : a > n
  · rw [if_pos h, max_eq_right (le_of_lt h)]
  · rw [if_neg h, max_eq_left (Nat.le_of_not_gt h)]

/-- C11, as amended: whenever the constructor returns on a driver that reports the
alignment `a`, the field `materialUniformSize` of the object it leaves is a
multiple of `a` exactly when `a` is at least the natural size or divides it,
so always when both are powers of two; in that case every offset
`materialID * materialUniformSize` that `attachMaterialUBO` binds on an object
with that stride (the product not exceeding 32 bits), the constructed object
included, is a multiple of `a`. -/
theorem materialUniformSize_multiple_iff (d : Driver) (options : Options)
    (naturalStructSize : Nat) (answers : DriverAnswers) (names : GeneratedNames)
    (start : GLHelper) (a : Nat)
    (halign : answers.uniformBufferAlignSize = (a : Int)) (hhi : a < 2 ^ 31)
    (hconstruct : GLHelper.construct d options naturalStructSize answers names = some start) :
    (a ∣ start.materialUniformSize ↔ (naturalStructSize ≤ a ∨ a ∣ naturalStructSize)) ∧
    (∀ i j : Nat, a = 2 ^ i → naturalStructSize = 2 ^ j → a ∣ start.materialUniformSize) ∧
    (a ∣ start.materialUniformSize →
      ∀ (g : GLHelper) (program materialID : Nat) (uniformIndex : Int),
        g.materialUniformSize = start.materialUniformSize →
        0 ≤ uniformIndex →
        materialID * g.materialUniformSize < 2 ^ 32 →
        ∃ r, (attachMaterialUBO g program uniformIndex materialID).gl.uniformBufferRanges.head?
              = some (9, r) ∧
          r.offset = materialID * g.materialUniformSize ∧ r.size = g.materialUniformSize ∧
          a ∣ r.offset) ∧
    (a ∣ start.materialUniformSize →
      ∀ (program materialID : Nat) (uniformIndex : Int),
        0 ≤ uniformIndex →
        materialID * start.materialUniformSize < 2 ^ 32 →
        ∃ r, (attachMaterialUBO start program uniformIndex
                materialID).gl.uniformBufferRanges.head?
              = some (9, r) ∧
          r.offset = materialID * start.materialUniformSize ∧ a ∣ r.offset) := by
  have hfield : start.materialUniformSize = max naturalStructSize a := by
    rw [construct_materialUniformSize d options naturalStructSize answers names start hconstruct,
      halign, padMaterialUniformSize_natCast _ _ hhi]
  have hiff : a ∣ start.materialUniformSize ↔ (naturalStructSize ≤ a ∨ a ∣ naturalStructSize) := by
    rw [hfield]
    constructor
    · intro hd
      by_cases h : naturalStructSize ≤ a
      · exact Or.inl h
      · right
        rw [max_eq_left (by omega)] at hd
        exact hd
    · rintro (h | h)
      · rw [max_eq_right h]
      · by_cases h2 : naturalStructSize ≤ a
        · rw [max_eq_right h2]
        · rw [max_eq_left (by omega)]; exact h
  have hattach : a ∣ start.materialUniformSize →
      ∀ (g : GLHelper) (program materialID : Nat) (uniformIndex : Int),
        g.materialUniformSize = start.materialUniformSize →
        0 ≤ uniformIndex →
        materialID * g.materialUniformSize < 2 ^ 32 →
        ∃ r, (attachMaterialUBO g program uniformIndex materialID).gl.uniformBufferRanges.head?
              = some (9, r) ∧
          r.offset = materialID * g.materialUniformSize ∧ r.size = g.materialUniformSize ∧
          a ∣ r.offset := by
    intro hd g program materialID uniformIndex hg hidx hprod
    refine ⟨{ buffer := g.allMaterialsUBOLocation,
              offset := materialID * g.materialUniformSize,
              size := g.materialUniformSize }, ?_, rfl, rfl, ?_⟩
    · have hw : wrap32 (materialID * g.materialUniformSize)
          = materialID * g.materialUniformSize := by
        unfold wrap32; exact Nat.mod_eq_of_lt hprod
      simp [attachMaterialUBO, hidx, glBindBuffer, glBindBufferRange, hw]
    · show a ∣ materialID * g.materialUniformSize
      rw [hg]
      exact Dvd.dvd.mul_left hd _
  refine ⟨hiff, ?_, hattach, ?_⟩
  · intro i j hi hj
    apply hiff.mpr
    rcases Nat.le_total i j with hij | hij
    · right
      rw [hi, hj]
      exact Nat.pow_dvd_pow 2 hij
    · left
      rw [hi, hj]
      exact Nat.pow_le_pow_right (by norm_num) hij
  · intro hd program materialID uniformIndex hidx hprod
    obtain ⟨r, hr, hoff, _, hdvd⟩ :=
      hattach hd start program materialID uniformIndex rfl hidx hprod
    exact ⟨r, hr, hoff, hdvd⟩

/-- Witness for C11 as amended: construction in a context without objects, with
natural size 32 on a driver that reports the alignment 256. -/
theorem materialUniformSize_multiple_iff_witness :
    (256 ∣ GLHelper.sample.materialUniformSize ↔ (32 ≤ 256 ∨ 256 ∣ 32)) ∧
    (∀ i j : Nat, 256 = 2 ^ i → 32 = 2 ^ j → 256 ∣ GLHelper.sample.materialUniformSize) ∧
    (256 ∣ GLHelper.sample.materialUniformSize →
      ∀ (g : GLHelper) (program materialID : Nat) (uniformIndex : Int),
        g.materialUniformSize = GLHelper.sample.materialUniformSize →
        0 ≤ uniformIndex →
        materialID * g.materialUniformSize < 2 ^ 32 →
        ∃ r, (attachMaterialUBO g program uniformIndex materialID).gl.uniformBufferRanges.head?
              = some (9, r) ∧
          r.offset = materialID * g.materialUniformSize ∧ r.size = g.materialUniformSize ∧
          256 ∣ r.offset) ∧
    (256 ∣ GLHelper.sample.materialUniformSize →
      ∀ (program materialID : Nat) (uniformIndex : Int),
        0 ≤ uniformIndex →
        materialID * GLHelper.sample.materialUniformSize < 2 ^ 32 →
        ∃ r, (attachMaterialUBO GLHelper.sample program uniformIndex
                materialID).gl.uniformBufferRanges.head?
              = some (9, r) ∧
          r.offset = materialID * GLHelper.sample.materialUniformSize ∧ 256 ∣ r.offset) :=
  materialUniformSize_multiple_iff (Driver.fresh 16) Options.sample 32 DriverAnswers.sample
    GeneratedNames.first GLHelper.sample 256 (by decide) (by decide) (by decide)

/-! ## Claims on the render target pipeline -/

theorem attachTexture_target (st : OpenglState) (d : Driver) (t u : Nat) :
    (st.attachTexture d t u).2.viewport = d.viewport ∧
    (st.attachTexture d t u).2.framebufferBinding = d.framebufferBinding ∧
    (st.attachTexture d t u).2.cullFace = d.cullFace := by
  unfold OpenglState.attachTexture
  split <;> simp [glBindTexture2D, glActiveTexture]

theorem attach2DTextureArray_target (st : OpenglState) (d : Driver) (t u : Nat) :
    (st.attach2DTextureArray d t u).2.viewport = d.viewport ∧
    (st.attach2DTextureArray d t u).2.framebufferBinding = d.framebufferBinding ∧
    (st.attach2DTextureArray d t u).2.cullFace = d.cullFace := by
  unfold OpenglState.attach2DTextureArray
  split <;> simp [glBindTexture2DArray, glActiveTexture]

theorem attachCubemapArray_target (st : OpenglState) (d : Driver) (t u : Nat) :
    (st.attachCubemapArray d t u).2.viewport = d.viewport ∧
    (st.attachCubemapArray d t u).2.framebufferBinding = d.framebufferBinding ∧
    (st.attachCubemapArray d t u).2.cullFace = d.cullFace := by
  unfold OpenglState.attachCubemapArray
  split <;> simp [glBindTextureCubeMapArray, glActiveTexture]

/-- C15: for every index `i`, `switchRenderToShadowMapDirectional i` leaves the
viewport at `(0, 0, shadowMapDirectionalWidth, shadowMapDirectionalHeight)` of
the options, the directional-shadow framebuffer bound with layer `i` (level 0)
of the directional depth texture as its depth attachment, and the cull face at
FRONT; with screen 800x600, shadow map 1024x1024 and `i = 0` the viewport is
`(0, 0, 1024, 1024)`. -/
theorem switchRenderToShadowMapDirectional_target (g : GLHelper) (i : Nat) :
    (switchRenderToShadowMapDirectional g i).gl.viewport
      = (0, 0, g.options.shadowMapDirectionalWidth, g.options.shadowMapDirectionalHeight) ∧
    (switchRenderToShadowMapDirectional g i).gl.framebufferBinding
      = g.depthOnlyFrameBufferDirectional ∧
    depthLayerOf (switchRenderToShadowMapDirectional g i).gl g.depthOnlyFrameBufferDirectional
      = some (g.depthMapDirectional, 0, i) ∧
    (switchRenderToShadowMapDirectional g i).gl.cullFace = CullFace.FRONT ∧
    (switchRenderToShadowMapDirectional
        { options := { screenWidth := 800, screenHeight := 600,
                       shadowMapDirectionalWidth := 1024, shadowMapDirectionalHeight := 1024 },
          screenWidth := 800, screenHeight := 600,
          depthOnlyFrameBufferDirectional := 1, depthMapDirectional := 1 } 0).gl.viewport
      = (0, 0, 1024, 1024) := by
  refine ⟨rfl, rfl, ?_, rfl, rfl⟩
  simp [depthLayerOf, switchRenderToShadowMapDirectional, glCullFace, glFramebufferTextureLayer,
    glBindFramebuffer, glViewport]

/-- C16: the remaining pass switches.  Shadow-Point binds the point-shadow
framebuffer with the point shadow-map viewport and cull face FRONT; Depth
Pre-pass, Coloring, SSAO Generation and SSAO Blur bind their own framebuffer
with viewport `(0, 0, screenWidth, screenHeight)` and cull face BACK; Combine
binds the default framebuffer 0 with the screen viewport and leaves the cull
face as it was. -/
theorem pass_switch_targets (g : GLHelper) :
    ((switchRenderToShadowMapPoint g).gl.framebufferBinding = g.depthOnlyFrameBufferPoint ∧
      (switchRenderToShadowMapPoint g).gl.viewport
        = (0, 0, g.options.shadowMapPointWidth, g.options.shadowMapPointHeight) ∧
      (switchRenderToShadowMapPoint g).gl.cullFace = CullFace.FRONT) ∧
    ((switchRenderToDepthPrePass g).gl.framebufferBinding = g.depthOnlyFrameBuffer ∧
      (switchRenderToDepthPrePass g).gl.viewport = (0, 0, g.screenWidth, g.screenHeight) ∧
      (switchRenderToDepthPrePass g).gl.cullFace = CullFace.BACK) ∧
    ((switchRenderToColoring g).gl.framebufferBinding = g.coloringFrameBuffer ∧
      (switchRenderToColoring g).gl.viewport = (0, 0, g.screenWidth, g.screenHeight) ∧
      (switchRenderToColoring g).gl.cullFace = CullFace.BACK) ∧
    ((switchRenderToSSAOGeneration g).gl.framebufferBinding = g.ssaoGenerationFrameBuffer ∧
      (switchRenderToSSAOGeneration g).gl.viewport = (0, 0, g.screenWidth, g.screenHeight) ∧
      (switchRenderToSSAOGeneration g).gl.cullFace = CullFace.BACK) ∧
    ((switchRenderToSSAOBlur g).gl.framebufferBinding = g.ssaoBlurFrameBuffer ∧
      (switchRenderToSSAOBlur g).gl.viewport = (0, 0, g.screenWidth, g.screenHeight) ∧
      (switchRenderToSSAOBlur g).gl.cullFace = CullFace.BACK) ∧
    ((switchRenderToCombining g).gl.framebufferBinding = 0 ∧
      (switchRenderToCombining g).gl.viewport = (0, 0, g.screenWidth, g.screenHeight) ∧
      (switchRenderToCombining g).gl.cullFace = g.gl.cullFace) := by
  refine ⟨⟨rfl, rfl, rfl⟩, ⟨rfl, rfl, rfl⟩, ?_, ?_, ?_, ?_⟩
  · simp only [switchRenderToColoring, glCullFace, attachTexture_target,
      attach2DTextureArray_target, attachCubemapArray_target, glBindFramebuffer, glViewport,
      and_self]
  · simp only [switchRenderToSSAOGeneration, glCullFace, attachTexture_target,
      glBindFramebuffer, glViewport, and_self]
  · simp only [switchRenderToSSAOBlur, glCullFace, attachTexture_target,
      glBindFramebuffer, glViewport, and_self]
  · simp only [switchRenderToCombining, attachTexture_target, glBindFramebuffer, glViewport,
      and_self]

/-! ## Claims on draw dispatch and the uniform setters -/

/-- C17: `render` and `renderInstanced` called with program 0 return the object
unchanged, for every vao, ebo, element count and instance count: no draw call
is issued and the cached program, the bound VAO and EBO and the triangle
counter are what they were. -/
theorem render_program_zero (g : GLHelper) (vao ebo count instanceCount : Nat) :
    render g 0 vao ebo count = g ∧
    renderInstanced g 0 vao ebo count instanceCount = g ∧
    (render g 0 vao ebo count).gl.drawCalls = g.gl.drawCalls ∧
    (renderInstanced g 0 vao ebo count instanceCount).gl.drawCalls = g.gl.drawCalls ∧
    (render g 0 vao ebo count).state.activeProgram = g.state.activeProgram ∧
    (renderInstanced g 0 vao ebo count instanceCount).state.activeProgram
      = g.state.activeProgram ∧
    (render g 0 vao ebo count).gl.vertexArrayBinding = g.gl.vertexArrayBinding ∧
    (render g 0 vao ebo count).gl.elementArrayBinding = g.gl.elementArrayBinding ∧
    (renderInstanced g 0 vao ebo count instanceCount).gl.vertexArrayBinding
      = g.gl.vertexArrayBinding ∧
    (renderInstanced g 0 vao ebo count instanceCount).gl.elementArrayBinding
      = g.gl.elementArrayBinding ∧
    (render g 0 vao ebo count).renderTriangleCount = g.renderTriangleCount ∧
    (renderInstanced g 0 vao ebo count instanceCount).renderTriangleCount
      = g.renderTriangleCount := by
  have h1 : render g 0 vao ebo count = g := by simp [render]
  have h2 : renderInstanced g 0 vao ebo count instanceCount = g := by simp [renderInstanced]
  rw [h1, h2]
  exact ⟨rfl, rfl, rfl, rfl, rfl, rfl, rfl, rfl, rfl, rfl, rfl, rfl⟩

/-- C18: for a non-zero program, `renderInstanced` adds `count * instanceCount`
to the render triangle counter and `render` adds `count` (in the 32-bit
counter; exactly, as long as the sum fits); `render` has the same counter
effect as `renderInstanced` with one instance, and `renderInstanced` with no
instance leaves the counter unchanged. -/
theorem render_triangle_count (g : GLHelper) (program vao ebo count instanceCount : Nat)
    (hp : program ≠ 0) (hcounter : g.renderTriangleCount < 2 ^ 32) :
    (renderInstanced g program vao ebo count instanceCount).renderTriangleCount
      = (g.renderTriangleCount + count * instanceCount) % 2 ^ 32 ∧
    (g.renderTriangleCount + count * instanceCount < 2 ^ 32 →
      (renderInstanced g program vao ebo count instanceCount).renderTriangleCount
        = g.renderTriangleCount + count * instanceCount) ∧
    (g.renderTriangleCount + count < 2 ^ 32 →
      (render g program vao ebo count).renderTriangleCount = g.renderTriangleCount + count) ∧
    (render g program vao ebo count).renderTriangleCount
      = (renderInstanced g program vao ebo count 1).renderTriangleCount ∧
    (renderInstanced g program vao ebo count 0).renderTriangleCount = g.renderTriangleCount := by
  have hi : ∀ k, (renderInstanced g program vao ebo count k).renderTriangleCount
      = (g.renderTriangleCount + count * k) % 2 ^ 32 := by
    intro k
    simp only [renderInstanced, if_neg hp, wrap32]
  have hr : (render g program vao ebo count).renderTriangleCount
      = (g.renderTriangleCount + count) % 2 ^ 32 := by
    simp only [render, if_neg hp, wrap32]
  refine ⟨hi _, ?_, ?_, ?_, ?_⟩
  · intro h; rw [hi, Nat.mod_eq_of_lt h]
  · intro h; rw [hr, Nat.mod_eq_of_lt h]
  · rw [hr, hi, Nat.mul_one]
  · rw [hi, Nat.mul_zero, Nat.add_zero, Nat.mod_eq_of_lt hcounter]

/-- Witness for C18: program 3, 100 triangles already counted, 36 elements, 5 instances. -/
theorem render_triangle_count_witness :
    (renderInstanced { renderTriangleCount := 100 } 3 1 2 36 5).renderTriangleCount
      = (100 + 36 * 5) % 2 ^ 32 ∧
    (100 + 36 * 5 < 2 ^ 32 →
      (renderInstanced { renderTriangleCount := 100 } 3 1 2 36 5).renderTriangleCount
        = 100 + 36 * 5) ∧
    (100 + 36 < 2 ^ 32 →
      (render { renderTriangleCount := 100 } 3 1 2 36).renderTriangleCount = 100 + 36) ∧
    (render { renderTriangleCount := 100 } 3 1 2 36).renderTriangleCount
      = (renderInstanced { renderTriangleCount := 100 } 3 1 2 36 1).renderTriangleCount ∧
    (renderInstanced { renderTriangleCount := 100 } 3 1 2 36 0).renderTriangleCount = 100 :=
  render_triangle_count { renderTriangleCount := 100 } 3 1 2 36 5 (by decide) (by decide)

/-- C19: `setUniform` returns false exactly when the driver reports that
`programID` is not a live program, and then changes nothing (no write, same
bound program, same `uniformSetCount`); when it returns true it has put
`programID` through `setProgram` of the state cache, issued one uniform write
and advanced `uniformSetCount` by one (in the 32-bit counter; exactly 1 as long
as the sum fits). -/
theorem setUniform_contract (g : GLHelper) (programID uniformID : Nat) :
    ((setUniform g programID uniformID).2 = false ↔ glIsProgram g.gl programID = false) ∧
    (glIsProgram g.gl programID = false → (setUniform g programID uniformID).1 = g) ∧
    (glIsProgram g.gl programID = true →
      (setUniform g programID uniformID).2 = true ∧
      (setUniform g programID uniformID).1.state = (g.state.setProgram g.gl programID).1 ∧
      (setUniform g programID uniformID).1.state.activeProgram = programID ∧
      (setUniform g programID uniformID).1.gl.currentProgram
        = (g.state.setProgram g.gl programID).2.currentProgram ∧
      (g.state.activeProgram = g.gl.currentProgram →
        (setUniform g programID uniformID).1.gl.currentProgram = programID) ∧
      (setUniform g programID uniformID).1.gl.uniformWrites = g.gl.uniformWrites + 1 ∧
      (setUniform g programID uniformID).1.uniformSetCount
        = (g.uniformSetCount + 1) % 2 ^ 32 ∧
      (g.uniformSetCount + 1 < 2 ^ 32 →
        (setUniform g programID uniformID).1.uniformSetCount = g.uniformSetCount + 1)) := by
  by_cases hlive : glIsProgram g.gl programID = true
  · have hw : (g.state.setProgram g.gl programID).2.uniformWrites = g.gl.uniformWrites := by
      unfold OpenglState.setProgram; split <;> rfl
    have hcur : g.state.activeProgram = g.gl.currentProgram →
        (g.state.setProgram g.gl programID).2.currentProgram = programID := by
      intro hc
      unfold OpenglState.setProgram
      split
      · rename_i h; rw [← hc]; exact h
      · rfl
    have hact := (setProgram_calls g.state g.gl programID).2
    refine ⟨by simp [setUniform, hlive], fun h => by simp [hlive] at h, fun _ => ?_⟩
    simp only [setUniform, hlive, if_true, wrap32]
    exact ⟨trivial, trivial, hact, trivial, hcur, by rw [hw], trivial,
      fun h => Nat.mod_eq_of_lt h⟩
  · have hdead : glIsProgram g.gl programID = false := by simpa using hlive
    refine ⟨by simp [setUniform, hdead], fun _ => by simp [setUniform, hdead],
      fun h => by simp [hdead] at h⟩

/-- C20 (defect in the code): an empty matrix array passed to `setUniformArray` on
a live program makes `matrixArray.at(0)` throw after the program was bound, and
an empty index list passed to `setModelIndexesUBO` makes `temp.at(0)` throw: in
both cases the operation leaves by an exception instead of returning. -/
theorem empty_array_uniform_write_throws :
    setModelIndexesUBO [] = none ∧
    (∀ (g : GLHelper) (programID uniformID : Nat), glIsProgram g.gl programID = true →
      setUniformArray g programID uniformID ([] : List Nat)
        = Except.error { g with state := (g.state.setProgram g.gl programID).1,
                                gl := (g.state.setProgram g.gl programID).2 }) ∧
    setUniformArray { gl := { programs := [3] } } 3 0 ([] : List Nat)
      = Except.error { state := { activeProgram := 3 },
                       gl := { programs := [3], currentProgram := 3, useProgramCalls := 1 } } := by
  refine ⟨rfl, ?_, rfl⟩
  intro g programID uniformID hlive
  simp only [setUniformArray, hlive, if_true]

/-! ## Claims on the uniform lookup -/

/-- C21: for a raw location in the range of `GLint`, `getUniformLocation` returns
true exactly when the error check found no driver error and the raw location is
at least 0; it then leaves that location in the reference parameter, and in
every other case it returns false and leaves the reference parameter as it was. -/
theorem getUniformLocation_contract (rawLocation : Int) (errorFound : Bool) (location : Nat)
    (hraw : rawLocation < 2 ^ 31) :
    ((getUniformLocation rawLocation errorFound location).1 = true ↔
        (errorFound = false ∧ 0 ≤ rawLocation)) ∧
    ((getUniformLocation rawLocation errorFound location).1 = true →
        ((getUniformLocation rawLocation errorFound location).2 : Int) = rawLocation) ∧
    ((getUniformLocation rawLocation errorFound location).1 = false →
        (getUniformLocation rawLocation errorFound location).2 = location) := by
  unfold getUniformLocation
  cases errorFound
  · by_cases h0 : rawLocation ≥ 0
    · have hconv : (toUnsigned32 rawLocation : Int) = rawLocation := by
        unfold toUnsigned32
        rw [Int.toNat_of_nonneg (Int.emod_nonneg _ (by norm_num))]
        exact Int.emod_eq_of_lt h0 (by omega)
      simp [h0, hconv]
    · simp [h0]
  · simp

/-- Witness for C21: location 5 found without a driver error replaces the previous
value 99 of the reference parameter. -/
theorem getUniformLocation_contract_witness :
    ((getUniformLocation 5 false 99).1 = true ↔ (false = false ∧ (0 : Int) ≤ 5)) ∧
    ((getUniformLocation 5 false 99).1 = true →
        ((getUniformLocation 5 false 99).2 : Int) = 5) ∧
    ((getUniformLocation 5 false 99).1 = false → (getUniformLocation 5 false 99).2 = 99) :=
  getUniformLocation_contract 5 false 99 (by decide)

/-! ## Claims on the options file -/

/-- C26: whenever `Options::loadOptions` returns, it returns false, whatever the
parsers, the file and the previous field values are; this includes the load of a
file that holds every option. -/
theorem loadOptions_returns_false {F : Type} [Zero F] (p : Parsers F) (file : XMLFile)
    (o : OptionValues F) (result : Bool × OptionValues F)
    (hret : loadOptions p file o = Except.ok result) : result.1 = false := by
  unfold loadOptions at hret
  split at hret
  · split at hret
    · cases hret
      rfl
    · split at hret
      · cases hret
      · cases hret
        rfl
  · cases hret

/-- Witness for C26: the load of a file that holds every option, each parsed
successfully, returns false with all fields assigned. -/
theorem loadOptions_returns_false_witness :
    loadOptions Parsers.decimal XMLFile.sample OptionValues.blank
        = Except.ok (false, OptionValues.sampleLoaded) ∧
      (false, OptionValues.sampleLoaded).1 = false :=
  ⟨rfl, loadOptions_returns_false Parsers.decimal XMLFile.sample OptionValues.blank
    (false, OptionValues.sampleLoaded) rfl⟩

/-! ## Lemmas on the player uniform block and the stored frustum -/

section PlaneVectorLemmas

variable {α : Type} [Add α] [Sub α] [Mul α]

theorem vectorResize_length {T : Type} (v : List T) (n : Nat) (filler : T) :
    (vectorResize v n filler).length = n := by
  unfold vectorResize
  simp only [List.length_append, List.length_take, List.length_replicate]
  omega

theorem calculateFrustumPlanesInPlace_ok (inversesqrt : α → α)
    (cameraMatrix projectionMatrix : Mat4 α) (planes : List (Vec4 α))
    (h6 : planes.length = 6) :
    calculateFrustumPlanesInPlace inversesqrt cameraMatrix projectionMatrix planes
      = Except.ok
        [calculateFrustumPlanes inversesqrt cameraMatrix projectionMatrix FrustumPlane.RIGHT,
          calculateFrustumPlanes inversesqrt cameraMatrix projectionMatrix FrustumPlane.LEFT,
          calculateFrustumPlanes inversesqrt cameraMatrix projectionMatrix FrustumPlane.BOTTOM,
          calculateFrustumPlanes inversesqrt cameraMatrix projectionMatrix FrustumPlane.TOP,
          calculateFrustumPlanes inversesqrt cameraMatrix projectionMatrix FrustumPlane.BACK,
          calculateFrustumPlanes inversesqrt cameraMatrix projectionMatrix FrustumPlane.FRONT] := by
  match planes, h6 with
  | [p0, p1, p2, p3, p4, p5], _ => rfl

theorem calculateFrustumPlanesInPlace_fault (inversesqrt : α → α)
    (cameraMatrix projectionMatrix : Mat4 α) (planes : List (Vec4 α))
    (h6 : planes.length ≠ 6) :
    calculateFrustumPlanesInPlace inversesqrt cameraMatrix projectionMatrix planes
      = Except.error PlaneFault.assertionFailed := by
  unfold calculateFrustumPlanesInPlace
  rw [if_neg h6]

end PlaneVectorLemmas

section CameraLemmas

variable {α : Type} [Add α] [Sub α] [Mul α] [One α] [NatCast α]

theorem setPlayerMatrices_ok (lib : FloatLibrary α) (g : GLHelper) (c : CameraFields α)
    (cameraPosition : Vec3 α) (cameraTransform : Mat4 α) (h6 : c.frustumPlanes.length = 6) :
    setPlayerMatrices lib g c cameraPosition cameraTransform
      = Except.ok
        { c with
          cameraMatrix := cameraTransform,
          cameraPosition := cameraPosition,
          playerUBO := c.playerUBO ++ playerUploads lib g c cameraPosition cameraTransform,
          frustumPlanes :=
            [calculateFrustumPlanes lib.inversesqrt cameraTransform
                c.perspectiveProjectionMatrix FrustumPlane.RIGHT,
              calculateFrustumPlanes lib.inversesqrt cameraTransform
                c.perspectiveProjectionMatrix FrustumPlane.LEFT,
              calculateFrustumPlanes lib.inversesqrt cameraTransform
                c.perspectiveProjectionMatrix FrustumPlane.BOTTOM,
              calculateFrustumPlanes lib.inversesqrt cameraTransform
                c.perspectiveProjectionMatrix FrustumPlane.TOP,
              calculateFrustumPlanes lib.inversesqrt cameraTransform
                c.perspectiveProjectionMatrix FrustumPlane.BACK,
              calculateFrustumPlanes lib.inversesqrt cameraTransform
                c.perspectiveProjectionMatrix FrustumPlane.FRONT] } := by
  unfold setPlayerMatrices
  rw [calculateFrustumPlanesInPlace_ok _ _ _ _ h6]

theorem setPlayerMatrices_length (lib : FloatLibrary α) (g : GLHelper) (c next : CameraFields α)
    (cameraPosition : Vec3 α) (cameraTransform : Mat4 α)
    (hret : setPlayerMatrices lib g c cameraPosition cameraTransform = Except.ok next) :
    next.frustumPlanes.length = 6 := by
  by_cases h6 : c.frustumPlanes.length = 6
  · rw [setPlayerMatrices_ok lib g c cameraPosition cameraTransform h6] at hret
    cases hret
    rfl
  · unfold setPlayerMatrices at hret
    rw [calculateFrustumPlanesInPlace_fault _ _ _ _ h6] at hret
    cases hret

end CameraLemmas

section CameraReachLemmas

variable {α : Type} [Add α] [Sub α] [Mul α] [Div α] [Zero α] [One α] [NatCast α]
  [OfScientific α]

theorem cameraReachable_length (lib : FloatLibrary α) (c : CameraFields α)
    (hreach : CameraReachable lib c) : c.frustumPlanes.length = 6 := by
  induction hreach with
  | constructed initial filler => exact vectorResize_length _ _ _
  | playerSet g c next cameraPosition cameraTransform _ hret _ =>
    exact setPlayerMatrices_length lib g c next cameraPosition cameraTransform hret
  | reshaped g c _ ih => exact ih

end CameraReachLemmas

/-! ## Claims on `setPlayerMatrices` -/

section CameraClaims

variable {α : Type} [Add α] [Sub α] [Mul α] [One α] [NatCast α]

/-- C22: for every camera position and transform, `setPlayerMatrices` returns
(the stored plane vector having six entries) and the last sub-range write it
makes on the player buffer, at byte 352, is the pair
`(screenWidth / 4, screenHeight / 4)` of the cached screen size, each component
being the floor of the quotient; for a screen of 800 x 600 it is `(200, 150)`. -/
theorem setPlayerMatrices_noise_scale (lib : FloatLibrary α) (g : GLHelper) (c : CameraFields α)
    (cameraPosition : Vec3 α) (cameraTransform : Mat4 α) (h6 : c.frustumPlanes.length = 6) :
    ∃ next, setPlayerMatrices lib g c cameraPosition cameraTransform = Except.ok next ∧
      next.playerUBO.getLast? = some
        { offset := 352, size := 8,
          data := UploadData.vec2
            { x := ((g.screenWidth / 4 : Nat) : α), y := ((g.screenHeight / 4 : Nat) : α) } } ∧
      (next.playerUBO.drop c.playerUBO.length).filter (fun u => decide (352 ≤ u.offset + u.size))
        = [{ offset := 352, size := 8,
             data := UploadData.vec2
               { x := ((g.screenWidth / 4 : Nat) : α),
                 y := ((g.screenHeight / 4 : Nat) : α) } }] ∧
      4 * (g.screenWidth / 4) ≤ g.screenWidth ∧ g.screenWidth < 4 * (g.screenWidth / 4) + 4 ∧
      4 * (g.screenHeight / 4) ≤ g.screenHeight ∧ g.screenHeight < 4 * (g.screenHeight / 4) + 4 ∧
      (g.screenWidth = 800 → g.screenHeight = 600 →
        next.playerUBO.getLast? = some
          { offset := 352, size := 8, data := UploadData.vec2 { x := 200, y := 150 } }) := by
  refine ⟨_, setPlayerMatrices_ok lib g c cameraPosition cameraTransform h6, ?_, ?_,
    by omega, by omega, by omega, by omega, ?_⟩
  · simp [playerUploads, sizeofMat4, sizeofVec4, sizeofVec2]
  · simp [playerUploads, sizeofMat4, sizeofVec4, sizeofVec2, sizeofVec3]
  · intro hw hh
    simp [playerUploads, sizeofMat4, sizeofVec4, sizeofVec2, hw, hh]

/-- Witness for C22: camera at the origin, identity transform, screen 800 x 600,
on the camera fields as the constructor leaves them. -/
theorem setPlayerMatrices_noise_scale_witness :
    ∃ next, setPlayerMatrices FloatLibrary.rational GLHelper.screen800x600 CameraFields.fresh
        { x := 0, y := 0, z := 0 } Mat4.identity = Except.ok next ∧
      next.playerUBO.getLast? = some
        { offset := 352, size := 8,
          data := UploadData.vec2
            { x := ((GLHelper.screen800x600.screenWidth / 4 : Nat) : ℚ),
              y := ((GLHelper.screen800x600.screenHeight / 4 : Nat) : ℚ) } } ∧
      (next.playerUBO.drop CameraFields.fresh.playerUBO.length).filter
          (fun u => decide (352 ≤ u.offset + u.size))
        = [{ offset := 352, size := 8,
             data := UploadData.vec2
               { x := ((GLHelper.screen800x600.screenWidth / 4 : Nat) : ℚ),
                 y := ((GLHelper.screen800x600.screenHeight / 4 : Nat) : ℚ) } }] ∧
      4 * (GLHelper.screen800x600.screenWidth / 4) ≤ GLHelper.screen800x600.screenWidth ∧
      GLHelper.screen800x600.screenWidth < 4 * (GLHelper.screen800x600.screenWidth / 4) + 4 ∧
      4 * (GLHelper.screen800x600.screenHeight / 4) ≤ GLHelper.screen800x600.screenHeight ∧
      GLHelper.screen800x600.screenHeight < 4 * (GLHelper.screen800x600.screenHeight / 4) + 4 ∧
      (GLHelper.screen800x600.screenWidth = 800 → GLHelper.screen800x600.screenHeight = 600 →
        next.playerUBO.getLast? = some
          { offset := 352, size := 8, data := UploadData.vec2 { x := 200, y := 150 } }) :=
  setPlayerMatrices_noise_scale FloatLibrary.rational GLHelper.screen800x600 CameraFields.fresh
    { x := 0, y := 0, z := 0 } Mat4.identity rfl

/-- C23: when the stored plane vector has six entries, `setPlayerMatrices` returns;
afterwards the stored camera matrix and position are the arguments, the
projection matrix is unchanged, the six stored planes are those of
`calculateFrustumPlanes` for the new camera matrix and that projection whatever
the vector held before, the one write at byte 128 uploads
`perspectiveProjectionMatrix * cameraTransform`, and the one write at byte 336
uploads the `xyz` part of `cameraTransform * (cameraPosition, 1)`. -/
theorem setPlayerMatrices_stores_and_uploads (lib : FloatLibrary α) (g : GLHelper)
    (c : CameraFields α) (cameraPosition : Vec3 α) (cameraTransform : Mat4 α)
    (h6 : c.frustumPlanes.length = 6) :
    ∃ next, setPlayerMatrices lib g c cameraPosition cameraTransform = Except.ok next ∧
      next.cameraMatrix = cameraTransform ∧
      next.cameraPosition = cameraPosition ∧
      next.perspectiveProjectionMatrix = c.perspectiveProjectionMatrix ∧
      next.frustumPlanes.length = 6 ∧
      (∀ side : FrustumPlane, next.frustumPlanes[side.index]? = some
        (calculateFrustumPlanes lib.inversesqrt cameraTransform c.perspectiveProjectionMatrix
          side)) ∧
      (next.playerUBO.drop c.playerUBO.length).filter (fun u => decide (u.offset = 128))
        = [{ offset := 128, size := 64,
             data := UploadData.mat4 (c.perspectiveProjectionMatrix.mul cameraTransform) }] ∧
      (next.playerUBO.drop c.playerUBO.length).filter (fun u => decide (u.offset = 336))
        = [{ offset := 336, size := 12,
             data := UploadData.vec3
               (cameraTransform.mulVec (Vec4.ofVec3 cameraPosition 1)).xyz }] := by
  refine ⟨_, setPlayerMatrices_ok lib g c cameraPosition cameraTransform h6, rfl, rfl, rfl, rfl,
    ?_, ?_, ?_⟩
  · intro side
    cases side <;> rfl
  · simp [playerUploads, sizeofMat4, sizeofVec4, sizeofVec2, sizeofVec3]
  · simp [playerUploads, sizeofMat4, sizeofVec4, sizeofVec2, sizeofVec3]

/-- Witness for C23: camera at `(1, 2, 3)` with the identity transform, on the
camera fields as the constructor leaves them. -/
theorem setPlayerMatrices_stores_and_uploads_witness :
    ∃ next, setPlayerMatrices FloatLibrary.rational GLHelper.screen800x600 CameraFields.fresh
        { x := 1, y := 2, z := 3 } Mat4.identity = Except.ok next ∧
      next.cameraMatrix = Mat4.identity ∧
      next.cameraPosition = { x := 1, y := 2, z := 3 } ∧
      next.perspectiveProjectionMatrix = CameraFields.fresh.perspectiveProjectionMatrix ∧
      next.frustumPlanes.length = 6 ∧
      (∀ side : FrustumPlane, next.frustumPlanes[side.index]? = some
        (calculateFrustumPlanes FloatLibrary.rational.inversesqrt Mat4.identity
          CameraFields.fresh.perspectiveProjectionMatrix side)) ∧
      (next.playerUBO.drop CameraFields.fresh.playerUBO.length).filter
          (fun u => decide (u.offset = 128))
        = [{ offset := 128, size := 64,
             data := UploadData.mat4
               (CameraFields.fresh.perspectiveProjectionMatrix.mul Mat4.identity) }] ∧
      (next.playerUBO.drop CameraFields.fresh.playerUBO.length).filter
          (fun u => decide (u.offset = 336))
        = [{ offset := 336, size := 12,
             data := UploadData.vec3
               ((Mat4.identity : Mat4 ℚ).mulVec (Vec4.ofVec3 { x := 1, y := 2, z := 3 } 1)).xyz }] :=
  setPlayerMatrices_stores_and_uploads FloatLibrary.rational GLHelper.screen800x600
    CameraFields.fresh { x := 1, y := 2, z := 3 } Mat4.identity rfl

end CameraClaims

section CameraReachClaims

variable {α : Type} [Add α] [Sub α] [Mul α] [Div α] [Zero α] [One α] [NatCast α]
  [OfScientific α]

/-- C28: in every state reachable after construction the stored plane vector has
exactly six entries; hence `setPlayerMatrices` returns for every argument,
neither the assertion of `calculateFrustumPlanes` nor one of its element
accesses failing, and every plane index is below the size of the vector. -/
theorem frustumPlanes_size_invariant (lib : FloatLibrary α) (c : CameraFields α)
    (hreach : CameraReachable lib c) :
    c.frustumPlanes.length = 6 ∧
      (∀ (g : GLHelper) (cameraPosition : Vec3 α) (cameraTransform : Mat4 α),
        ∃ next, setPlayerMatrices lib g c cameraPosition cameraTransform = Except.ok next ∧
          CameraReachable lib next) ∧
      (∀ side : FrustumPlane, side.index < c.frustumPlanes.length) := by
  have h6 := cameraReachable_length lib c hreach
  refine ⟨h6, ?_, ?_⟩
  · intro g cameraPosition cameraTransform
    exact ⟨_, setPlayerMatrices_ok lib g c cameraPosition cameraTransform h6,
      CameraReachable.playerSet g c _ cameraPosition cameraTransform hreach
        (setPlayerMatrices_ok lib g c cameraPosition cameraTransform h6)⟩
  · intro side
    rw [h6]
    cases side <;> decide

/-- Witness for C28: the camera fields after construction followed by `reshape` on
a screen of 800 x 600. -/
theorem frustumPlanes_size_invariant_witness :
    (reshapeMatrices FloatLibrary.rational GLHelper.screen800x600
        CameraFields.fresh).frustumPlanes.length = 6 ∧
      (∀ (g : GLHelper) (cameraPosition : Vec3 ℚ) (cameraTransform : Mat4 ℚ),
        ∃ next, setPlayerMatrices FloatLibrary.rational g
            (reshapeMatrices FloatLibrary.rational GLHelper.screen800x600 CameraFields.fresh)
            cameraPosition cameraTransform = Except.ok next ∧
          CameraReachable FloatLibrary.rational next) ∧
      (∀ side : FrustumPlane, side.index <
        (reshapeMatrices FloatLibrary.rational GLHelper.screen800x600
          CameraFields.fresh).frustumPlanes.length) :=
  frustumPlanes_size_invariant FloatLibrary.rational
    (reshapeMatrices FloatLibrary.rational GLHelper.screen800x600 CameraFields.fresh)
    (CameraReachable.reshaped GLHelper.screen800x600 CameraFields.fresh
      (CameraReachable.constructed CameraFields.blank { x := 0, y := 0, z := 0, w := 0 }))

end CameraReachClaims

/-! ## Lemmas on slots of the indexed uniform buffers -/

theorem slot_disjoint (stride i j : Nat) (hij : i ≠ j) (o n : Nat) (hlo : i * stride ≤ o)
    (hhi : o + n ≤ (i + 1) * stride) :
    j * stride + stride ≤ o ∨ o + n ≤ j * stride := by
  rcases Nat.lt_or_gt_of_ne hij with h | h
  · right
    exact le_trans hhi (Nat.mul_le_mul_right stride h)
  · left
    have := Nat.mul_le_mul_right stride (Nat.succ_le_of_lt h)
    rw [Nat.succ_mul] at this
    exact le_trans this hlo

theorem slot_in_buffer (stride count i : Nat) (hi : i < count) (o n : Nat)
    (hhi : o + n ≤ (i + 1) * stride) (h32 : stride * count < 2 ^ 32) :
    o + n ≤ uniformBufferSize stride count := by
  unfold uniformBufferSize wrap32
  rw [Nat.mod_eq_of_lt h32, Nat.mul_comm stride count]
  exact le_trans hhi (Nat.mul_le_mul_right stride (Nat.succ_le_of_lt hi))

theorem slot_index_bound (stride count i : Nat) (hi : i < count) (hpos : 0 < stride)
    (h32 : stride * count < 2 ^ 32) : i < 2 ^ 32 ∧ i * stride < 2 ^ 32 := by
  have h1 : i * stride < stride * count := by
    rw [Nat.mul_comm stride count]
    exact Nat.mul_lt_mul_of_pos_right hi hpos
  have h2 : i ≤ i * stride := Nat.le_mul_of_pos_right i hpos
  omega

/-- Writes confined to slot `i` stay inside the buffer and leave slot `j` as it was. -/
theorem writes_confined (stride count : Nat) (store : List Nat) (ws : List BufferWrite)
    (i j : Nat) (hij : i ≠ j) (hi : i < count) (h32 : stride * count < 2 ^ 32)
    (hin : ∀ w ∈ ws, i * stride ≤ w.offset ∧ w.offset + w.size ≤ (i + 1) * stride) :
    (applyWrites store ws).length = store.length ∧
      readBytes (applyWrites store ws) (j * stride) stride = readBytes store (j * stride) stride ∧
      ∀ w ∈ ws, i * stride ≤ w.offset ∧ w.offset + w.size ≤ (i + 1) * stride ∧
        w.offset + w.size ≤ uniformBufferSize stride count := by
  refine ⟨applyWrites_length _ _, ?_, ?_⟩
  · apply readBytes_applyWrites_disjoint
    intro w hw
    exact slot_disjoint stride i j hij w.offset w.size (hin w hw).1 (hin w hw).2
  · intro w hw
    exact ⟨(hin w hw).1, (hin w hw).2,
      slot_in_buffer stride count i hi w.offset w.size (hin w hw).2 h32⟩

theorem setMaterialWrites_eq (materialUniformSize : Nat) (material : Material)
    (hb : material.materialIndex * materialUniformSize < 2 ^ 32) :
    setMaterialWrites materialUniformSize material =
      [ { offset := material.materialIndex * materialUniformSize, size := 12,
          data := material.ambientColor },
        { offset := material.materialIndex * materialUniformSize + 12, size := 4,
          data := material.specularExponent },
        { offset := material.materialIndex * materialUniformSize + 16, size := 12,
          data := material.diffuseColor },
        { offset := material.materialIndex * materialUniformSize + 28, size := 4,
          data := glintBytes material.maps } ] := by
  have hw : wrap32 (material.materialIndex * materialUniformSize)
      = material.materialIndex * materialUniformSize := by
    unfold wrap32; exact Nat.mod_eq_of_lt hb
  simp only [setMaterialWrites, hw, sizeofVec3, sizeofGLfloat, sizeofGLint]

theorem setLightWrites_in_slot (lightUniformSize count : Nat) (light : Light) (i : Nat)
    (hi : i < count) (hslot : 508 ≤ lightUniformSize)
    (h32 : lightUniformSize * count < 2 ^ 32) :
    ∀ w ∈ setLightWrites lightUniformSize light (i : Int),
      i * lightUniformSize ≤ w.offset ∧ w.offset + w.size ≤ (i + 1) * lightUniformSize := by
  have hb := slot_index_bound lightUniformSize count i hi (by omega) h32
  rw [setLightWrites_eq lightUniformSize light i hb.1 hb.2]
  intro w hw
  rw [Nat.succ_mul]
  simp only [List.mem_cons, List.mem_singleton, List.not_mem_nil, or_false] at hw
  rcases hw with h | h | h | h | h | h | h | h <;> subst h <;> constructor <;> simp only <;> omega

theorem setMaterialWrites_in_slot (materialUniformSize count : Nat) (material : Material)
    (hi : material.materialIndex < count) (hslot : 32 ≤ materialUniformSize)
    (h32 : materialUniformSize * count < 2 ^ 32) :
    ∀ w ∈ setMaterialWrites materialUniformSize material,
      material.materialIndex * materialUniformSize ≤ w.offset ∧
        w.offset + w.size ≤ (material.materialIndex + 1) * materialUniformSize := by
  have hb := slot_index_bound materialUniformSize count material.materialIndex hi (by omega) h32
  rw [setMaterialWrites_eq materialUniformSize material hb.2]
  intro w hw
  rw [Nat.succ_mul]
  simp only [List.mem_cons, List.mem_singleton, List.not_mem_nil, or_false] at hw
  rcases hw with h | h | h | h <;> subst h <;> constructor <;> simp only <;> omega

theorem setModelWrites_in_slot (modelID : Nat) (worldTransform : List Nat) :
    ∀ w ∈ setModelWrites modelID worldTransform,
      modelID * sizeofMat4 ≤ w.offset ∧ w.offset + w.size ≤ (modelID + 1) * sizeofMat4 := by
  intro w hw
  rw [Nat.succ_mul]
  simp only [setModelWrites, List.mem_singleton] at hw
  subst hw
  exact ⟨le_refl _, le_refl _⟩

/-! ## Claims on the indexed uniform writes -/

/-- C25: for distinct indices `i` and `j` with `i` inside the capacity of each
buffer, `setLight(light, i)`, `setMaterial` of a material with index `i` and
`setModel(i, transform)` leave the size of their buffer and every byte of slot
`j` as they were, and each of their sub-range writes lies inside slot `i` and
inside the buffer allocated by the constructor.  The slots are those of the
stride at which each method writes: `lightUniformSize` (at least the 508 bytes
written), `materialUniformSize` (at least 32) and `sizeof(glm::mat4)` (with
`modelUniformSize` at least that); the buffer sizes fit 32 bits. -/
theorem indexed_writes_confined_to_slot
    (lightUniformSize NR_TOTAL_LIGHTS materialUniformSize NR_MAX_MATERIALS : Nat)
    (modelUniformSize NR_MAX_MODELS i j : Nat)
    (lightStore materialStore modelStore : List Nat)
    (light : Light) (material : Material) (worldTransform : List Nat)
    (hij : i ≠ j)
    (hlight : 508 ≤ lightUniformSize) (hlight32 : lightUniformSize * NR_TOTAL_LIGHTS < 2 ^ 32)
    (hmaterial : 32 ≤ materialUniformSize)
    (hmaterial32 : materialUniformSize * NR_MAX_MATERIALS < 2 ^ 32)
    (hmodel : sizeofMat4 ≤ modelUniformSize)
    (hmodel32 : modelUniformSize * NR_MAX_MODELS < 2 ^ 32)
    (hiLight : i < NR_TOTAL_LIGHTS) (hiMaterial : i < NR_MAX_MATERIALS)
    (hiModel : i < NR_MAX_MODELS) (hindex : material.materialIndex = i)
    (hlightStore : lightStore.length = uniformBufferSize lightUniformSize NR_TOTAL_LIGHTS)
    (hmaterialStore :
      materialStore.length = uniformBufferSize materialUniformSize NR_MAX_MATERIALS)
    (hmodelStore : modelStore.length = uniformBufferSize modelUniformSize NR_MAX_MODELS) :
    ((setLight lightUniformSize lightStore light (i : Int)).length = lightStore.length ∧
      readBytes (setLight lightUniformSize lightStore light (i : Int))
          (j * lightUniformSize) lightUniformSize
        = readBytes lightStore (j * lightUniformSize) lightUniformSize ∧
      ∀ w ∈ setLightWrites lightUniformSize light (i : Int),
        i * lightUniformSize ≤ w.offset ∧ w.offset + w.size ≤ (i + 1) * lightUniformSize ∧
          w.offset + w.size ≤ lightStore.length) ∧
    ((setMaterial materialUniformSize materialStore material).length = materialStore.length ∧
      readBytes (setMaterial materialUniformSize materialStore material)
          (j * materialUniformSize) materialUniformSize
        = readBytes materialStore (j * materialUniformSize) materialUniformSize ∧
      ∀ w ∈ setMaterialWrites materialUniformSize material,
        i * materialUniformSize ≤ w.offset ∧
          w.offset + w.size ≤ (i + 1) * materialUniformSize ∧
          w.offset + w.size ≤ materialStore.length) ∧
    ((setModel modelStore i worldTransform).length = modelStore.length ∧
      readBytes (setModel modelStore i worldTransform) (j * sizeofMat4) sizeofMat4
        = readBytes modelStore (j * sizeofMat4) sizeofMat4 ∧
      ∀ w ∈ setModelWrites i worldTransform,
        i * sizeofMat4 ≤ w.offset ∧ w.offset + w.size ≤ (i + 1) * sizeofMat4 ∧
          w.offset + w.size ≤ modelStore.length) := by
  refine ⟨?_, ?_, ?_⟩
  · rw [hlightStore]
    have h := writes_confined lightUniformSize NR_TOTAL_LIGHTS lightStore
      (setLightWrites lightUniformSize light (i : Int)) i j hij hiLight hlight32
      (setLightWrites_in_slot lightUniformSize NR_TOTAL_LIGHTS light i hiLight hlight hlight32)
    rw [hlightStore] at h
    exact h
  · rw [hmaterialStore]
    subst hindex
    have h := writes_confined materialUniformSize NR_MAX_MATERIALS materialStore
      (setMaterialWrites materialUniformSize material) material.materialIndex j hij hiMaterial
      hmaterial32
      (setMaterialWrites_in_slot materialUniformSize NR_MAX_MATERIALS material hiMaterial
        hmaterial hmaterial32)
    rw [hmaterialStore] at h
    exact h
  · have hcount : sizeofMat4 * NR_MAX_MODELS ≤ modelUniformSize * NR_MAX_MODELS :=
      Nat.mul_le_mul_right _ hmodel
    have h := writes_confined sizeofMat4 NR_MAX_MODELS modelStore
      (setModelWrites i worldTransform) i j hij hiModel (by omega)
      (setModelWrites_in_slot i worldTransform)
    refine ⟨h.1, h.2.1, ?_⟩
    intro w hw
    have hw3 := h.2.2 w hw
    refine ⟨hw3.1, hw3.2.1, ?_⟩
    rw [hmodelStore]
    have h1 : uniformBufferSize sizeofMat4 NR_MAX_MODELS = sizeofMat4 * NR_MAX_MODELS := by
      unfold uniformBufferSize wrap32
      exact Nat.mod_eq_of_lt (by omega)
    have h2 : uniformBufferSize modelUniformSize NR_MAX_MODELS
        = modelUniformSize * NR_MAX_MODELS := by
      unfold uniformBufferSize wrap32
      exact Nat.mod_eq_of_lt hmodel32
    omega

/-- Witness for C25: slot 1 written and slot 0 read, in a light buffer of 4 slots of
512 bytes, a material buffer of 200 slots of 256 bytes and a model buffer of
1000 slots of 64 bytes. -/
theorem indexed_writes_confined_to_slot_witness :
    ((setLight 512 (List.replicate 2048 0) Light.sample ((1 : Nat) : Int)).length
        = (List.replicate 2048 0).length ∧
      readBytes (setLight 512 (List.replicate 2048 0) Light.sample ((1 : Nat) : Int))
          (0 * 512) 512
        = readBytes (List.replicate 2048 0) (0 * 512) 512 ∧
      ∀ w ∈ setLightWrites 512 Light.sample ((1 : Nat) : Int),
        1 * 512 ≤ w.offset ∧ w.offset + w.size ≤ (1 + 1) * 512 ∧
          w.offset + w.size ≤ (List.replicate 2048 0).length) ∧
    ((setMaterial 256 (List.replicate 51200 0) Material.sample).length
        = (List.replicate 51200 0).length ∧
      readBytes (setMaterial 256 (List.replicate 51200 0) Material.sample)
          (0 * 256) 256
        = readBytes (List.replicate 51200 0) (0 * 256) 256 ∧
      ∀ w ∈ setMaterialWrites 256 Material.sample,
        1 * 256 ≤ w.offset ∧
          w.offset + w.size ≤ (1 + 1) * 256 ∧
          w.offset + w.size ≤ (List.replicate 51200 0).length) ∧
    ((setModel (List.replicate 64000 0) 1 (List.replicate 64 1)).length
        = (List.replicate 64000 0).length ∧
      readBytes (setModel (List.replicate 64000 0) 1 (List.replicate 64 1))
          (0 * sizeofMat4) sizeofMat4
        = readBytes (List.replicate 64000 0) (0 * sizeofMat4) sizeofMat4 ∧
      ∀ w ∈ setModelWrites 1 (List.replicate 64 1),
        1 * sizeofMat4 ≤ w.offset ∧ w.offset + w.size ≤ (1 + 1) * sizeofMat4 ∧
          w.offset + w.size ≤ (List.replicate 64000 0).length) :=
  indexed_writes_confined_to_slot 512 4 256 200 64 1000 1 0 (List.replicate 2048 0)
    (List.replicate 51200 0) (List.replicate 64000 0) Light.sample Material.sample
    (List.replicate 64 1) (by decide) (by decide) (by decide) (by decide) (by decide)
    (by decide) (by decide) (by decide) (by decide) (by decide) rfl
    (List.length_replicate 2048 0) (List.length_replicate 51200 0)
    (List.length_replicate 64000 0)

/-! ## Lemmas on the render counter under the calls of `Model` -/

theorem attachMaterialUBO_count (g : GLHelper) (program : Nat) (uniformIndex : Int)
    (materialID : Nat) :
    (attachMaterialUBO g program uniformIndex materialID).renderTriangleCount
      = g.renderTriangleCount := rfl

theorem setUniformArray_count {β : Type} (g : GLHelper) (programID uniformID : Nat)
    (matrixArray : List β) (hne : matrixArray ≠ []) :
    ∃ r, setUniformArray g programID uniformID matrixArray = Except.ok r ∧
      r.1.renderTriangleCount = g.renderTriangleCount := by
  unfold setUniformArray
  cases matrixArray with
  | nil => exact absurd rfl hne
  | cons a rest =>
    by_cases hlive : glIsProgram g.gl programID = true
    · rw [if_pos hlive]
      exact ⟨_, rfl, rfl⟩
    · rw [if_neg hlive]
      exact ⟨_, rfl, rfl⟩

theorem attachTexture_count (g : GLHelper) (textureID attachPoint : Nat) :
    (attachTexture g textureID attachPoint).renderTriangleCount = g.renderTriangleCount := rfl

theorem attachIfPresent_count (g : GLHelper) (texture : Option Nat) (attachPoint : Nat) :
    (attachIfPresent g texture attachPoint).renderTriangleCount = g.renderTriangleCount := by
  cases texture <;> rfl

theorem activateTexturesOnly_count (m : Model) (g : GLHelper) (material : MeshMaterial) :
    (m.activateTexturesOnly g material).renderTriangleCount = g.renderTriangleCount := by
  unfold Model.activateTexturesOnly
  simp only [attachIfPresent_count]

theorem setupRenderVariables_ok (m : Model) (g : GLHelper) (meshMeta : MeshMeta)
    (mesh : Mesh) (material : MeshMaterial)
    (hmesh : meshMeta.meshAndMaterial = some (mesh, material))
    (hbones : m.animated = true → m.boneTransforms ≠ []) :
    ∃ g1, m.setupRenderVariables g meshMeta = Except.ok (g1, true) ∧
      g1.renderTriangleCount = g.renderTriangleCount := by
  unfold Model.setupRenderVariables
  rw [hmesh]
  by_cases hanimated : m.animated = true
  · simp only [hanimated, if_true]
    unfold GLSLProgram.setUniformArray
    cases hloc : meshMeta.program.boneTransformArrayLocation with
    | none => exact ⟨_, rfl, rfl⟩
    | some uniformID =>
      obtain ⟨r, hr, hcount⟩ := setUniformArray_count
        (attachMaterialUBO g meshMeta.program.id meshMeta.program.materialBlockIndex
          material.materialIndex) meshMeta.program.id uniformID m.boneTransforms
        (hbones hanimated)
      simp only [hr]
      exact ⟨_, rfl, hcount⟩
  · simp only [hanimated]
    exact ⟨_, rfl, rfl⟩

theorem meshAndMaterial_mesh (meshMeta : MeshMeta) (mesh : Mesh) (material : MeshMaterial)
    (hmesh : meshMeta.meshAndMaterial = some (mesh, material)) : meshMeta.mesh = some mesh := by
  unfold MeshMeta.meshAndMaterial at hmesh
  cases hm : meshMeta.mesh with
  | none => rw [hm] at hmesh; cases hmesh
  | some mesh1 =>
    rw [hm] at hmesh
    cases hmat : mesh1.material with
    | none => simp only [hmat] at hmesh; cases hmesh
    | some material1 =>
      simp only [hmat, Option.some.injEq, Prod.mk.injEq] at hmesh
      rw [hmesh.1]

theorem triangleTotal_cons (meshMeta : MeshMeta) (rest : List MeshMeta) (mesh : Mesh)
    (hmesh : meshMeta.mesh = some mesh) :
    triangleTotal (meshMeta :: rest) = mesh.triangleCount + triangleTotal rest := by
  simp only [triangleTotal, List.map_cons, List.sum_cons, hmesh]

theorem renderMeshes_count (m : Model) (hbones : m.animated = true → m.boneTransforms ≠ [])
    (meshes : List MeshMeta) (hmeshes : Renderable meshes) (g : GLHelper)
    (hfit : g.renderTriangleCount + 3 * triangleTotal meshes < 2 ^ 32) :
    ∃ g1, m.renderMeshes g meshes = Except.ok g1 ∧
      g1.renderTriangleCount = g.renderTriangleCount + 3 * triangleTotal meshes := by
  induction meshes generalizing g with
  | nil => exact ⟨g, rfl, by simp [triangleTotal]⟩
  | cons meshMeta rest ih =>
    have hhead := hmeshes meshMeta (List.mem_cons_self _ _)
    obtain ⟨pair, hpair⟩ := Option.ne_none_iff_exists'.mp hhead.1
    obtain ⟨mesh, material⟩ := pair
    have hm := meshAndMaterial_mesh meshMeta mesh material hpair
    obtain ⟨g1, hsetup, hcount⟩ := setupRenderVariables_ok m g meshMeta mesh material hpair hbones
    rw [triangleTotal_cons meshMeta rest mesh hm] at hfit ⊢
    have hw : wrap32 (mesh.triangleCount * 3) = mesh.triangleCount * 3 := by
      unfold wrap32; exact Nat.mod_eq_of_lt (by omega)
    have hrender : (render g1 meshMeta.program.id mesh.vao mesh.ebo
        (wrap32 (mesh.triangleCount * 3))).renderTriangleCount
        = g.renderTriangleCount + mesh.triangleCount * 3 := by
      have hstep : (render g1 meshMeta.program.id mesh.vao mesh.ebo
          (wrap32 (mesh.triangleCount * 3))).renderTriangleCount
          = wrap32 (g1.renderTriangleCount + wrap32 (mesh.triangleCount * 3)) := by
        simp only [render, if_neg hhead.2]
      rw [hstep, hw, hcount]
      unfold wrap32
      exact Nat.mod_eq_of_lt (by omega)
    obtain ⟨g2, hrest, hcount2⟩ := ih (fun mm hmm => hmeshes mm (List.mem_cons_of_mem _ hmm))
      (render g1 meshMeta.program.id mesh.vao mesh.ebo (wrap32 (mesh.triangleCount * 3)))
      (by rw [hrender]; omega)
    refine ⟨g2, ?_, by rw [hcount2, hrender]; ring⟩
    simp only [Model.renderMeshes, hsetup, hm]
    exact hrest

theorem renderMeshesInstanced_count (m : Model)
    (hbones : m.animated = true → m.boneTransforms ≠ []) (instanceCount : Nat)
    (hinstances : 0 < instanceCount)
    (meshes : List MeshMeta) (hmeshes : Renderable meshes) (g : GLHelper)
    (hfit : g.renderTriangleCount + 3 * instanceCount * triangleTotal meshes < 2 ^ 32) :
    ∃ g1, m.renderMeshesInstanced instanceCount g meshes = Except.ok g1 ∧
      g1.renderTriangleCount
        = g.renderTriangleCount + 3 * instanceCount * triangleTotal meshes := by
  induction meshes generalizing g with
  | nil => exact ⟨g, rfl, by simp [triangleTotal]⟩
  | cons meshMeta rest ih =>
    have hhead := hmeshes meshMeta (List.mem_cons_self _ _)
    obtain ⟨pair, hpair⟩ := Option.ne_none_iff_exists'.mp hhead.1
    obtain ⟨mesh, material⟩ := pair
    have hm := meshAndMaterial_mesh meshMeta mesh material hpair
    obtain ⟨g1, hsetup, hcount⟩ := setupRenderVariables_ok m g meshMeta mesh material hpair hbones
    rw [triangleTotal_cons meshMeta rest mesh hm] at hfit ⊢
    have hexpand : 3 * instanceCount * (mesh.triangleCount + triangleTotal rest)
        = mesh.triangleCount * 3 * instanceCount + 3 * instanceCount * triangleTotal rest := by
      ring
    rw [hexpand] at hfit ⊢
    have hone : mesh.triangleCount * 3 ≤ mesh.triangleCount * 3 * instanceCount :=
      Nat.le_mul_of_pos_right _ hinstances
    have hw : wrap32 (mesh.triangleCount * 3) = mesh.triangleCount * 3 := by
      unfold wrap32; exact Nat.mod_eq_of_lt (by omega)
    have hrender : (renderInstanced (m.activateTexturesOnly g1 material) meshMeta.program.id
        mesh.vao mesh.ebo (wrap32 (mesh.triangleCount * 3)) instanceCount).renderTriangleCount
        = g.renderTriangleCount + mesh.triangleCount * 3 * instanceCount := by
      have hstep : (renderInstanced (m.activateTexturesOnly g1 material) meshMeta.program.id
          mesh.vao mesh.ebo (wrap32 (mesh.triangleCount * 3))
          instanceCount).renderTriangleCount
          = wrap32 ((m.activateTexturesOnly g1 material).renderTriangleCount
              + wrap32 (mesh.triangleCount * 3) * instanceCount) := by
        simp only [renderInstanced, if_neg hhead.2]
      rw [hstep, hw, activateTexturesOnly_count, hcount]
      unfold wrap32
      exact Nat.mod_eq_of_lt (by omega)
    obtain ⟨g2, hrest, hcount2⟩ := ih (fun mm hmm => hmeshes mm (List.mem_cons_of_mem _ hmm))
      (renderInstanced (m.activateTexturesOnly g1 material) meshMeta.program.id
        mesh.vao mesh.ebo (wrap32 (mesh.triangleCount * 3)) instanceCount)
      (by rw [hrender]; omega)
    refine ⟨g2, ?_, by rw [hcount2, hrender]; ring⟩
    simp only [Model.renderMeshesInstanced, hsetup, hpair]
    exact hrest

/-! ## Claims on the render counter under `Model` -/

/-- C27: for a model whose entries all have a mesh with a material and a non-zero
program (and, if animated, a non-empty bone array), `Model::render` returns and
raises the render triangle counter by `3 * (T_1 + .. + T_k)`, the number of
elements, and `Model::renderInstanced` with `n >= 1` model indices returns and
raises it by `3 * n * (T_1 + .. + T_k)`; the sums are assumed to fit the 32-bit
counter. -/
theorem model_render_counts_elements (m : Model) (g : GLHelper) (modelIndices : List Nat)
    (hmeshes : Renderable m.meshMetaData)
    (hbones : m.animated = true → m.boneTransforms ≠ [])
    (hindices : modelIndices ≠ [])
    (hfit : g.renderTriangleCount + 3 * modelIndices.length * triangleTotal m.meshMetaData
      < 2 ^ 32) :
    (∃ g1, m.render g = Except.ok g1 ∧
      g1.renderTriangleCount = g.renderTriangleCount + 3 * triangleTotal m.meshMetaData) ∧
    (∃ g1, m.renderInstanced g modelIndices = Except.ok g1 ∧
      g1.renderTriangleCount
        = g.renderTriangleCount + 3 * modelIndices.length * triangleTotal m.meshMetaData) := by
  have hpos : 0 < modelIndices.length := List.length_pos.mpr hindices
  constructor
  · apply renderMeshes_count m hbones m.meshMetaData hmeshes g
    have hle : 3 * triangleTotal m.meshMetaData
        ≤ 3 * modelIndices.length * triangleTotal m.meshMetaData := by
      rw [Nat.mul_assoc]
      exact Nat.mul_le_mul_left 3 (Nat.le_mul_of_pos_left _ hpos)
    omega
  · unfold Model.renderInstanced
    cases modelIndices with
    | nil => exact absurd rfl hindices
    | cons first rest =>
      simp only [setModelIndexesUBO, List.map_cons]
      exact renderMeshesInstanced_count m hbones _ hpos m.meshMetaData hmeshes g hfit

/-- Witness for C27: a static model of two meshes of 12 and 100 triangles, 100
elements counted before, three model indices. -/
theorem model_render_counts_elements_witness :
    (∃ g1, Model.sample.render { renderTriangleCount := 100 } = Except.ok g1 ∧
      g1.renderTriangleCount
        = ({ renderTriangleCount := 100 } : GLHelper).renderTriangleCount
          + 3 * triangleTotal Model.sample.meshMetaData) ∧
    (∃ g1, Model.sample.renderInstanced { renderTriangleCount := 100 } [10, 11, 12]
        = Except.ok g1 ∧
      g1.renderTriangleCount
        = ({ renderTriangleCount := 100 } : GLHelper).renderTriangleCount
          + 3 * [10, 11, 12].length * triangleTotal Model.sample.meshMetaData) :=
  model_render_counts_elements Model.sample { renderTriangleCount := 100 } [10, 11, 12]
    (by
      intro meshMeta hmem
      simp only [Model.sample, List.mem_cons, List.mem_singleton, List.not_mem_nil,
        or_false] at hmem
      rcases hmem with h | h <;> subst h <;> exact ⟨by decide, by decide⟩)
    (by decide) (by decide) (by decide)

/-! ## Lemmas on the destructor -/

theorem deleteBuffer_one (g : GLHelper) (bufferID : Nat) :
    (deleteBuffer g 1 bufferID).1
      = { g with gl := { g.gl with buffers := g.gl.buffers.filter (fun b => b ≠ bufferID) } } := by
  unfold deleteBuffer glIsBuffer
  by_cases hmem : bufferID ∈ g.gl.buffers
  · simp only [hmem, decide_True, if_true, glDeleteBuffers]
    rfl
  · have hfilter : g.gl.buffers.filter (fun b => b ≠ bufferID) = g.gl.buffers := by
      apply List.filter_eq_self.mpr
      intro b hb
      simp only [ne_eq, decide_not, Bool.not_eq_true', decide_eq_false_iff_not]
      intro hbe
      exact hmem (hbe ▸ hb)
    simp only [hmem, decide_False, if_false, Bool.false_eq_true]
    rw [hfilter]

theorem deleteBuffer_table_loop (table : List Nat) (g : GLHelper) :
    table.foldl (fun acc bufferID => (deleteBuffer acc 1 bufferID).1) g
      = { g with gl := { g.gl with buffers := g.gl.buffers.filter (fun b => b ∉ table) } } := by
  induction table generalizing g with
  | nil => simp
  | cons first rest ih =>
    rw [List.foldl_cons, ih, deleteBuffer_one]
    simp only [List.filter_filter, List.mem_cons, not_or]
    congr 2
    apply List.filter_congr
    intro b _
    by_cases h1 : b = first <;> by_cases h2 : b ∈ rest <;> simp [h1, h2]

/-- The driver after the destructor: the buffers of the live table are gone, three
more names are removed from the buffers and three from the framebuffers, and
nothing else is deleted. -/
theorem destruct_gl (g : GLHelper) :
    g.destruct.gl.buffers
        = g.gl.buffers.filter (fun b => b ∉ g.bufferObjects ∧ b ≠ g.lightUBOLocation ∧
            b ≠ g.playerUBOLocation ∧ b ≠ g.allMaterialsUBOLocation ∧
            b ≠ g.depthMapDirectional ∧ b ≠ g.depthCubemapPoint ∧ b ≠ g.depthMap) ∧
      g.destruct.gl.framebuffers
        = g.gl.framebuffers.filter (fun f => f ≠ g.depthOnlyFrameBufferDirectional ∧
            f ≠ g.depthOnlyFrameBufferPoint ∧ f ≠ g.depthOnlyFrameBuffer) ∧
      g.destruct.gl.textures = g.gl.textures ∧
      g.destruct.gl.renderbuffers = g.gl.renderbuffers := by
  unfold GLHelper.destruct
  simp only [deleteBuffer_table_loop]
  simp only [deleteBuffer_one, glDeleteFramebuffers, List.filter_filter]
  refine ⟨?_, ?_, trivial, trivial⟩
  · apply List.filter_congr
    intro b _
    simp only [ne_eq, decide_not, Bool.decide_and]
    rw [Bool.eq_iff_iff]
    simp only [Bool.and_eq_true, Bool.not_eq_true', decide_eq_false_iff_not]
    tauto
  · apply List.filter_congr
    intro f _
    simp only [ne_eq, decide_not, Bool.decide_and]
    rw [Bool.eq_iff_iff]
    simp only [Bool.and_eq_true, Bool.not_eq_true', decide_eq_false_iff_not]
    tauto

/-! ## Claims on shutdown -/

/-- C24, evaluated: the destructor deletes no texture and no renderbuffer
whatever the object holds, while every buffer of the live table is gone from
the driver afterwards.  For the object constructed in a context without
objects (five uniform buffers 1-5, six framebuffers 1-6, nine textures 1-9,
one renderbuffer), the destructor leaves alive the uniform buffers
`allModelsUBOLocation` and `allModelIndexesUBOLocation`, the coloring, SSAO
generation and SSAO blur framebuffers, all nine textures (the three it hands
to `deleteBuffer` included) and the renderbuffer; `deleteTexture` on the depth
map does delete it. -/
theorem destructor_leaves_objects_alive :
    (∀ g : GLHelper, g.destruct.gl.textures = g.gl.textures ∧
      g.destruct.gl.renderbuffers = g.gl.renderbuffers ∧
      ∀ b ∈ g.bufferObjects, b ∉ g.destruct.gl.buffers) ∧
    (GLHelper.sample.gl.buffers = [1, 2, 3, 4, 5] ∧
      GLHelper.sample.gl.framebuffers = [1, 2, 3, 4, 5, 6] ∧
      GLHelper.sample.gl.textures = [1, 2, 3, 4, 5, 6, 7, 8, 9] ∧
      GLHelper.sample.gl.renderbuffers = [1]) ∧
    (GLHelper.sample.destruct.gl.buffers
        = [GLHelper.sample.allModelsUBOLocation, GLHelper.sample.allModelIndexesUBOLocation] ∧
      GLHelper.sample.destruct.gl.framebuffers
        = [GLHelper.sample.coloringFrameBuffer, GLHelper.sample.ssaoGenerationFrameBuffer,
            GLHelper.sample.ssaoBlurFrameBuffer] ∧
      GLHelper.sample.destruct.gl.textures = [1, 2, 3, 4, 5, 6, 7, 8, 9] ∧
      GLHelper.sample.destruct.gl.renderbuffers = [GLHelper.sample.rboDepth]) ∧
    (deleteTexture GLHelper.sample GLHelper.sample.depthMap).1.gl.textures
      = [1, 2, 4, 5, 6, 7, 8, 9] := by
  refine ⟨?_, ⟨by decide, by decide, by decide, by decide⟩,
    ⟨by decide, by decide, by decide, by decide⟩, by decide⟩
  intro g
  have h := destruct_gl g
  refine ⟨h.2.2.1, h.2.2.2, ?_⟩
  intro b hb hmem
  rw [h.1] at hmem
  have := (List.mem_filter.mp hmem).2
  simp only [ne_eq, decide_not, Bool.decide_and, Bool.and_eq_true, Bool.not_eq_true',
    decide_eq_false_iff_not] at this
  exact this.1 hb

/-! ## Lemmas on the render targets the constructor creates -/

/-- What the constructor leaves in a context without objects: the images, latest
first, the attachments, latest first, and the handles and screen size of the
object. -/
theorem construct_targets (units : Nat) (hunits : 0 < units) (options : Options)
    (materialUniformSize : Nat) (answers : DriverAnswers) (names : GeneratedNames)
    (start : GLHelper)
    (hconstruct : GLHelper.construct (Driver.fresh units) options materialUniformSize answers
      names = some start) :
    start.gl.textureImages
        = [(names.noiseTexture, 4, 4),
            (names.ssaoBlurredMap, options.screenWidth, options.screenHeight),
            (names.ssaoMap, options.screenWidth, options.screenHeight),
            (names.ambientMap, options.screenWidth, options.screenHeight),
            (names.diffuseAndSpecularLightedMap, options.screenWidth, options.screenHeight),
            (names.normalMap, options.screenWidth, options.screenHeight),
            (names.depthMap, options.screenWidth, options.screenHeight),
            (names.depthCubemapPoint, options.shadowMapPointWidth, options.shadowMapPointHeight),
            (names.depthMapDirectional, options.shadowMapDirectionalWidth,
              options.shadowMapDirectionalHeight)] ∧
      start.gl.framebufferTextures
        = [(names.ssaoBlurFrameBuffer, AttachmentPoint.COLOR 1, names.ssaoBlurredMap),
            (names.ssaoGenerationFrameBuffer, AttachmentPoint.COLOR 1, names.ssaoMap),
            (names.coloringFrameBuffer, AttachmentPoint.COLOR 2, names.normalMap),
            (names.coloringFrameBuffer, AttachmentPoint.COLOR 1, names.ambientMap),
            (names.coloringFrameBuffer, AttachmentPoint.COLOR 0,
              names.diffuseAndSpecularLightedMap),
            (names.depthOnlyFrameBuffer, AttachmentPoint.DEPTH, names.depthMap),
            (names.depthOnlyFrameBufferPoint, AttachmentPoint.DEPTH, names.depthCubemapPoint)] ∧
      start.depthOnlyFrameBuffer = names.depthOnlyFrameBuffer ∧
      start.coloringFrameBuffer = names.coloringFrameBuffer ∧
      start.ssaoGenerationFrameBuffer = names.ssaoGenerationFrameBuffer ∧
      start.ssaoBlurFrameBuffer = names.ssaoBlurFrameBuffer ∧
      start.options = options ∧
      start.screenWidth = options.screenWidth ∧
      start.screenHeight = options.screenHeight := by
  have hret := construct_returns _ _ _ _ _ _ hconstruct
  unfold GLHelper.construct at hconstruct
  simp only [hret.1, hret.2, Bool.not_true, Bool.false_eq_true, if_false,
    Option.some.injEq] at hconstruct
  subst hconstruct
  simp [Driver.fresh, createTexture2D, createUniformBuffer, glBindTexture2D, glTexImage,
    boundTexture, glBindFramebuffer, glFramebufferTexture, glFramebufferTextureLayer,
    glBindBuffer, glCullFace, glBindTexture2DArray, glBindTextureCubeMapArray,
    glBindRenderbuffer, glRenderbufferStorage, glFramebufferRenderbuffer, hunits]

theorem attachTexture_images (st : OpenglState) (d : Driver) (textureID unit : Nat) :
    (st.attachTexture d textureID unit).2.textureImages = d.textureImages ∧
      (st.attachTexture d textureID unit).2.framebufferTextures = d.framebufferTextures ∧
      (st.attachTexture d textureID unit).2.viewport = d.viewport ∧
      (st.attachTexture d textureID unit).2.framebufferBinding = d.framebufferBinding := by
  unfold OpenglState.attachTexture
  split <;> exact ⟨rfl, rfl, rfl, rfl⟩

theorem attach2DTextureArray_images (st : OpenglState) (d : Driver) (textureID unit : Nat) :
    (st.attach2DTextureArray d textureID unit).2.textureImages = d.textureImages ∧
      (st.attach2DTextureArray d textureID unit).2.framebufferTextures
        = d.framebufferTextures ∧
      (st.attach2DTextureArray d textureID unit).2.viewport = d.viewport ∧
      (st.attach2DTextureArray d textureID unit).2.framebufferBinding
        = d.framebufferBinding := by
  unfold OpenglState.attach2DTextureArray
  split <;> exact ⟨rfl, rfl, rfl, rfl⟩

theorem attachCubemapArray_images (st : OpenglState) (d : Driver) (textureID unit : Nat) :
    (st.attachCubemapArray d textureID unit).2.textureImages = d.textureImages ∧
      (st.attachCubemapArray d textureID unit).2.framebufferTextures
        = d.framebufferTextures ∧
      (st.attachCubemapArray d textureID unit).2.viewport = d.viewport ∧
      (st.attachCubemapArray d textureID unit).2.framebufferBinding
        = d.framebufferBinding := by
  unfold OpenglState.attachCubemapArray
  split <;> exact ⟨rfl, rfl, rfl, rfl⟩

/-- What a screen-size pass switch sets and what it keeps: the viewport has the
cached screen size, the framebuffer of the pass is bound, and images,
attachments, handles, options and cached screen size stay. -/
theorem screenPass_switch (pass : ScreenPass) (g : GLHelper) :
    (pass.switch g).gl.viewport = (0, 0, g.screenWidth, g.screenHeight) ∧
      (pass.switch g).gl.framebufferBinding = pass.framebuffer g ∧
      TargetsKept g (pass.switch g) ∧
      (pass.switch g).options = g.options ∧
      (pass.switch g).screenWidth = g.screenWidth ∧
      (pass.switch g).screenHeight = g.screenHeight := by
  cases pass <;>
    simp only [ScreenPass.switch, ScreenPass.framebuffer, TargetsKept,
      switchRenderToDepthPrePass, switchRenderToColoring, switchRenderToSSAOGeneration,
      switchRenderToSSAOBlur, glCullFace, attachTexture_images, attach2DTextureArray_images,
      attachCubemapArray_images, glBindFramebuffer, glViewport, and_self]

theorem otherSwitches_keep (g : GLHelper) (index : Nat) :
    (TargetsKept g (switchRenderToShadowMapDirectional g index) ∧
      (switchRenderToShadowMapDirectional g index).options = g.options ∧
      (switchRenderToShadowMapDirectional g index).screenWidth = g.screenWidth ∧
      (switchRenderToShadowMapDirectional g index).screenHeight = g.screenHeight) ∧
    (TargetsKept g (switchRenderToShadowMapPoint g) ∧
      (switchRenderToShadowMapPoint g).options = g.options ∧
      (switchRenderToShadowMapPoint g).screenWidth = g.screenWidth ∧
      (switchRenderToShadowMapPoint g).screenHeight = g.screenHeight) ∧
    (TargetsKept g (switchRenderToCombining g) ∧
      (switchRenderToCombining g).options = g.options ∧
      (switchRenderToCombining g).screenWidth = g.screenWidth ∧
      (switchRenderToCombining g).screenHeight = g.screenHeight) := by
  simp only [TargetsKept, switchRenderToShadowMapDirectional, switchRenderToShadowMapPoint,
    switchRenderToCombining, glCullFace, attachTexture_images, glBindFramebuffer, glViewport,
    glFramebufferTextureLayer, and_self]

theorem TargetsKept.trans {a b c : GLHelper} (hab : TargetsKept a b) (hbc : TargetsKept b c) :
    TargetsKept a c := by
  unfold TargetsKept at *
  obtain ⟨h1, h2, h3, h4, h5, h6⟩ := hab
  obtain ⟨k1, k2, k3, k4, k5, k6⟩ := hbc
  exact ⟨k1.trans h1, k2.trans h2, k3.trans h3, k4.trans h4, k5.trans h5, k6.trans h6⟩

/-- Along every reachable sequence the render targets stay those of construction;
and if every write to the options object keeps the screen size, the options
and the cached screen size keep it too. -/
theorem pipelineReachable_invariant (allowed : Options → Prop) (start g : GLHelper)
    (hreach : PipelineReachable allowed start g) :
    TargetsKept start g ∧
      ((∀ options, allowed options → options.screenWidth = start.options.screenWidth ∧
          options.screenHeight = start.options.screenHeight) →
        start.screenWidth = start.options.screenWidth →
        start.screenHeight = start.options.screenHeight →
        g.options.screenWidth = start.options.screenWidth ∧
          g.options.screenHeight = start.options.screenHeight ∧
          g.screenWidth = start.options.screenWidth ∧
          g.screenHeight = start.options.screenHeight) := by
  induction hreach with
  | constructed =>
    exact ⟨⟨rfl, rfl, rfl, rfl, rfl, rfl⟩, fun _ hw hh => ⟨rfl, rfl, hw, hh⟩⟩
  | written g options _ hallowed ih =>
    refine ⟨ih.1, fun hkeep hw hh => ?_⟩
    have h := ih.2 hkeep hw hh
    exact ⟨(hkeep options hallowed).1, (hkeep options hallowed).2, h.2.2.1, h.2.2.2⟩
  | reshaped g _ ih =>
    refine ⟨ih.1, fun hkeep hw hh => ?_⟩
    have h := ih.2 hkeep hw hh
    exact ⟨h.1, h.2.1, h.1, h.2.1⟩
  | shadowDirectional g index _ ih =>
    have hstep := (otherSwitches_keep g index).1
    refine ⟨ih.1.trans hstep.1, fun hkeep hw hh => ?_⟩
    have h := ih.2 hkeep hw hh
    rw [hstep.2.1, hstep.2.2.1, hstep.2.2.2]
    exact h
  | shadowPoint g _ ih =>
    have hstep := (otherSwitches_keep g 0).2.1
    refine ⟨ih.1.trans hstep.1, fun hkeep hw hh => ?_⟩
    have h := ih.2 hkeep hw hh
    rw [hstep.2.1, hstep.2.2.1, hstep.2.2.2]
    exact h
  | screenPass g pass _ ih =>
    have hstep := screenPass_switch pass g
    refine ⟨ih.1.trans hstep.2.2.1, fun hkeep hw hh => ?_⟩
    have h := ih.2 hkeep hw hh
    rw [hstep.2.2.2.1, hstep.2.2.2.2.1, hstep.2.2.2.2.2]
    exact h
  | combining g _ ih =>
    have hstep := (otherSwitches_keep g 0).2.2
    refine ⟨ih.1.trans hstep.1, fun hkeep hw hh => ?_⟩
    have h := ih.2 hkeep hw hh
    rw [hstep.2.1, hstep.2.2.1, hstep.2.2.2]
    exact h

/-! ## Claims on the viewport and the render targets -/

/-- C30, counterexample: the object is constructed with a screen of 800 x 600 in
a context without objects; the options object then holds 1024 x 768 and
`reshape` runs; `switchRenderToDepthPrePass` now sets the viewport
`(0, 0, 1024, 768)` and binds the depth-only framebuffer, whose one attached
texture, the depth map, still has its image of 800 x 600. -/
theorem reshape_viewport_differs_from_textures :
    GLHelper.construct (Driver.fresh 16) Options.sample 32 DriverAnswers.sample
        GeneratedNames.first = some GLHelper.sample ∧
      (switchRenderToDepthPrePass
        (reshape (optionsWritten GLHelper.sample Options.resized))).gl.viewport
          = (0, 0, 1024, 768) ∧
      (switchRenderToDepthPrePass
        (reshape (optionsWritten GLHelper.sample Options.resized))).gl.framebufferBinding
          = GLHelper.sample.depthOnlyFrameBuffer ∧
      attachedTextures
        (switchRenderToDepthPrePass
          (reshape (optionsWritten GLHelper.sample Options.resized))).gl
        GLHelper.sample.depthOnlyFrameBuffer = [GLHelper.sample.depthMap] ∧
      textureSizeOf
        (switchRenderToDepthPrePass
          (reshape (optionsWritten GLHelper.sample Options.resized))).gl
        GLHelper.sample.depthMap = some (800, 600) := by
  refine ⟨by decide, by decide, by decide, by decide, by decide⟩

/-- C30, as amended: after construction in a context without objects (the
generated framebuffer names distinct, the generated texture names distinct) and
any sequence of writes to the options object, `reshape` calls and pass
switches, a screen-size pass sets the viewport to the cached screen size, which
`reshape` overwrites with the size the options hold at that moment, and binds
its framebuffer, whose attached textures all keep the image size of
construction; the viewport has that size as well whenever the writes to the
options object keep the screen size. -/
theorem screen_pass_viewport_and_textures (units : Nat) (options : Options)
    (materialUniformSize : Nat) (answers : DriverAnswers) (names : GeneratedNames)
    (allowed : Options → Prop) (start g : GLHelper) (pass : ScreenPass)
    (hunits : 0 < units)
    (hframebuffers : names.framebuffers.Nodup) (htextures : names.textures.Nodup)
    (hconstruct : GLHelper.construct (Driver.fresh units) options materialUniformSize answers
      names = some start)
    (hreach : PipelineReachable allowed start g) :
    (pass.switch g).gl.viewport = (0, 0, g.screenWidth, g.screenHeight) ∧
      (pass.switch g).gl.framebufferBinding = pass.framebuffer start ∧
      attachedTextures (pass.switch g).gl (pass.framebuffer start) ≠ [] ∧
      (∀ texture ∈ attachedTextures (pass.switch g).gl (pass.framebuffer start),
        textureSizeOf (pass.switch g).gl texture
          = some (options.screenWidth, options.screenHeight)) ∧
      (reshape g).screenWidth = g.options.screenWidth ∧
      (reshape g).screenHeight = g.options.screenHeight ∧
      ((∀ written, allowed written → written.screenWidth = options.screenWidth ∧
          written.screenHeight = options.screenHeight) →
        (pass.switch g).gl.viewport = (0, 0, options.screenWidth, options.screenHeight)) := by
  obtain ⟨himages, hattach, hf1, hf2, hf3, hf4, hoptions, hwidth, hheight⟩ :=
    construct_targets units hunits options materialUniformSize answers names start hconstruct
  obtain ⟨hkept, hsize⟩ := pipelineReachable_invariant allowed start g hreach
  obtain ⟨hviewport, hbinding, hstep, _, _, _⟩ := screenPass_switch pass g
  have hall := hkept.trans hstep
  obtain ⟨k1, k2, k3, k4, k5, k6⟩ := hall
  obtain ⟨_, _, g3, g4, g5, g6⟩ := hkept
  simp only [GeneratedNames.framebuffers, List.nodup_cons, List.mem_cons, List.mem_singleton,
    List.not_mem_nil, or_false, not_or, List.nodup_nil, and_true] at hframebuffers
  simp only [GeneratedNames.textures, List.nodup_cons, List.mem_cons, List.mem_singleton,
    List.not_mem_nil, or_false, not_or, List.nodup_nil, and_true] at htextures
  refine ⟨hviewport, ?_, ?_, ?_, rfl, rfl, ?_⟩
  · rw [hbinding]
    cases pass
    · exact g3
    · exact g4
    · exact g5
    · exact g6
  · unfold attachedTextures
    rw [k2, hattach]
    cases pass <;> simp [ScreenPass.framebuffer, hf1, hf2, hf3, hf4]
  · intro texture hmem
    unfold attachedTextures at hmem
    unfold textureSizeOf
    rw [k2, hattach] at hmem
    rw [k1, himages]
    cases pass <;>
      simp [ScreenPass.framebuffer, hf1, hf2, hf3, hf4, List.filter_cons, hframebuffers,
        eq_comm] at hmem
    · subst hmem
      simp [List.find?_cons, htextures, eq_comm]
    · rcases hmem with hmem | hmem | hmem <;> subst hmem <;>
        simp [List.find?_cons, htextures, eq_comm]
    · subst hmem
      simp [List.find?_cons, htextures, eq_comm]
    · subst hmem
      simp [List.find?_cons, htextures, eq_comm]
  · intro hkeep
    rw [hviewport]
    have h := hsize (by rw [hoptions]; exact hkeep) (by rw [hwidth, hoptions])
      (by rw [hheight, hoptions])
    rw [h.2.2.1, h.2.2.2, hoptions]

/-- Witness for C30 as amended: the depth pre-pass after the object constructed
for 800 x 600 went through a write of 1024 x 768 to the options object and a
`reshape`. -/
theorem screen_pass_viewport_and_textures_witness :
    (ScreenPass.depthPrePass.switch
        (reshape (optionsWritten GLHelper.sample Options.resized))).gl.viewport
        = (0, 0, (reshape (optionsWritten GLHelper.sample Options.resized)).screenWidth,
            (reshape (optionsWritten GLHelper.sample Options.resized)).screenHeight) ∧
      (ScreenPass.depthPrePass.switch
        (reshape (optionsWritten GLHelper.sample Options.resized))).gl.framebufferBinding
        = ScreenPass.depthPrePass.framebuffer GLHelper.sample ∧
      attachedTextures
        (ScreenPass.depthPrePass.switch
          (reshape (optionsWritten GLHelper.sample Options.resized))).gl
        (ScreenPass.depthPrePass.framebuffer GLHelper.sample) ≠ [] ∧
      (∀ texture ∈ attachedTextures
          (ScreenPass.depthPrePass.switch
            (reshape (optionsWritten GLHelper.sample Options.resized))).gl
          (ScreenPass.depthPrePass.framebuffer GLHelper.sample),
        textureSizeOf
          (ScreenPass.depthPrePass.switch
            (reshape (optionsWritten GLHelper.sample Options.resized))).gl texture
          = some (Options.sample.screenWidth, Options.sample.screenHeight)) ∧
      (reshape (reshape (optionsWritten GLHelper.sample Options.resized))).screenWidth
        = (reshape (optionsWritten GLHelper.sample Options.resized)).options.screenWidth ∧
      (reshape (reshape (optionsWritten GLHelper.sample Options.resized))).screenHeight
        = (reshape (optionsWritten GLHelper.sample Options.resized)).options.screenHeight ∧
      ((∀ written : Options, True → written.screenWidth = Options.sample.screenWidth ∧
          written.screenHeight = Options.sample.screenHeight) →
        (ScreenPass.depthPrePass.switch
          (reshape (optionsWritten GLHelper.sample Options.resized))).gl.viewport
          = (0, 0, Options.sample.screenWidth, Options.sample.screenHeight)) :=
  screen_pass_viewport_and_textures 16 Options.sample 32 DriverAnswers.sample
    GeneratedNames.first (fun _ => True) GLHelper.sample
    (reshape (optionsWritten GLHelper.sample Options.resized)) ScreenPass.depthPrePass
    (by decide) (by decide) (by decide) (by decide)
    (PipelineReachable.reshaped _
      (PipelineReachable.written _ Options.resized PipelineReachable.constructed trivial))

end Limon
